import Mathlib

/-!
# Return routing, instant credit and wallet ledger

A shallow embedding of the decision router (`routes/decision.js`), the credit
calculator (`services/CreditCalculationService.js`), the wallet ledger
(`services/WalletCreditService.js`), the donation-credit orchestrator
(`services/CreditManagementService.js`) and the preview and admin handlers of
`routes/credit.js`.

Conventions of the embedding.

* JavaScript numbers are exact rationals (`ℚ`): finite values only, arithmetic
  without binary rounding error. `NaN` and the infinities are not values of the
  embedding; where the source can produce one (a division by zero) the field is
  an `Option` and `none` stands for the non-finite result. `Math.round` on a
  binary double can give the other neighbour when its argument is at or next
  to a tie (`33.285` is held as `33.28499…`), so the general statements on the
  reported credit amounts and on the resale estimate bound the distance of a
  rounded output from the unrounded value and leave the direction of the
  rounding open.
* PostgreSQL tables are lists of rows in insertion order. The `DECIMAL(10,2)`
  columns of the two wallet tables store what is written to them rounded to two
  decimals, ties away from zero, and reject a value that does not fit
  (`pgRound`, `pgFits`). For the cost-sharing and summary tables the rounding
  of a stored value is not represented, and a value that does not fit its
  column is one of the rejections the fault oracle stands for.
* Every SQL statement site has a name (`Stmt`). Whether the database rejects a
  statement for a reason the embedding does not compute (a text too long for
  its column, a lost connection) is read from a fault oracle `Stmt → Bool`
  carried in `Env`, together with the clock and the random source the code
  reads.
* A statement issued through `client` between `BEGIN` and `COMMIT` acts on the
  connection's view and reaches the committed state at `COMMIT`; a statement
  issued through `pool.query` is committed at once. `pool.connect()` and the
  `ROLLBACK` of a `catch` block always succeed.
-/

/-! ## JavaScript arithmetic helpers -/

/-- JavaScript `Math.round`: the nearest integer, ties towards `+∞`. -/
def jsRound (x : ℚ) : ℤ := ⌊x + 1 / 2⌋

/-- JavaScript `Math.ceil`. -/
def jsCeil (x : ℚ) : ℤ := ⌈x⌉

/-- The idiom `Math.round(x * 100) / 100` used for every reported amount. -/
def round2 (x : ℚ) : ℚ := (jsRound (x * 100) : ℚ) / 100

/-- JavaScript `a || b` on numbers: `b` when `a` is falsy (zero). -/
def jsOr (a b : ℚ) : ℚ := if a = 0 then b else a

/-- JavaScript `x.toFixed(1)` for a number below `10 ^ 21` in size: the nearest
number of tenths, the larger one at a tie, written with one decimal and with a
minus sign in front when `x` is negative. -/
def toFixed1 (x : ℚ) : String :=
  let n : ℕ := (⌊|x| * 10 + 1 / 2⌋ : ℤ).toNat
  (if x < 0 then "-" else "") ++ toString (n / 10) ++ "." ++ toString (n % 10)

/-- What PostgreSQL stores when `x` is written to a column of type
`DECIMAL(_, scale)`: `x` rounded to `scale` decimals, ties away from zero. -/
def pgRound (scale : ℕ) (x : ℚ) : ℚ :=
  if 0 ≤ x then ((⌊x * 10 ^ scale + 1 / 2⌋ : ℤ) : ℚ) / 10 ^ scale
  else -(((⌊-x * 10 ^ scale + 1 / 2⌋ : ℤ) : ℚ) / 10 ^ scale)

/-- Whether `x` can be written to a column of type `DECIMAL(precision, scale)`:
the rounded value has at most `precision - scale` digits before the point.
Otherwise the statement fails with "numeric field overflow". -/
def pgFits (precision scale : ℕ) (x : ℚ) : Bool :=
  decide (|pgRound scale x| < 10 ^ (precision - scale))

/-- JavaScript lower-casing of one character, exact wherever a letter `a` to
`z` is involved: `A` to `Z` become `a` to `z`, the Kelvin sign U+212A becomes
`k`, and U+0130 becomes `i` followed by U+0307. JavaScript lower-cases every
other character to characters outside `a` to `z`; such a character is kept as
it is, which makes no difference to a search for a word written in `a` to
`z`. -/
def lowerChar (c : Char) : List Char :=
  if c = Char.ofNat 8490 then ['k']
  else if c = Char.ofNat 304 then ['i', Char.ofNat 775]
  else [c.toLower]

/-- JavaScript `s.toLowerCase()`. -/
def toLowerCase (s : String) : List Char := s.data.flatMap lowerChar

/-- JavaScript `s.includes(sub)` on character lists. -/
def includes : List Char → List Char → Bool
  | [], sub => sub.isEmpty
  | c :: cs, sub => sub.isPrefixOf (c :: cs) || includes cs sub

namespace CreditCalculationService

/-! ## CreditCalculationService.js -/

/-- The five keys of the cost-factor tables. -/
inductive CategoryKey where
  | fashion
  | electronics
  | homeKitchen
  | beauty
  | default
  deriving DecidableEq, Repr

/-- One entry of `costFactors.reverseLogistics`. -/
structure LogisticsFactor where
  base : ℚ
  distanceMultiplier : ℚ

/-- The object `this.costFactors`; each table is total over the five keys. -/
structure CostFactors where
  reverseLogistics : CategoryKey → LogisticsFactor
  warehouseProcessing : CategoryKey → ℚ
  productWriteOff : CategoryKey → ℚ
  qualityDegradation : CategoryKey → ℚ

/-- The object `this.creditConfig`. -/
structure CreditConfig where
  buyerCreditPercentage : ℚ
  maxCreditPercentage : ℚ
  minCreditAmount : ℚ
  maxCreditAmount : ℚ

/-- The object `this.costSharingConfig`. -/
structure CostSharingConfig where
  seller : ℚ
  meesho : ℚ

/-- The mutable configuration of one `CreditCalculationService` instance. -/
structure Config where
  costFactors : CostFactors
  creditConfig : CreditConfig
  costSharingConfig : CostSharingConfig

/-- The configuration installed by the constructor. -/
def defaultConfig : Config where
  costFactors :=
    { reverseLogistics := fun c =>
        match c with
        | .fashion => ⟨8, 0.5⟩
        | .electronics => ⟨12, 0.8⟩
        | .homeKitchen => ⟨10, 0.6⟩
        | .beauty => ⟨6, 0.4⟩
        | .default => ⟨9, 0.6⟩
      warehouseProcessing := fun c =>
        match c with
        | .fashion => 4.5
        | .electronics => 8.0
        | .homeKitchen => 6.0
        | .beauty => 3.5
        | .default => 5.5
      productWriteOff := fun c =>
        match c with
        | .fashion => 15
        | .electronics => 25
        | .homeKitchen => 12
        | .beauty => 18
        | .default => 16
      qualityDegradation := fun c =>
        match c with
        | .fashion => 20
        | .electronics => 30
        | .homeKitchen => 15
        | .beauty => 25
        | .default => 22 }
  creditConfig :=
    { buyerCreditPercentage := 60
      maxCreditPercentage := 35
      minCreditAmount := 25
      maxCreditAmount := 2000 }
  costSharingConfig := { seller := 65, meesho := 35 }

/-- The object returned by `calculateAvoidedCosts`. -/
structure AvoidedCosts where
  reverseLogistics : ℚ
  warehouseProcessing : ℚ
  productWriteOff : ℚ
  qualityDegradation : ℚ
  total : ℚ

/-- The object returned by `calculateCostSharing`. -/
structure CostSharing where
  total : ℚ
  sellerAmount : ℚ
  meeshoAmount : ℚ
  sellerPercentage : ℚ
  meeshoPercentage : ℚ

/-- The field `creditDetails.sellerBenefit`; `savingsPercentage` is `none` when
the division by the traditional cost is a division by zero. -/
structure SellerBenefit where
  traditionalCost : ℚ
  ngoPathCost : ℚ
  savings : ℚ
  savingsPercentage : Option ℤ

/-- The field `creditDetails.metadata`. -/
structure Metadata where
  productPrice : ℚ
  category : CategoryKey
  distanceKm : ℚ
  returnReason : String
  calculatedAt : String

/-- The field `creditDetails` of a successful calculation. -/
structure CreditDetails where
  buyerCredit : ℚ
  avoidedCosts : AvoidedCosts
  costSharing : CostSharing
  sellerBenefit : SellerBenefit
  metadata : Metadata

/-- The `product` argument; `price` is `parseFloat(product.price)`, `category`
is `none` when the field is missing or empty. -/
structure Product where
  name : String
  price : ℚ
  category : Option String
  sku : String

/-- The `orderDetails` argument; an address is `none` when missing or empty. -/
structure OrderDetails where
  deliveryAddress : Option String
  sellerLocation : Option String

/-- Function `getCategoryKey(category)`. -/
def getCategoryKey (category : Option String) : CategoryKey :=
  match category with
  | none => .default
  | some category =>
    if category.isEmpty then .default
    else
      let categoryLower := toLowerCase category
      if includes categoryLower "fashion".data || includes categoryLower "clothing".data
          || includes categoryLower "apparel".data then .fashion
      else if includes categoryLower "electronics".data || includes categoryLower "mobile".data
          || includes categoryLower "laptop".data then .electronics
      else if includes categoryLower "home".data || includes categoryLower "kitchen".data
          || includes categoryLower "furniture".data then .homeKitchen
      else if includes categoryLower "beauty".data || includes categoryLower "cosmetics".data
          || includes categoryLower "skincare".data then .beauty
      else .default

/-- Function `extractCity(address)`. -/
def extractCity (address : Option String) : String :=
  match address with
  | none => "unknown"
  | some address =>
    if address.isEmpty then "unknown"
    else
      let addressLower := toLowerCase address
      if includes addressLower "bangalore".data || includes addressLower "bengaluru".data then
        "bangalore"
      else if includes addressLower "mumbai".data then "mumbai"
      else if includes addressLower "delhi".data then "delhi"
      else if includes addressLower "chennai".data then "chennai"
      else if includes addressLower "pune".data then "pune"
      else if includes addressLower "hyderabad".data then "hyderabad"
      else if includes addressLower "gurgaon".data then "gurgaon"
      else "unknown"

/-- The table `cityDistances`. -/
def cityDistances : List (String × ℚ) :=
  [("bangalore-mumbai", 980), ("bangalore-delhi", 2150), ("mumbai-delhi", 1400),
   ("bangalore-chennai", 350), ("mumbai-pune", 150), ("delhi-gurgaon", 30),
   ("bangalore-hyderabad", 570), ("same-city", 50)]

/-- Function `calculateDistance(address1, address2)`. -/
def calculateDistance (address1 address2 : Option String) : ℚ :=
  let missing (a : Option String) : Bool :=
    match a with
    | none => true
    | some s => s.isEmpty
  if missing address1 || missing address2 then 500
  else
    let city1 := extractCity address1
    let city2 := extractCity address2
    if city1 = city2 then (cityDistances.lookup "same-city").getD 0
    else
      let distanceKey :=
        if city2 < city1 then city2 ++ "-" ++ city1 else city1 ++ "-" ++ city2
      match cityDistances.lookup distanceKey with
      | some d => jsOr d 750
      | none => 750

/-- Function `calculateAvoidedCosts(productPrice, category, distanceKm, returnReason)`. -/
def calculateAvoidedCosts (cfg : Config) (productPrice : ℚ) (category : CategoryKey)
    (distanceKm : ℚ) : AvoidedCosts :=
  let factors := cfg.costFactors
  let reverseLogistics := factors.reverseLogistics category
  let logisticsCost := (productPrice * reverseLogistics.base / 100) +
    (productPrice * reverseLogistics.distanceMultiplier * (jsCeil (distanceKm / 100) : ℚ) / 100)
  let processingRate :=
    jsOr (factors.warehouseProcessing category) (factors.warehouseProcessing .default)
  let processingCost := productPrice * processingRate / 100
  let writeOffRate := jsOr (factors.productWriteOff category) (factors.productWriteOff .default)
  let writeOffCost := productPrice * writeOffRate / 100
  let degradationRate :=
    jsOr (factors.qualityDegradation category) (factors.qualityDegradation .default)
  let degradationCost := productPrice * degradationRate / 100
  let totalAvoidedCosts := logisticsCost + processingCost + writeOffCost + degradationCost
  { reverseLogistics := round2 logisticsCost
    warehouseProcessing := round2 processingCost
    productWriteOff := round2 writeOffCost
    qualityDegradation := round2 degradationCost
    total := round2 totalAvoidedCosts }

/-- Function `calculateCostSharing(totalCredit)`. -/
def calculateCostSharing (cfg : Config) (totalCredit : ℚ) : CostSharing :=
  let sellerAmount := (totalCredit * cfg.costSharingConfig.seller) / 100
  let meeshoAmount := (totalCredit * cfg.costSharingConfig.meesho) / 100
  { total := totalCredit
    sellerAmount := sellerAmount
    meeshoAmount := meeshoAmount
    sellerPercentage := cfg.costSharingConfig.seller
    meeshoPercentage := cfg.costSharingConfig.meesho }

/-- The local `rawBuyerCredit` of `calculateInstantCredit`. -/
def rawBuyerCredit (cfg : Config) (productPrice : ℚ) (category : CategoryKey)
    (distanceKm : ℚ) : ℚ :=
  ((calculateAvoidedCosts cfg productPrice category distanceKm).total *
    cfg.creditConfig.buyerCreditPercentage) / 100

/-- The local `cappedCredit` of `calculateInstantCredit`. -/
def cappedCredit (cfg : Config) (productPrice : ℚ) (category : CategoryKey)
    (distanceKm : ℚ) : ℚ :=
  min (min (rawBuyerCredit cfg productPrice category distanceKm)
    ((productPrice * cfg.creditConfig.maxCreditPercentage) / 100))
    cfg.creditConfig.maxCreditAmount

/-- The local `finalBuyerCredit` of `calculateInstantCredit`. -/
def finalBuyerCredit (cfg : Config) (productPrice : ℚ) (category : CategoryKey)
    (distanceKm : ℚ) : ℚ :=
  max (cappedCredit cfg productPrice category distanceKm) cfg.creditConfig.minCreditAmount

/-- The body of `calculateInstantCredit` after its three inputs are read:
`productPrice`, `category` and `distanceKm`. -/
def creditDetailsFor (cfg : Config) (productPrice : ℚ) (category : CategoryKey)
    (distanceKm : ℚ) (returnReason calculatedAt : String) : CreditDetails :=
  let avoidedCosts := calculateAvoidedCosts cfg productPrice category distanceKm
  let finalBuyerCredit := finalBuyerCredit cfg productPrice category distanceKm
  let costSharing := calculateCostSharing cfg finalBuyerCredit
  let traditionalReturnCost := avoidedCosts.total
  let sellerNetCost := costSharing.sellerAmount
  let sellerSavings := traditionalReturnCost - sellerNetCost
  { buyerCredit := round2 finalBuyerCredit
    avoidedCosts := { avoidedCosts with total := round2 avoidedCosts.total }
    costSharing :=
      { costSharing with
        sellerAmount := round2 costSharing.sellerAmount
        meeshoAmount := round2 costSharing.meeshoAmount }
    sellerBenefit :=
      { traditionalCost := round2 traditionalReturnCost
        ngoPathCost := round2 sellerNetCost
        savings := round2 sellerSavings
        savingsPercentage :=
          if traditionalReturnCost = 0 then none
          else some (jsRound ((sellerSavings / traditionalReturnCost) * 100)) }
    metadata :=
      { productPrice := productPrice
        category := category
        distanceKm := distanceKm
        returnReason := returnReason
        calculatedAt := calculatedAt } }

/-- Function `calculateInstantCredit(product, orderDetails, returnReason)`. The
result is `none` for `{ success: false }`, which the `catch` produces when
`product` or `orderDetails` is not an object; `calculatedAt` is the clock
reading stored in the metadata. -/
def calculateInstantCredit (cfg : Config) (product : Option Product)
    (orderDetails : Option OrderDetails) (returnReason calculatedAt : String) :
    Option CreditDetails :=
  match product, orderDetails with
  | some product, some orderDetails =>
    let productPrice := product.price
    let category := getCategoryKey product.category
    let distanceKm := calculateDistance orderDetails.deliveryAddress orderDetails.sellerLocation
    some (creditDetailsFor cfg productPrice category distanceKm returnReason calculatedAt)
  | _, _ => none

end CreditCalculationService

namespace DecisionRoute

/-! ## routes/decision.js -/

open CreditCalculationService

/-- JavaScript `a || b` on an optional string: `b` when `a` is missing or empty. -/
def strOr (a : Option String) (b : String) : String :=
  match a with
  | none => b
  | some s => if s.isEmpty then b else s

/-- The `itemData` argument of `makeReturnDecision`; `purchaseDate` is in
milliseconds since the epoch. -/
structure ItemData where
  orderItemId : String
  productId : String
  originalPrice : ℚ
  category : Option String
  condition : String
  purchaseDate : ℤ
  brand : Option String
  productName : Option String
  sku : Option String
  sellerLocation : Option String

/-- The `customerData` argument of `makeReturnDecision`. -/
structure CustomerData where
  userId : String
  loyaltyTier : Option String
  address : Option String

/-- A row returned by the NGO directory (`ngo.findNearby`). -/
structure NgoRow where
  ngo_id : String
  name : String
  distance_km : ℚ
  capacity_limit : ℤ
  current_capacity : ℤ
  verification_status : String

/-- An element of the list returned by `findNearbyNGOs`; `distance` is a text. -/
structure NgoInfo where
  id : String
  name : String
  distance : String
  capacity : ℤ
  verified : Bool

/-- What one evaluation reads from outside: the clock (milliseconds), the value
of `Math.random()`, the answer of the NGO directory (`none` when the lookup
throws) and the timestamp text of the credit calculation. -/
structure DecisionEnv where
  now : ℤ
  random : ℚ
  ngoLookup : Option (List NgoRow)
  calculatedAt : String

/-- The object returned by `makeReturnDecision`; a field the returned object
literal does not have is `none`. -/
structure Decision where
  pathway : String
  recommended : String
  processingTime : String
  confidence : ℚ
  creditOffered : Option ℚ := none
  creditDetails : Option CreditDetails := none
  estimatedSavings : Option ℚ := none
  ngosAvailable : Option ℕ := none
  nearbyNGOs : List NgoInfo := []
  dynamicCreditEnabled : Option Bool := none
  flashSalePrice : Option ℤ := none
  originalPrice : Option ℚ := none
  discount : Option ℤ := none
  nearbyUsers : Option ℤ := none
  estimatedResaleValue : Option ℤ := none
  processingCost : Option ℤ := none
  expectedProfit : Option ℤ := none
  qualityGrade : Option String := none

/-- Function `calculateDonationCredit(itemValue, loyaltyTier = 'BRONZE')`. -/
def calculateDonationCredit (itemValue : ℚ) (loyaltyTier : Option String) : ℤ :=
  let basePercentage : ℚ := 0.25
  let tierMultipliers : List (String × ℚ) :=
    [("BRONZE", 1.0), ("SILVER", 1.1), ("GOLD", 1.2), ("PLATINUM", 1.3)]
  let multiplier := jsOr ((tierMultipliers.lookup (loyaltyTier.getD "BRONZE")).getD 0) 1.0
  jsRound (itemValue * basePercentage * multiplier)

/-- Function `findNearbyNGOs(location, category)`: the directory answer mapped
to the reported shape, the empty list when the lookup throws. -/
def findNearbyNGOs (env : DecisionEnv) : List NgoInfo :=
  match env.ngoLookup with
  | some nearbyNGOs =>
    nearbyNGOs.map fun ngoData =>
      { id := ngoData.ngo_id
        name := ngoData.name
        distance := toFixed1 ngoData.distance_km ++ " km"
        capacity := ngoData.capacity_limit - ngoData.current_capacity
        verified := ngoData.verification_status == "VERIFIED" }
  | none => []

/-- Function `estimateResaleValue(itemData)`. -/
def estimateResaleValue (env : DecisionEnv) (itemData : ItemData) : ℤ :=
  let ageInDays : ℤ := ⌊((env.now - itemData.purchaseDate : ℤ) : ℚ) / (1000 * 60 * 60 * 24)⌋
  let ageDepreciation : ℚ := min ((ageInDays : ℚ) / 365 * 0.3) 0.5
  let conditionMultipliers : List (String × ℚ) :=
    [("Like New", 0.8), ("Good", 0.65), ("Fair", 0.45), ("Poor", 0.25)]
  let categoryMultipliers : List (String × ℚ) :=
    [("Electronics", 0.7), ("Fashion", 0.6), ("Home & Kitchen", 0.5), ("Books", 0.4)]
  let conditionMultiplier := jsOr ((conditionMultipliers.lookup itemData.condition).getD 0) 0.5
  let categoryMultiplier :=
    jsOr ((itemData.category.bind categoryMultipliers.lookup).getD 0) 0.5
  let estimatedValue :=
    itemData.originalPrice * (1 - ageDepreciation) * conditionMultiplier * categoryMultiplier
  jsRound estimatedValue

/-- Function `calculateProcessingCost(category, condition)`. -/
def calculateProcessingCost (category : Option String) (condition : String) : ℤ :=
  let baseCosts : List (String × ℚ) :=
    [("Electronics", 150), ("Fashion", 80), ("Home & Kitchen", 100), ("Books", 40)]
  let conditionMultipliers : List (String × ℚ) :=
    [("Like New", 1.0), ("Good", 1.2), ("Fair", 1.5), ("Poor", 2.0)]
  let baseCost := jsOr ((category.bind baseCosts.lookup).getD 0) 100
  let multiplier := jsOr ((conditionMultipliers.lookup condition).getD 0) 1.0
  jsRound (baseCost * multiplier)

/-- Function `determineQualityGrade(condition)`. -/
def determineQualityGrade (condition : String) : String :=
  let gradeMapping : List (String × String) :=
    [("Like New", "LIKE_NEW"), ("Good", "GOOD"), ("Fair", "FAIR"), ("Poor", "FAIR")]
  (gradeMapping.lookup condition).getD "FAIR"

/-- Function `makeReturnDecision(itemData, customerData)`. The credit calculator
it uses belongs to a `CreditManagementService` constructed inside the call, so
it carries the constructor's configuration. -/
def makeReturnDecision (env : DecisionEnv) (itemData : ItemData) (customerData : CustomerData) :
    Decision :=
  let originalPrice := itemData.originalPrice
  if originalPrice ≤ 500 then
    let nearbyNGOs := findNearbyNGOs env
    let product : Product :=
      { name := strOr itemData.productName "Product"
        price := originalPrice
        category := itemData.category
        sku := strOr itemData.sku itemData.productId }
    let orderDetails : OrderDetails :=
      { deliveryAddress := some (strOr customerData.address "Bangalore, Karnataka")
        sellerLocation := some (strOr itemData.sellerLocation "Bangalore, Karnataka") }
    let creditCalculation :=
      calculateInstantCredit defaultConfig (some product) (some orderDetails) "ngo_donation"
        env.calculatedAt
    let dynamicCredit : ℚ :=
      match creditCalculation with
      | some creditDetails => creditDetails.buyerCredit
      | none => calculateDonationCredit originalPrice customerData.loyaltyTier
    { pathway := "CARECONNECT"
      recommended := "DONATION"
      creditOffered := some dynamicCredit
      creditDetails := creditCalculation
      estimatedSavings := some (originalPrice * 0.6)
      processingTime := "24 hours"
      ngosAvailable := some nearbyNGOs.length
      nearbyNGOs := nearbyNGOs
      confidence := 0.85
      dynamicCreditEnabled := some creditCalculation.isSome }
  else
    let resaleValue := estimateResaleValue env itemData
    let processingCost := calculateProcessingCost itemData.category itemData.condition
    let flashSalePrice := jsRound (originalPrice * 0.6)
    if originalPrice > 1000 ∧ itemData.condition = "Good" then
      { pathway := "FLASH_SALE"
        recommended := "FLASH_SALE"
        flashSalePrice := some flashSalePrice
        originalPrice := some originalPrice
        discount := some (jsRound (((originalPrice - flashSalePrice) / originalPrice) * 100))
        processingTime := "2-3 hours"
        nearbyUsers := some (⌊env.random * 50⌋ + 10)
        confidence := 0.82 }
    else
      { pathway := "RECOMMERCE"
        recommended := "RESALE"
        estimatedResaleValue := some resaleValue
        processingCost := some processingCost
        expectedProfit := some (resaleValue - processingCost)
        processingTime := "5-7 days"
        qualityGrade := some (determineQualityGrade itemData.condition)
        confidence := 0.78 }

end DecisionRoute

namespace Database

/-! ## The persisted tables -/

/-- Values of `transactionTypes`. -/
inductive TransactionType where
  | ngo_donation_credit
  | refund
  | cashback
  | purchase
  | withdrawal
  deriving DecidableEq, Repr

/-- Values of `transactionStatus`. -/
inductive TransactionStatus where
  | pending
  | completed
  | failed
  | cancelled
  deriving DecidableEq, Repr

/-- A row of table `wallets` (`user_id` is `UNIQUE`); timestamps and
`is_active` are not represented. -/
structure Wallet where
  user_id : String
  balance : ℚ
  total_credits_earned : ℚ
  total_spent : ℚ

/-- A row of table `wallet_transactions` (`transaction_id` is `UNIQUE`);
timestamps and the JSON metadata column are not represented. -/
structure WalletTransaction where
  transaction_id : String
  user_id : String
  type : TransactionType
  amount : ℚ
  status : TransactionStatus
  description : String
  order_id : Option String
  return_id : Option String
  ngo_id : Option String

/-- A row of table `credit_cost_sharing` (`transaction_id` is `UNIQUE`). -/
structure CostSharingRecord where
  transaction_id : String
  user_id : String
  order_id : String
  return_id : Option String
  ngo_id : Option String
  seller_id : String
  buyer_credit_amount : ℚ
  total_avoided_costs : ℚ
  seller_cost_amount : ℚ
  meesho_cost_amount : ℚ
  seller_cost_percentage : ℚ
  meesho_cost_percentage : ℚ
  traditional_return_cost : ℚ
  seller_savings : ℚ
  seller_savings_percentage : Option ℤ
  product_price : ℚ
  product_category : Option String
  status : String

/-- One entry of the JSON column `category_breakdown`. -/
structure CategoryTotals where
  transactions : ℤ
  totalCredits : ℚ
  totalAvoidedCosts : ℚ
  totalSellerCosts : ℚ
  totalMeeshoCosts : ℚ

/-- A row of table `ngo_credit_financial_summary` (`month_year` is `UNIQUE`). -/
structure MonthlySummary where
  month_year : String
  total_transactions : ℤ
  total_credits_issued : ℚ
  total_avoided_costs : ℚ
  total_seller_costs : ℚ
  total_meesho_costs : ℚ
  total_seller_savings : ℚ
  average_credit_amount : ℚ
  average_seller_savings : ℚ
  cost_efficiency_ratio : ℚ
  category_breakdown : Option (List (String × CategoryTotals))

/-- The committed content of the four tables. -/
structure Db where
  wallets : List Wallet
  wallet_transactions : List WalletTransaction
  credit_cost_sharing : List CostSharingRecord
  ngo_credit_financial_summary : List MonthlySummary

/-- The database with four empty tables. -/
def Db.empty : Db := ⟨[], [], [], []⟩

/-- The SQL statement sites of the two services. -/
inductive Stmt where
  | walletSelect
  | walletInsert
  | issueBegin
  | transactionInsert
  | walletCreditUpdate
  | transactionComplete
  | issueCommit
  | paymentBegin
  | paymentSelect
  | paymentInsert
  | paymentUpdate
  | paymentCommit
  | donationBegin
  | costSharingInsert
  | summarySelect
  | summaryUpsert
  | donationCommit
  | detailsTransactions
  | detailsSummary
  deriving DecidableEq, Repr

/-- What one service call reads from outside: which statements the database
rejects, `Date.now()`, the six characters taken from `Math.random()`, and the
two texts derived from `new Date().toISOString()`. -/
structure Env where
  fails : Stmt → Bool
  timestamp : ℕ
  random : String
  monthYear : String
  calculatedAt : String

end Database

namespace WalletCreditService

/-! ## WalletCreditService.js -/

open Database

/-- Function `generateTransactionId(prefix, userId)`. -/
def generateTransactionId (env : Env) (pfx userId : String) : String :=
  let userHash := String.mk ((userId.data.take 4).map Char.toUpper)
  pfx ++ "_" ++ userHash ++ "_" ++ toString env.timestamp ++ "_" ++ env.random

/-- Function `validateCreditAmount(amount)`, its `valid` field. -/
def validateCreditAmount (amount : ℚ) : Bool :=
  if amount ≤ 0 then false
  else if amount > 5000 then false
  else true

/-- Function `getOrCreateWallet(userId)`: both statements go through
`pool.query`, so the insert is committed at once. The second component is
`none` when a statement is rejected and the error is rethrown. -/
def getOrCreateWallet (env : Env) (db : Db) (userId : String) : Db × Option Wallet :=
  if env.fails .walletSelect then (db, none)
  else
    match db.wallets.filter (fun w => w.user_id = userId) with
    | [] =>
      if env.fails .walletInsert then (db, none)
      else
        let row : Wallet :=
          { user_id := userId, balance := 0, total_credits_earned := 0, total_spent := 0 }
        ({ db with wallets := db.wallets ++ [row] }, some row)
    | row :: _ => (db, some row)

/-- Whether the `UPDATE` that credits the user's rows is rejected because a new
`balance` or `total_credits_earned` does not fit its column. -/
def creditOverflows (wallets : List Wallet) (userId : String) (amount : ℚ) : Bool :=
  wallets.any fun w =>
    w.user_id = userId ∧
      (pgFits 10 2 (w.balance + amount) = false
        ∨ pgFits 10 2 (w.total_credits_earned + amount) = false)

/-- Whether the `UPDATE` that debits the user's rows is rejected because a new
`balance` or `total_spent` does not fit its column. -/
def debitOverflows (wallets : List Wallet) (userId : String) (amount : ℚ) : Bool :=
  wallets.any fun w =>
    w.user_id = userId ∧
      (pgFits 10 2 (w.balance - amount) = false
        ∨ pgFits 10 2 (w.total_spent + amount) = false)

/-- The `creditData` argument of `issueNGODonationCredit`. -/
structure CreditData where
  userId : String
  creditAmount : ℚ
  orderId : Option String
  returnId : Option String
  ngoId : Option String
  description : Option String

/-- The successful result of `issueNGODonationCredit`. -/
structure CreditResult where
  transaction : WalletTransaction
  wallet : Option Wallet

/-- Function `issueNGODonationCredit(creditData)`. The first component is the
committed database after the call; the second is `none` for
`{ success: false }`. Only the statements issued on `client` are undone by the
`ROLLBACK` of the `catch` block. -/
def issueNGODonationCredit (env : Env) (db : Db) (creditData : CreditData) :
    Db × Option CreditResult :=
  -- client.query('BEGIN')
  if env.fails .issueBegin then (db, none)
  else
    let userId := creditData.userId
    let creditAmount := creditData.creditAmount
    let transactionId := generateTransactionId env "NGO" userId
    -- this.getOrCreateWallet(userId): pool.query, outside the client's transaction
    match getOrCreateWallet env db userId with
    | (db1, none) => (db1, none)
    | (db1, some _) =>
      -- INSERT INTO wallet_transactions ... RETURNING *  (on client);
      -- amount is DECIMAL(10,2)
      if env.fails .transactionInsert
          || db1.wallet_transactions.any (fun t => t.transaction_id = transactionId)
          || !pgFits 10 2 creditAmount then
        (db1, none)
      else
        let inserted : WalletTransaction :=
          { transaction_id := transactionId
            user_id := userId
            type := .ngo_donation_credit
            amount := pgRound 2 creditAmount
            status := .pending
            description := creditData.description.getD "Credit for donating return to NGO"
            order_id := creditData.orderId
            return_id := creditData.returnId
            ngo_id := creditData.ngoId }
        let view1 : Db := { db1 with wallet_transactions := db1.wallet_transactions ++ [inserted] }
        -- UPDATE wallets SET balance = balance + $1, ... RETURNING *  (on client);
        -- balance and total_credits_earned are DECIMAL(10,2)
        if env.fails .walletCreditUpdate
            || creditOverflows view1.wallets userId creditAmount then
          (db1, none)
        else
          let view2 : Db :=
            { view1 with
              wallets := view1.wallets.map fun w =>
                if w.user_id = userId then
                  { w with
                    balance := pgRound 2 (w.balance + creditAmount)
                    total_credits_earned := pgRound 2 (w.total_credits_earned + creditAmount) }
                else w }
          let updatedWallet := view2.wallets.filter (fun w => w.user_id = userId)
          -- UPDATE wallet_transactions SET status = 'completed' ...  (on client)
          if env.fails .transactionComplete then (db1, none)
          else
            let view3 : Db :=
              { view2 with
                wallet_transactions := view2.wallet_transactions.map fun t =>
                  if t.transaction_id = transactionId then { t with status := .completed }
                  else t }
            -- client.query('COMMIT')
            if env.fails .issueCommit then (db1, none)
            else
              (view3,
                some
                  { transaction := { inserted with status := .completed }
                    wallet := updatedWallet.head? })

/-- The `paymentData` argument of `processWalletPayment`. -/
structure PaymentData where
  userId : String
  amount : ℚ
  orderId : Option String
  description : Option String

/-- The successful result of `processWalletPayment`. -/
structure PaymentResult where
  transactionId : String
  wallet : Option Wallet

/-- Function `processWalletPayment(paymentData)`. Every statement is issued on
`client`, so a failure leaves the committed database as it was. -/
def processWalletPayment (env : Env) (db : Db) (paymentData : PaymentData) :
    Db × Option PaymentResult :=
  -- client.query('BEGIN')
  if env.fails .paymentBegin then (db, none)
  else
    let userId := paymentData.userId
    let amount := paymentData.amount
    -- SELECT balance FROM wallets WHERE user_id = $1 FOR UPDATE
    if env.fails .paymentSelect then (db, none)
    else
      match db.wallets.filter (fun w => w.user_id = userId) with
      | [] => (db, none)
      | row :: _ =>
        let currentBalance := row.balance
        if currentBalance < amount then (db, none)
        else
          let transactionId := generateTransactionId env "PAY" userId
          -- INSERT INTO wallet_transactions  (on client); amount is DECIMAL(10,2)
          if env.fails .paymentInsert
              || db.wallet_transactions.any (fun t => t.transaction_id = transactionId)
              || !pgFits 10 2 (-amount) then
            (db, none)
          else
            let inserted : WalletTransaction :=
              { transaction_id := transactionId
                user_id := userId
                type := .purchase
                amount := pgRound 2 (-amount)
                status := .completed
                description := paymentData.description.getD "Wallet payment for order"
                order_id := paymentData.orderId
                return_id := none
                ngo_id := none }
            let view1 : Db :=
              { db with wallet_transactions := db.wallet_transactions ++ [inserted] }
            -- UPDATE wallets SET balance = balance - $1, total_spent = total_spent + $1;
            -- balance and total_spent are DECIMAL(10,2)
            if env.fails .paymentUpdate
                || debitOverflows view1.wallets userId amount then
              (db, none)
            else
              let view2 : Db :=
                { view1 with
                  wallets := view1.wallets.map fun w =>
                    if w.user_id = userId then
                      { w with
                        balance := pgRound 2 (w.balance - amount)
                        total_spent := pgRound 2 (w.total_spent + amount) }
                    else w }
              let updatedWallet := view2.wallets.filter (fun w => w.user_id = userId)
              -- client.query('COMMIT')
              if env.fails .paymentCommit then (db, none)
              else (view2, some { transactionId := transactionId, wallet := updatedWallet.head? })

end WalletCreditService

namespace CreditManagementService

/-! ## CreditManagementService.js -/

open Database CreditCalculationService WalletCreditService

/-- The `donationData` argument of `processNGODonationCredit`. -/
structure DonationData where
  userId : String
  orderId : String
  returnId : Option String
  ngoId : Option String
  sellerId : String
  product : Option Product
  orderDetails : Option OrderDetails
  returnReason : Option String

/-- The `data` argument of `recordCostSharing`. -/
structure CostSharingData where
  transactionId : String
  userId : String
  orderId : String
  returnId : Option String
  ngoId : Option String
  sellerId : String
  creditDetails : CreditDetails
  product : Product

/-- Function `recordCostSharing(data)`: one `INSERT` through `pool.query`,
committed at once. The second component is `none` when the statement is
rejected and the error is rethrown. -/
def recordCostSharing (env : Env) (db : Db) (data : CostSharingData) :
    Db × Option CostSharingRecord :=
  let creditDetails := data.creditDetails
  if env.fails .costSharingInsert
      || db.credit_cost_sharing.any (fun r => r.transaction_id = data.transactionId) then
    (db, none)
  else
    let row : CostSharingRecord :=
      { transaction_id := data.transactionId
        user_id := data.userId
        order_id := data.orderId
        return_id := data.returnId
        ngo_id := data.ngoId
        seller_id := data.sellerId
        buyer_credit_amount := creditDetails.buyerCredit
        total_avoided_costs := creditDetails.avoidedCosts.total
        seller_cost_amount := creditDetails.costSharing.sellerAmount
        meesho_cost_amount := creditDetails.costSharing.meeshoAmount
        seller_cost_percentage := creditDetails.costSharing.sellerPercentage
        meesho_cost_percentage := creditDetails.costSharing.meeshoPercentage
        traditional_return_cost := creditDetails.sellerBenefit.traditionalCost
        seller_savings := creditDetails.sellerBenefit.savings
        seller_savings_percentage := creditDetails.sellerBenefit.savingsPercentage
        product_price := data.product.price
        product_category := data.product.category
        status := "completed" }
    ({ db with credit_cost_sharing := db.credit_cost_sharing ++ [row] }, some row)

/-- The in-memory update of the `categoryBreakdown` object in
`updateMonthlySummary`. -/
def updateCategoryBreakdown (categoryBreakdown : List (String × CategoryTotals))
    (categoryKey : String) (creditDetails : CreditDetails) : List (String × CategoryTotals) :=
  let withKey :=
    if categoryBreakdown.any (fun e => e.1 = categoryKey) then categoryBreakdown
    else categoryBreakdown ++ [(categoryKey, ⟨0, 0, 0, 0, 0⟩)]
  withKey.map fun e =>
    if e.1 = categoryKey then
      (e.1,
        { transactions := e.2.transactions + 1
          totalCredits := e.2.totalCredits + creditDetails.buyerCredit
          totalAvoidedCosts := e.2.totalAvoidedCosts + creditDetails.avoidedCosts.total
          totalSellerCosts := e.2.totalSellerCosts + creditDetails.costSharing.sellerAmount
          totalMeeshoCosts := e.2.totalMeeshoCosts + creditDetails.costSharing.meeshoAmount })
    else e

/-- Function `updateMonthlySummary(creditDetails, category)`: a `SELECT` and an
upsert through `pool.query`; an error of either is caught and dropped. The
upsert divides by the accumulated costs, which the database rejects when they
are zero. -/
def updateMonthlySummary (env : Env) (db : Db) (creditDetails : CreditDetails)
    (category : Option String) : Db :=
  let monthYear := env.monthYear
  if env.fails .summarySelect then db
  else
    let existingSummary :=
      db.ngo_credit_financial_summary.filter (fun r => r.month_year = monthYear)
    let categoryBreakdown : List (String × CategoryTotals) :=
      match existingSummary with
      | row :: _ => row.category_breakdown.getD []
      | [] => []
    let categoryKey := DecisionRoute.strOr category "uncategorized"
    let categoryBreakdown := updateCategoryBreakdown categoryBreakdown categoryKey creditDetails
    if env.fails .summaryUpsert then db
    else
      match existingSummary with
      | [] =>
        let row : MonthlySummary :=
          { month_year := monthYear
            total_transactions := 1
            total_credits_issued := creditDetails.buyerCredit
            total_avoided_costs := creditDetails.avoidedCosts.total
            total_seller_costs := creditDetails.costSharing.sellerAmount
            total_meesho_costs := creditDetails.costSharing.meeshoAmount
            total_seller_savings := creditDetails.sellerBenefit.savings
            average_credit_amount := 0
            average_seller_savings := 0
            cost_efficiency_ratio := 0
            category_breakdown := some categoryBreakdown }
        { db with ngo_credit_financial_summary := db.ngo_credit_financial_summary ++ [row] }
      | old :: _ =>
        if old.total_seller_costs + old.total_meesho_costs
            + creditDetails.costSharing.sellerAmount + creditDetails.costSharing.meeshoAmount = 0
            ∨ old.total_transactions + 1 = 0 then db
        else
          { db with
            ngo_credit_financial_summary := db.ngo_credit_financial_summary.map fun r =>
              if r.month_year = monthYear then
                { r with
                  total_transactions := r.total_transactions + 1
                  total_credits_issued := r.total_credits_issued + creditDetails.buyerCredit
                  total_avoided_costs := r.total_avoided_costs + creditDetails.avoidedCosts.total
                  total_seller_costs :=
                    r.total_seller_costs + creditDetails.costSharing.sellerAmount
                  total_meesho_costs :=
                    r.total_meesho_costs + creditDetails.costSharing.meeshoAmount
                  total_seller_savings :=
                    r.total_seller_savings + creditDetails.sellerBenefit.savings
                  average_credit_amount :=
                    (r.total_credits_issued + creditDetails.buyerCredit)
                      / (r.total_transactions + 1)
                  average_seller_savings :=
                    (r.total_seller_savings + creditDetails.sellerBenefit.savings)
                      / (r.total_transactions + 1)
                  cost_efficiency_ratio :=
                    (r.total_credits_issued + creditDetails.buyerCredit)
                      / (r.total_seller_costs + r.total_meesho_costs
                          + creditDetails.costSharing.sellerAmount
                          + creditDetails.costSharing.meeshoAmount)
                  category_breakdown := some categoryBreakdown }
              else r }

/-- The field `creditIssued` of the success result. -/
structure CreditIssued where
  amount : ℚ
  transactionId : String
  walletBalance : ℚ

/-- The field `financialImpact` of the success result. -/
structure FinancialImpact where
  buyerBenefit : ℚ
  sellerNetCost : ℚ
  traditionalCost : ℚ
  totalSystemSavings : ℚ

/-- The field `result` of a successful `processNGODonationCredit`. -/
structure DonationResult where
  creditIssued : CreditIssued
  sellerCost : ℚ
  meeshoCost : ℚ
  sellerSavings : ℚ
  savingsPercentage : Option ℤ
  avoidedCosts : AvoidedCosts
  financialImpact : FinancialImpact

/-- Function `processNGODonationCredit(donationData)`. Its own `client` issues
`BEGIN`, `COMMIT` and `ROLLBACK` and no other statement: the credit is issued on
the wallet service's connection and committed there, and the cost-sharing row
and the monthly summary go through `pool.query`. The second component is `none`
for `{ success: false }`. -/
def processNGODonationCredit (cfg : Config) (env : Env) (db : Db) (donationData : DonationData) :
    Db × Option DonationResult :=
  -- client.query('BEGIN')
  if env.fails .donationBegin then (db, none)
  else
    let returnReason := donationData.returnReason.getD "ngo_donation"
    -- Step 1: calculate instant credit
    match donationData.product,
      calculateInstantCredit cfg donationData.product donationData.orderDetails returnReason
        env.calculatedAt with
    | none, _ => (db, none)
    | some _, none => (db, none)
    | some product, some creditDetails =>
      -- Step 2: validate credit amount
      if !validateCreditAmount creditDetails.buyerCredit then (db, none)
      else
        -- Step 3: issue credit to the buyer's wallet
        match issueNGODonationCredit env db
            { userId := donationData.userId
              creditAmount := creditDetails.buyerCredit
              orderId := some donationData.orderId
              returnId := donationData.returnId
              ngoId := donationData.ngoId
              -- the description text (the amount followed by this wording)
              description := some "credit for donating return to NGO" } with
        | (db1, none) => (db1, none)
        | (db1, some creditResult) =>
          -- Step 4: record cost sharing
          match recordCostSharing env db1
              { transactionId := creditResult.transaction.transaction_id
                userId := donationData.userId
                orderId := donationData.orderId
                returnId := donationData.returnId
                ngoId := donationData.ngoId
                sellerId := donationData.sellerId
                creditDetails := creditDetails
                product := product } with
          | (db2, none) => (db2, none)
          | (db2, some _) =>
            -- Step 5: update monthly summary
            let db3 := updateMonthlySummary env db2 creditDetails product.category
            -- client.query('COMMIT')
            if env.fails .donationCommit then (db3, none)
            else
              match creditResult.wallet with
              | none => (db3, none)
              | some wallet =>
                (db3,
                  some
                    { creditIssued :=
                        { amount := creditDetails.buyerCredit
                          transactionId := creditResult.transaction.transaction_id
                          walletBalance := wallet.balance }
                      sellerCost := creditDetails.costSharing.sellerAmount
                      meeshoCost := creditDetails.costSharing.meeshoAmount
                      sellerSavings := creditDetails.sellerBenefit.savings
                      savingsPercentage := creditDetails.sellerBenefit.savingsPercentage
                      avoidedCosts := creditDetails.avoidedCosts
                      financialImpact :=
                        { buyerBenefit := creditDetails.buyerCredit
                          sellerNetCost := creditDetails.costSharing.sellerAmount
                          traditionalCost := creditDetails.sellerBenefit.traditionalCost
                          totalSystemSavings :=
                            creditDetails.avoidedCosts.total - creditDetails.buyerCredit } })

end CreditManagementService

namespace Ledger

/-! ## Observations on the ledger and sequences of calls -/

open Database WalletCreditService

/-- The rows `SELECT * FROM wallets WHERE user_id = $1` returns. -/
def walletRows (db : Db) (userId : String) : List Wallet :=
  db.wallets.filter (fun w => w.user_id = userId)

/-- The balance of a user's wallet row, zero when there is no row. -/
def balanceOf (db : Db) (userId : String) : ℚ :=
  match walletRows db userId with
  | [] => 0
  | row :: _ => row.balance

/-- The `total_credits_earned` of a user's wallet row, zero when there is no row. -/
def creditsEarnedOf (db : Db) (userId : String) : ℚ :=
  match walletRows db userId with
  | [] => 0
  | row :: _ => row.total_credits_earned

/-- The `total_spent` of a user's wallet row, zero when there is no row. -/
def totalSpentOf (db : Db) (userId : String) : ℚ :=
  match walletRows db userId with
  | [] => 0
  | row :: _ => row.total_spent

/-- The sum of the amounts of a user's transactions whose status is completed. -/
def completedSum (db : Db) (userId : String) : ℚ :=
  ((db.wallet_transactions.filter
    (fun t => t.user_id = userId ∧ t.status = .completed)).map (fun t => t.amount)).sum

/-- The database after a successful `getOrCreateWallet`: a zero row is appended
when the user has none. -/
def withWallet (db : Db) (userId : String) : Db :=
  match walletRows db userId with
  | [] =>
    { db with
      wallets := db.wallets ++
        [{ user_id := userId, balance := 0, total_credits_earned := 0, total_spent := 0 }] }
  | _ :: _ => db

/-- The row written by `SET balance = balance + $1, total_credits_earned =
total_credits_earned + $1 WHERE user_id = $2`. -/
def creditRow (userId : String) (amount : ℚ) (w : Wallet) : Wallet :=
  if w.user_id = userId then
    { w with
      balance := pgRound 2 (w.balance + amount)
      total_credits_earned := pgRound 2 (w.total_credits_earned + amount) }
  else w

/-- The row written by `SET balance = balance - $1, total_spent = total_spent +
$1 WHERE user_id = $2`. -/
def debitRow (userId : String) (amount : ℚ) (w : Wallet) : Wallet :=
  if w.user_id = userId then
    { w with
      balance := pgRound 2 (w.balance - amount)
      total_spent := pgRound 2 (w.total_spent + amount) }
  else w

/-- The ledger invariant for one user: every wallet row of the user carries the
sum of the user's completed transactions, and a user without a wallet row has
completed transactions summing to zero. -/
def LedgerOK (db : Db) (userId : String) : Prop :=
  (∀ w ∈ db.wallets, w.user_id = userId → w.balance = completedSum db userId) ∧
    (walletRows db userId = [] → completedSum db userId = 0)

/-- One call of the wallet ledger, with what it reads from outside. -/
inductive Call where
  | issue (env : Env) (creditData : CreditData)
  | pay (env : Env) (paymentData : PaymentData)

/-- The user a call is for. -/
def Call.userId : Call → String
  | .issue _ creditData => creditData.userId
  | .pay _ paymentData => paymentData.userId

/-- The committed database after one call, whether it succeeds or fails. -/
def step (db : Db) : Call → Db
  | .issue env creditData => (issueNGODonationCredit env db creditData).1
  | .pay env paymentData => (processWalletPayment env db paymentData).1

/-- The committed database after a sequence of calls. -/
def run (db : Db) (calls : List Call) : Db := calls.foldl step db

/-- An environment in which the database rejects nothing. -/
def okEnv (timestamp : ℕ) (random : String) : Env :=
  { fails := fun _ => false
    timestamp := timestamp
    random := random
    monthYear := "2024-01"
    calculatedAt := "2024-01-15T10:00:00.000Z" }

/-- An environment in which the database rejects exactly one statement site. -/
def failingEnv (site : Stmt) (timestamp : ℕ) (random : String) : Env :=
  { okEnv timestamp random with fails := fun s => decide (s = site) }

end Ledger

namespace Samples

/-! ## Concrete inputs used to exercise the embedding -/

open CreditCalculationService DecisionRoute Database WalletCreditService CreditManagementService

/-- An item of a given price and condition. -/
def sampleItem (price : ℚ) (condition : String) : ItemData :=
  { orderItemId := "OI1", productId := "P1", originalPrice := price, category := some "Fashion",
    condition := condition, purchaseDate := 0, brand := none, productName := none, sku := none,
    sellerLocation := none }

/-- A customer without loyalty tier or address. -/
def sampleCustomer : CustomerData := { userId := "u1", loyaltyTier := none, address := none }

/-- A decision environment whose NGO lookup throws. -/
def sampleDecisionEnv : DecisionEnv :=
  { now := 0, random := 0, ngoLookup := none, calculatedAt := "" }

/-- A credit of 50 for user `u1`. -/
def sampleCredit : CreditData :=
  { userId := "u1", creditAmount := 50, orderId := some "ORD001", returnId := none,
    ngoId := some "NGO001", description := none }

/-- A payment of a given amount by user `u1`. -/
def samplePayment (amount : ℚ) : PaymentData :=
  { userId := "u1", amount := amount, orderId := some "ORD002", description := none }

/-- A donation of an electronics product of price 100 by user `u1`. -/
def sampleDonation : DonationData :=
  { userId := "u1", orderId := "ORD001", returnId := none, ngoId := some "NGO001",
    sellerId := "S1",
    product := some { name := "Phone cover", price := 100, category := some "Electronics",
                      sku := "SKU1" },
    orderDetails := some { deliveryAddress := some "Bangalore, Karnataka",
                           sellerLocation := some "Bangalore, Karnataka" },
    returnReason := none }

end Samples

namespace CreditCalculationService

/-! ## CreditCalculationService.js: unrounded total and configuration updates -/

/-- The local `totalAvoidedCosts` of `calculateAvoidedCosts`: the sum of the four
cost components before any rounding. -/
def totalAvoidedCosts (cfg : Config) (productPrice : ℚ) (category : CategoryKey)
    (distanceKm : ℚ) : ℚ :=
  let factors := cfg.costFactors
  let reverseLogistics := factors.reverseLogistics category
  let logisticsCost := (productPrice * reverseLogistics.base / 100) +
    (productPrice * reverseLogistics.distanceMultiplier * (jsCeil (distanceKm / 100) : ℚ) / 100)
  let processingRate :=
    jsOr (factors.warehouseProcessing category) (factors.warehouseProcessing .default)
  let processingCost := productPrice * processingRate / 100
  let writeOffRate := jsOr (factors.productWriteOff category) (factors.productWriteOff .default)
  let writeOffCost := productPrice * writeOffRate / 100
  let degradationRate :=
    jsOr (factors.qualityDegradation category) (factors.qualityDegradation .default)
  let degradationCost := productPrice * degradationRate / 100
  logisticsCost + processingCost + writeOffCost + degradationCost

/-- The argument of `updateCostFactors`: the tables the object carries; a table
it does not carry is `none`. -/
structure CostFactorsPatch where
  reverseLogistics : Option (CategoryKey → LogisticsFactor) := none
  warehouseProcessing : Option (CategoryKey → ℚ) := none
  productWriteOff : Option (CategoryKey → ℚ) := none
  qualityDegradation : Option (CategoryKey → ℚ) := none

/-- The argument of `updateCreditConfig`: a field the object does not carry is
`none`. -/
structure CreditConfigPatch where
  buyerCreditPercentage : Option ℚ := none
  maxCreditPercentage : Option ℚ := none
  minCreditAmount : Option ℚ := none
  maxCreditAmount : Option ℚ := none

/-- The argument of `updateCostSharingConfig`: a field the object does not carry
is `none`. -/
structure CostSharingPatch where
  seller : Option ℚ := none
  meesho : Option ℚ := none

/-- Function `updateCostFactors(newFactors)`: the spread
`{ ...this.costFactors, ...newFactors }`. -/
def updateCostFactors (cfg : Config) (newFactors : CostFactorsPatch) : Config :=
  { cfg with
    costFactors :=
      { reverseLogistics := newFactors.reverseLogistics.getD cfg.costFactors.reverseLogistics
        warehouseProcessing :=
          newFactors.warehouseProcessing.getD cfg.costFactors.warehouseProcessing
        productWriteOff := newFactors.productWriteOff.getD cfg.costFactors.productWriteOff
        qualityDegradation :=
          newFactors.qualityDegradation.getD cfg.costFactors.qualityDegradation } }

/-- Function `updateCreditConfig(newConfig)`: the spread
`{ ...this.creditConfig, ...newConfig }`. -/
def updateCreditConfig (cfg : Config) (newConfig : CreditConfigPatch) : Config :=
  { cfg with
    creditConfig :=
      { buyerCreditPercentage :=
          newConfig.buyerCreditPercentage.getD cfg.creditConfig.buyerCreditPercentage
        maxCreditPercentage :=
          newConfig.maxCreditPercentage.getD cfg.creditConfig.maxCreditPercentage
        minCreditAmount := newConfig.minCreditAmount.getD cfg.creditConfig.minCreditAmount
        maxCreditAmount := newConfig.maxCreditAmount.getD cfg.creditConfig.maxCreditAmount } }

/-- Function `updateCostSharingConfig(newConfig)`: the spread
`{ ...this.costSharingConfig, ...newConfig }`. -/
def updateCostSharingConfig (cfg : Config) (newConfig : CostSharingPatch) : Config :=
  { cfg with
    costSharingConfig :=
      { seller := newConfig.seller.getD cfg.costSharingConfig.seller
        meesho := newConfig.meesho.getD cfg.costSharingConfig.meesho } }

/-- A calculation result with the clock reading `metadata.calculatedAt` blanked. -/
def withoutTimestamp (details : CreditDetails) : CreditDetails :=
  { details with metadata := { details.metadata with calculatedAt := "" } }

end CreditCalculationService

namespace CreditRoute

/-! ## routes/credit.js: preview and admin configuration

The module keeps one `CreditManagementService` for all its handlers; its
configuration is the `Config` the handlers below take and return. -/

open CreditCalculationService

/-- Handler `POST /calculate`: `none` stands for a 400 answer or for
`{ success: false }`. -/
def postCalculate (cfg : Config) (calculatedAt : String) (product : Option Product)
    (orderDetails : Option OrderDetails) (returnReason : Option String) :
    Option CreditDetails :=
  match product with
  | none => none
  | some product =>
    if product.price = 0 then none
    else
      match orderDetails with
      | none => none
      | some orderDetails =>
        calculateInstantCredit cfg (some product) (some orderDetails)
          (DecisionRoute.strOr returnReason "ngo_donation") calculatedAt

/-- Handler `PUT /config/cost-factors`: the configuration after the request and
whether the request was accepted. -/
def putCostFactors (cfg : Config) (costFactors : Option CostFactorsPatch) : Config × Bool :=
  match costFactors with
  | none => (cfg, false)
  | some costFactors => (updateCostFactors cfg costFactors, true)

/-- Handler `PUT /config/credit-settings`. -/
def putCreditSettings (cfg : Config) (creditConfig : Option CreditConfigPatch) : Config × Bool :=
  match creditConfig with
  | none => (cfg, false)
  | some creditConfig => (updateCreditConfig cfg creditConfig, true)

/-- Handler `PUT /config/cost-sharing`. A percentage that is missing or not a
number is `none`; the sum is then not the number 100 and the request is
rejected. -/
def putCostSharing (cfg : Config) (costSharingConfig : Option CostSharingPatch) :
    Config × Bool :=
  match costSharingConfig with
  | none => (cfg, false)
  | some costSharingConfig =>
    match costSharingConfig.seller, costSharingConfig.meesho with
    | some seller, some meesho =>
      let total := seller + meesho
      if total ≠ 100 then (cfg, false)
      else (updateCostSharingConfig cfg costSharingConfig, true)
    | _, _ => (cfg, false)

/-- One request to an admin configuration handler. -/
inductive AdminRequest where
  | costFactors (body : Option CostFactorsPatch)
  | creditSettings (body : Option CreditConfigPatch)
  | costSharing (body : Option CostSharingPatch)

/-- The configuration after one admin request. -/
def applyAdmin (cfg : Config) : AdminRequest → Config
  | .costFactors body => (putCostFactors cfg body).1
  | .creditSettings body => (putCreditSettings cfg body).1
  | .costSharing body => (putCostSharing cfg body).1

/-- The configuration after a sequence of admin requests. -/
def runAdmin (cfg : Config) (requests : List AdminRequest) : Config :=
  requests.foldl applyAdmin cfg

end CreditRoute

namespace SpecCredit

/-! ## The credit calculation in the words of the specification -/

open CreditCalculationService

/-- Follows the specification (section 4.2): the final credit computed from the
unrounded total avoided cost, `max(min(total × buyerCreditPct, price ×
maxCreditPct, maxCreditAmount), minCreditAmount)`, with no rounded
intermediate. -/
def finalCredit (cfg : Config) (productPrice : ℚ) (category : CategoryKey) (distanceKm : ℚ) :
    ℚ :=
  max
    (min
      (min (totalAvoidedCosts cfg productPrice category distanceKm
          * cfg.creditConfig.buyerCreditPercentage / 100)
        (productPrice * cfg.creditConfig.maxCreditPercentage / 100))
      cfg.creditConfig.maxCreditAmount)
    cfg.creditConfig.minCreditAmount

/-- The final credit written as a function of the total avoided cost it is
computed from: `max(min(total × buyerCreditPct, price × maxCreditPct,
maxCreditAmount), minCreditAmount)`. -/
def creditFromTotal (cfg : Config) (productPrice total : ℚ) : ℚ :=
  max
    (min
      (min (total * cfg.creditConfig.buyerCreditPercentage / 100)
        (productPrice * cfg.creditConfig.maxCreditPercentage / 100))
      cfg.creditConfig.maxCreditAmount)
    cfg.creditConfig.minCreditAmount

/-- Follows the specification: the seller's share of the final credit. -/
def sellerAmount (cfg : Config) (productPrice : ℚ) (category : CategoryKey) (distanceKm : ℚ) :
    ℚ :=
  finalCredit cfg productPrice category distanceKm * cfg.costSharingConfig.seller / 100

/-- Follows the specification: the platform's share of the final credit. -/
def meeshoAmount (cfg : Config) (productPrice : ℚ) (category : CategoryKey) (distanceKm : ℚ) :
    ℚ :=
  finalCredit cfg productPrice category distanceKm * cfg.costSharingConfig.meesho / 100

/-- Follows the specification: the seller's savings, the unrounded total avoided
cost minus the seller's share. -/
def savings (cfg : Config) (productPrice : ℚ) (category : CategoryKey) (distanceKm : ℚ) : ℚ :=
  totalAvoidedCosts cfg productPrice category distanceKm
    - sellerAmount cfg productPrice category distanceKm

end SpecCredit

namespace DecisionRoute

/-! ## routes/decision.js: the tables of the resale estimate by name -/

/-- The local `ageInDays` of `estimateResaleValue`. -/
def ageInDays (env : DecisionEnv) (itemData : ItemData) : ℤ :=
  ⌊((env.now - itemData.purchaseDate : ℤ) : ℚ) / (1000 * 60 * 60 * 24)⌋

/-- The entry of `conditionMultipliers` in `estimateResaleValue`, 0.5 for a
condition the table does not list. -/
def resaleConditionMultiplier (condition : String) : ℚ :=
  if condition = "Like New" then 0.8
  else if condition = "Good" then 0.65
  else if condition = "Fair" then 0.45
  else if condition = "Poor" then 0.25
  else 0.5

/-- The entry of `categoryMultipliers` in `estimateResaleValue`, 0.5 for a
category the table does not list. -/
def resaleCategoryMultiplier (category : Option String) : ℚ :=
  if category = some "Electronics" then 0.7
  else if category = some "Fashion" then 0.6
  else if category = some "Home & Kitchen" then 0.5
  else if category = some "Books" then 0.4
  else 0.5

/-- The entry of `baseCosts` in `calculateProcessingCost`, 100 for a category the
table does not list. -/
def processingBaseCost (category : Option String) : ℚ :=
  if category = some "Electronics" then 150
  else if category = some "Fashion" then 80
  else if category = some "Home & Kitchen" then 100
  else if category = some "Books" then 40
  else 100

/-- The entry of `conditionMultipliers` in `calculateProcessingCost`, 1.0 for a
condition the table does not list. -/
def processingConditionMultiplier (condition : String) : ℚ :=
  if condition = "Like New" then 1.0
  else if condition = "Good" then 1.2
  else if condition = "Fair" then 1.5
  else if condition = "Poor" then 2.0
  else 1.0

end DecisionRoute

namespace Samples

/-! ## Further concrete inputs -/

open CreditCalculationService DecisionRoute

/-- A fashion product of price 299. -/
def kurti : Product :=
  { name := "Cotton Kurti", price := 299, category := some "Fashion", sku := "SKU299" }

/-- A fashion product of price 50. -/
def scarf : Product :=
  { name := "Scarf", price := 50, category := some "Fashion", sku := "SKU50" }

/-- Order details whose two addresses are in the same city. -/
def sameCity : OrderDetails :=
  { deliveryAddress := some "Bangalore, Karnataka",
    sellerLocation := some "Bangalore, Karnataka" }

/-- An item of a given price, fashion, condition Good, bought at the instant 0. -/
def fashionItem (price : ℚ) : ItemData := sampleItem price "Good"

/-- A decision environment whose NGO lookup finds nothing. -/
def emptyLookupEnv : DecisionEnv :=
  { now := 0, random := 0, ngoLookup := some [], calculatedAt := "" }

/-- The constructor's configuration with the credit floor set to zero. -/
def noFloorConfig : Config :=
  { defaultConfig with
    creditConfig := { defaultConfig.creditConfig with minCreditAmount := 0 } }

end Samples

namespace WalletCreditService

/-! ## WalletCreditService.js: wallet details -/

open Database

/-- The row of the summary query of `getWalletDetails`. A `SUM` over no rows is
`NULL`, which is `none` here. -/
structure TransactionSummary where
  total_transactions : ℕ
  completed_transactions : ℕ
  total_ngo_credits : Option ℚ
  total_credits : Option ℚ
  total_debits : Option ℚ

/-- The field `pagination` of the result of `getWalletDetails`. -/
structure Pagination where
  limit : ℕ
  offset : ℕ
  total : ℕ

/-- The successful result of `getWalletDetails`. -/
structure WalletDetails where
  wallet : Wallet
  summary : TransactionSummary
  transactions : List WalletTransaction
  pagination : Pagination

/-- SQL `SUM(expr)` over the selected rows. -/
def sqlSum (rows : List WalletTransaction) (expr : WalletTransaction → ℚ) : Option ℚ :=
  if rows.isEmpty then none else some (rows.map expr).sum

/-- Function `getWalletDetails(userId, limit, offset)`. The wallet comes from
`getOrCreateWallet`; the two `SELECT`s go through `pool.query`. Rows are kept
in insertion order, so `ORDER BY created_at DESC` is the reversed list. The
second component is `none` for `{ success: false }`. -/
def getWalletDetails (env : Env) (db : Db) (userId : String) (limit offset : ℕ) :
    Db × Option WalletDetails :=
  -- const wallet = await this.getOrCreateWallet(userId)
  match getOrCreateWallet env db userId with
  | (db1, none) => (db1, none)
  | (db1, some wallet) =>
    -- SELECT ... FROM wallet_transactions WHERE user_id = $1 ORDER BY created_at DESC LIMIT $2 OFFSET $3
    if env.fails .detailsTransactions then (db1, none)
    else
      let rows := db1.wallet_transactions.filter (fun t => t.user_id = userId)
      let transactions := (rows.reverse.drop offset).take limit
      -- SELECT COUNT(*), COUNT(CASE ...), SUM(CASE ...) ... WHERE user_id = $1
      if env.fails .detailsSummary then (db1, none)
      else
        let summary : TransactionSummary :=
          { total_transactions := rows.length
            completed_transactions := (rows.filter (fun t => t.status = .completed)).length
            total_ngo_credits :=
              sqlSum rows fun t =>
                if t.type = .ngo_donation_credit ∧ t.status = .completed then t.amount else 0
            total_credits :=
              sqlSum rows fun t => if t.amount > 0 ∧ t.status = .completed then t.amount else 0
            total_debits :=
              sqlSum rows fun t => if t.amount < 0 ∧ t.status = .completed then |t.amount| else 0 }
        (db1,
          some
            { wallet := wallet
              summary := summary
              transactions := transactions
              pagination := { limit := limit, offset := offset, total := summary.total_transactions } })

end WalletCreditService
namespace CreditRoute

/-! ## routes/credit.js: wallet payment -/

open Database WalletCreditService

/-- Handler of `POST /api/credit/wallet/payment`. A field of the body that is
absent is `none`; `!amount` also holds for the number zero and `!userId`,
`!orderId` for the empty text. The second component is `none` for a response
whose `success` is false. -/
def postWalletPayment (env : Env) (db : Db) (userId : Option String) (amount : Option ℚ)
    (orderId : Option String) (description : Option String) : Db × Option PaymentResult :=
  match userId, amount, orderId with
  | some userId, some amount, some orderId =>
    if userId = "" ∨ amount = 0 ∨ orderId = "" then (db, none)
    else
      processWalletPayment env db
        { userId := userId, amount := amount, orderId := some orderId, description := description }
  | _, _, _ => (db, none)

end CreditRoute
namespace Ledger

/-! ## Amounts of ledger calls -/

open Database WalletCreditService

/-- The amount a call carries: `creditAmount` of a credit, `amount` of a payment. -/
def Call.amount : Call → ℚ
  | .issue _ creditData => creditData.creditAmount
  | .pay _ paymentData => paymentData.amount

end Ledger
namespace Concurrent

/-! ## Two `issueNGODonationCredit` calls interleaved at their awaits

Every `await` of a query is a point where the other call may run. The
statements sent through `pool.query` are committed one by one; the statements
sent on a call's own `client` stay pending until its `COMMIT`. The `UPDATE` of a
wallet row waits while the other client holds an uncommitted update of the
same user's row, and an `INSERT` waits for an uncommitted row with the same
unique key. -/

open Database WalletCreditService Ledger

/-- The statement a call is about to send, or how it has ended. -/
inductive Pc where
  | begin
  | walletSelect
  | walletInsert
  | transactionInsert
  | walletCreditUpdate
  | transactionComplete
  | commit
  | done (success : Bool)
  deriving DecidableEq, Repr

/-- One running call: its environment and argument, its position, the row it
has inserted on its client and whether it has sent its wallet `UPDATE`. -/
structure Session where
  env : Env
  creditData : CreditData
  pc : Pc
  inserted : Option WalletTransaction
  credited : Bool

/-- A call that has not sent anything yet. -/
def Session.start (env : Env) (creditData : CreditData) : Session :=
  { env := env, creditData := creditData, pc := .begin, inserted := none, credited := false }

/-- The `catch` block: `ROLLBACK` drops what is pending on the client and the
call returns `{ success: false }`. -/
def Session.fail (s : Session) : Session :=
  { s with pc := .done false, inserted := none, credited := false }

/-- Whether the next statement of `s` has to wait for the other client. -/
def blocked (other s : Session) : Bool :=
  match s.pc with
  | .transactionInsert =>
    other.inserted.any fun t =>
      t.transaction_id = generateTransactionId s.env "NGO" s.creditData.userId
  | .walletCreditUpdate =>
    other.credited && decide (other.creditData.userId = s.creditData.userId)
  | _ => false

/-- The next statement of one call of `issueNGODonationCredit`, run on the
committed database. -/
def stepSession (db : Db) (s : Session) : Db × Session :=
  let userId := s.creditData.userId
  let creditAmount := s.creditData.creditAmount
  let transactionId := generateTransactionId s.env "NGO" userId
  match s.pc with
  | .begin =>
    if s.env.fails .issueBegin then (db, s.fail) else (db, { s with pc := .walletSelect })
  | .walletSelect =>
    -- SELECT * FROM wallets WHERE user_id = $1  (pool)
    if s.env.fails .walletSelect then (db, s.fail)
    else
      match db.wallets.filter (fun w => w.user_id = userId) with
      | [] => (db, { s with pc := .walletInsert })
      | _ :: _ => (db, { s with pc := .transactionInsert })
  | .walletInsert =>
    -- INSERT INTO wallets ...  (pool); user_id is UNIQUE
    if s.env.fails .walletInsert || db.wallets.any (fun w => w.user_id = userId) then
      (db, s.fail)
    else
      ({ db with
          wallets := db.wallets ++
            [{ user_id := userId, balance := 0, total_credits_earned := 0, total_spent := 0 }] },
        { s with pc := .transactionInsert })
  | .transactionInsert =>
    if s.env.fails .transactionInsert
        || db.wallet_transactions.any (fun t => t.transaction_id = transactionId)
        || !pgFits 10 2 creditAmount then
      (db, s.fail)
    else
      (db,
        { s with
          pc := .walletCreditUpdate
          inserted :=
            some
              { transaction_id := transactionId
                user_id := userId
                type := .ngo_donation_credit
                amount := pgRound 2 creditAmount
                status := .pending
                description :=
                  s.creditData.description.getD "Credit for donating return to NGO"
                order_id := s.creditData.orderId
                return_id := s.creditData.returnId
                ngo_id := s.creditData.ngoId } })
  | .walletCreditUpdate =>
    if s.env.fails .walletCreditUpdate || creditOverflows db.wallets userId creditAmount then
      (db, s.fail)
    else (db, { s with pc := .transactionComplete, credited := true })
  | .transactionComplete =>
    if s.env.fails .transactionComplete then (db, s.fail)
    else
      (db,
        { s with
          pc := .commit
          inserted := s.inserted.map fun t => { t with status := .completed } })
  | .commit =>
    if s.env.fails .issueCommit then (db, s.fail)
    else
      ({ db with
          wallets := if s.credited then db.wallets.map (creditRow userId creditAmount)
            else db.wallets
          wallet_transactions := db.wallet_transactions ++ s.inserted.toList },
        { s with pc := .done true, inserted := none, credited := false })
  | .done _ => (db, s)

/-- A call run on its own up to a number of statements. -/
def solo (n : ℕ) (db : Db) (s : Session) : Db × Session :=
  (fun p : Db × Session => stepSession p.1 p.2)^[n] (db, s)

/-- The committed database and the two calls in flight. -/
structure State where
  db : Db
  first : Session
  second : Session

/-- Which call the event loop resumes next. -/
inductive Turn where
  | first
  | second
  deriving DecidableEq, Repr

/-- One resumption: the chosen call sends its next statement, unless it waits. -/
def State.step (st : State) : Turn → State
  | .first =>
    if blocked st.second st.first then st
    else { st with db := (stepSession st.db st.first).1, first := (stepSession st.db st.first).2 }
  | .second =>
    if blocked st.first st.second then st
    else
      { st with db := (stepSession st.db st.second).1, second := (stepSession st.db st.second).2 }

/-- The state after a schedule of resumptions. -/
def interleave (st : State) (schedule : List Turn) : State := schedule.foldl State.step st

/-- Whether both calls have returned. -/
def State.finished (st : State) : Bool :=
  (match st.first.pc with | .done _ => true | _ => false)
    && (match st.second.pc with | .done _ => true | _ => false)

/-- Credits of 50 and 75 for user `u1`, started on an empty database. -/
def fiftyAndSeventyFive : State :=
  { db := Db.empty
    first := Session.start (okEnv 1000 "aaaaaa")
      { userId := "u1", creditAmount := 50, orderId := some "ORD001", returnId := none,
        ngoId := some "NGO001", description := none }
    second := Session.start (okEnv 1001 "bbbbbb")
      { userId := "u1", creditAmount := 75, orderId := some "ORD002", returnId := none,
        ngoId := some "NGO001", description := none } }

/-- The first call runs to its end, then the second. -/
def oneAfterTheOther : List Turn :=
  List.replicate 7 Turn.first ++ List.replicate 6 Turn.second

/-- Both calls read the wallet table before either inserts the wallet row. -/
def bothSelectFirst : List Turn :=
  [.first, .first, .second, .second, .first, .second, .first, .first, .first, .first]

end Concurrent
namespace SpecCategory

/-! ## The category rule in the words of the specification -/

open CreditCalculationService

/-- Whether the category text contains the keyword as a contiguous run of
letters, compared without regard to case. -/
def mentions (category keyword : String) : Prop :=
  keyword.data <:+: toLowerCase category

instance (category keyword : String) : Decidable (mentions category keyword) :=
  inferInstanceAs (Decidable (keyword.data <:+: toLowerCase category))

/-- The key the specification assigns to a category: the first group, in the
order fashion, electronics, homeKitchen, beauty, one of whose keywords the text
contains, and default for a missing or empty text or one without keyword. -/
def categoryOf (category : Option String) : CategoryKey :=
  match category with
  | none => .default
  | some text =>
    if text = "" then .default
    else if mentions text "fashion" ∨ mentions text "clothing" ∨ mentions text "apparel" then
      .fashion
    else if mentions text "electronics" ∨ mentions text "mobile" ∨ mentions text "laptop" then
      .electronics
    else if mentions text "home" ∨ mentions text "kitchen" ∨ mentions text "furniture" then
      .homeKitchen
    else if mentions text "beauty" ∨ mentions text "cosmetics" ∨ mentions text "skincare" then
      .beauty
    else .default

end SpecCategory
/-! # Theorems -/

open CreditCalculationService DecisionRoute Database WalletCreditService CreditManagementService
  Ledger

/-! ## Rounding lemmas -/

theorem jsRound_eq_of {x : ℚ} {n : ℤ} (h1 : (n : ℚ) ≤ x + 1 / 2) (h2 : x + 1 / 2 < n + 1) :
    jsRound x = n :=
  Int.floor_eq_iff.mpr ⟨h1, h2⟩

theorem jsCeil_eq_of {x : ℚ} {n : ℤ} (h1 : (n : ℚ) - 1 < x) (h2 : x ≤ n) : jsCeil x = n :=
  Int.ceil_eq_iff.mpr ⟨h1, h2⟩

theorem round2_eq_of {x : ℚ} (n : ℤ) (h1 : (n : ℚ) ≤ x * 100 + 1 / 2)
    (h2 : x * 100 + 1 / 2 < n + 1) : round2 x = n / 100 := by
  unfold round2
  rw [jsRound_eq_of h1 h2]

theorem jsRound_mono {x y : ℚ} (h : x ≤ y) : jsRound x ≤ jsRound y :=
  Int.floor_mono (by linarith)

theorem round2_mono {x y : ℚ} (h : x ≤ y) : round2 x ≤ round2 y := by
  unfold round2
  have h1 : jsRound (x * 100) ≤ jsRound (y * 100) := jsRound_mono (by linarith)
  have h2 : ((jsRound (x * 100) : ℤ) : ℚ) ≤ ((jsRound (y * 100) : ℤ) : ℚ) := by exact_mod_cast h1
  linarith

theorem jsRound_intCast (n : ℤ) : jsRound (n : ℚ) = n := by
  apply jsRound_eq_of <;> norm_num

theorem round2_round2 (x : ℚ) : round2 (round2 x) = round2 x := by
  unfold round2
  have : ((jsRound (x * 100) : ℤ) : ℚ) / 100 * 100 = ((jsRound (x * 100) : ℤ) : ℚ) := by
    field_simp
  rw [this, jsRound_intCast]

theorem round2_max (x y : ℚ) : round2 (max x y) = max (round2 x) (round2 y) := by
  rcases le_total x y with h | h
  · rw [max_eq_right h, max_eq_right (round2_mono h)]
  · rw [max_eq_left h, max_eq_left (round2_mono h)]

theorem round2_min (x y : ℚ) : round2 (min x y) = min (round2 x) (round2 y) := by
  rcases le_total x y with h | h
  · rw [min_eq_left h, min_eq_left (round2_mono h)]
  · rw [min_eq_right h, min_eq_right (round2_mono h)]

/-- Two separately rounded parts differ from the rounded whole by at most one
hundredth. -/
theorem round2_add_le (a b : ℚ) :
    round2 (a + b) - 1 / 100 ≤ round2 a + round2 b ∧
      round2 a + round2 b ≤ round2 (a + b) + 1 / 100 := by
  unfold round2 jsRound
  have ha1 := Int.floor_le (a * 100 + 1 / 2)
  have ha2 := Int.lt_floor_add_one (a * 100 + 1 / 2)
  have hb1 := Int.floor_le (b * 100 + 1 / 2)
  have hb2 := Int.lt_floor_add_one (b * 100 + 1 / 2)
  have hc1 := Int.floor_le ((a + b) * 100 + 1 / 2)
  have hc2 := Int.lt_floor_add_one ((a + b) * 100 + 1 / 2)
  set A := ⌊a * 100 + 1 / 2⌋
  set B := ⌊b * 100 + 1 / 2⌋
  set C := ⌊(a + b) * 100 + 1 / 2⌋
  have h1 : (C : ℚ) < A + B + 2 := by linarith
  have h2 : (A : ℚ) + B < C + 2 := by linarith
  have h1' : C < A + B + 2 := by exact_mod_cast h1
  have h2' : A + B < C + 2 := by exact_mod_cast h2
  have h3 : (C : ℚ) ≤ A + B + 1 := by exact_mod_cast (by omega : C ≤ A + B + 1)
  have h4 : (A : ℚ) + B ≤ C + 1 := by exact_mod_cast (by omega : A + B ≤ C + 1)
  constructor <;> linarith

/-! ## Decision routing -/

/-- C1: pathway by price and condition alone -/
theorem makeReturnDecision_pathway (env : DecisionEnv) (itemData : ItemData)
    (customerData : CustomerData) :
    (itemData.originalPrice ≤ 500 →
        (makeReturnDecision env itemData customerData).pathway = "CARECONNECT" ∧
        (makeReturnDecision env itemData customerData).recommended = "DONATION") ∧
      (itemData.originalPrice > 1000 ∧ itemData.condition = "Good" →
        (makeReturnDecision env itemData customerData).pathway = "FLASH_SALE" ∧
        (makeReturnDecision env itemData customerData).recommended = "FLASH_SALE") ∧
      (itemData.originalPrice > 500 ∧ ¬(itemData.originalPrice > 1000 ∧ itemData.condition = "Good") →
        (makeReturnDecision env itemData customerData).pathway = "RECOMMERCE" ∧
        (makeReturnDecision env itemData customerData).recommended = "RESALE") := by
  refine ⟨fun h => ?_, fun h => ?_, fun h => ?_⟩
  · simp [makeReturnDecision, h]
  · have h500 : ¬ itemData.originalPrice ≤ 500 := by linarith [h.1]
    simp [makeReturnDecision, h500, h]
  · have h500 : ¬ itemData.originalPrice ≤ 500 := by linarith [h.1]
    have h2 := h.2
    simp only [makeReturnDecision, if_neg h500, if_neg h2]
    simp

/-- C1 at prices 500, 1500, 1000, 599 with condition Good and at 1500 with Fair -/
theorem makeReturnDecision_pathway_witness :
    (makeReturnDecision Samples.sampleDecisionEnv (Samples.sampleItem 500 "Good") Samples.sampleCustomer).pathway
        = "CARECONNECT" ∧
      (makeReturnDecision Samples.sampleDecisionEnv (Samples.sampleItem 1500 "Good") Samples.sampleCustomer).pathway
        = "FLASH_SALE" ∧
      (makeReturnDecision Samples.sampleDecisionEnv (Samples.sampleItem 1000 "Good") Samples.sampleCustomer).pathway
        = "RECOMMERCE" ∧
      (makeReturnDecision Samples.sampleDecisionEnv (Samples.sampleItem 599 "Good") Samples.sampleCustomer).recommended
        = "RESALE" ∧
      (makeReturnDecision Samples.sampleDecisionEnv (Samples.sampleItem 1500 "Fair") Samples.sampleCustomer).pathway
        = "RECOMMERCE" :=
  ⟨((makeReturnDecision_pathway Samples.sampleDecisionEnv (Samples.sampleItem 500 "Good") Samples.sampleCustomer).1
      (by norm_num [Samples.sampleItem])).1,
    ((makeReturnDecision_pathway Samples.sampleDecisionEnv (Samples.sampleItem 1500 "Good") Samples.sampleCustomer).2.1
      (by norm_num [Samples.sampleItem])).1,
    ((makeReturnDecision_pathway Samples.sampleDecisionEnv (Samples.sampleItem 1000 "Good") Samples.sampleCustomer).2.2
      (by norm_num [Samples.sampleItem])).1,
    ((makeReturnDecision_pathway Samples.sampleDecisionEnv (Samples.sampleItem 599 "Good") Samples.sampleCustomer).2.2
      (by norm_num [Samples.sampleItem])).2,
    ((makeReturnDecision_pathway Samples.sampleDecisionEnv (Samples.sampleItem 1500 "Fair") Samples.sampleCustomer).2.2
      ⟨by norm_num [Samples.sampleItem], fun h => absurd h.2 (by decide)⟩).1⟩

/-! ## Credit calculation -/

theorem round2_intCast_div (n : ℤ) : round2 ((n : ℚ) / 100) = n / 100 := by
  apply round2_eq_of <;> norm_num

theorem round2_25 : round2 25 = 25 := by
  have h := round2_intCast_div 2500
  norm_num at h
  exact h

theorem jsCeil_half : jsCeil ((50 : ℚ) / 100) = 1 := jsCeil_eq_of (by norm_num) (by norm_num)

theorem total_50_fashion : (calculateAvoidedCosts defaultConfig 50 .fashion 50).total = 24 := by
  simp only [calculateAvoidedCosts, defaultConfig, jsOr, jsCeil_half]
  rw [round2_eq_of 2400 (by norm_num) (by norm_num)]
  norm_num

theorem final_50_fashion : finalBuyerCredit defaultConfig 50 .fashion 50 = 25 := by
  simp only [finalBuyerCredit, cappedCredit, rawBuyerCredit, total_50_fashion]
  norm_num [defaultConfig]

theorem capped_50_fashion : cappedCredit defaultConfig 50 .fashion 50 = 72 / 5 := by
  simp only [cappedCredit, rawBuyerCredit, total_50_fashion]
  norm_num [defaultConfig]

theorem total_86_electronics :
    (calculateAvoidedCosts defaultConfig 86 .electronics 50).total = 6519 / 100 := by
  simp only [calculateAvoidedCosts, defaultConfig, jsOr, jsCeil_half]
  rw [round2_eq_of 6519 (by norm_num) (by norm_num)]
  norm_num

theorem final_86_electronics : finalBuyerCredit defaultConfig 86 .electronics 50 = 301 / 10 := by
  simp only [finalBuyerCredit, cappedCredit, rawBuyerCredit, total_86_electronics]
  norm_num [defaultConfig]

theorem total_28573_electronics :
    (calculateAvoidedCosts defaultConfig 285.73 .electronics 50).total = 21658 / 100 := by
  simp only [calculateAvoidedCosts, defaultConfig, jsOr, jsCeil_half]
  rw [round2_eq_of 21658 (by norm_num) (by norm_num)]
  norm_num

theorem final_28573_electronics :
    finalBuyerCredit defaultConfig 285.73 .electronics 50 = 2000110 / 20000 := by
  simp only [finalBuyerCredit, cappedCredit, rawBuyerCredit, total_28573_electronics]
  norm_num [defaultConfig]

/-- On a product and order details that are objects, `calculateInstantCredit`
succeeds with the details computed from the price, the category key and the
distance it reads. -/
theorem calculateInstantCredit_some (cfg : Config) (product : Product)
    (orderDetails : OrderDetails) (returnReason calculatedAt : String) :
    calculateInstantCredit cfg (some product) (some orderDetails) returnReason calculatedAt
      = some (creditDetailsFor cfg product.price (getCategoryKey product.category)
          (calculateDistance orderDetails.deliveryAddress orderDetails.sellerLocation)
          returnReason calculatedAt) := rfl

theorem creditDetailsFor_buyerCredit (cfg : Config) (p : ℚ) (c : CategoryKey) (d : ℚ)
    (r t : String) :
    (creditDetailsFor cfg p c d r t).buyerCredit = round2 (finalBuyerCredit cfg p c d) := rfl

theorem creditDetailsFor_total (cfg : Config) (p : ℚ) (c : CategoryKey) (d : ℚ)
    (r t : String) :
    (creditDetailsFor cfg p c d r t).avoidedCosts.total
      = (calculateAvoidedCosts cfg p c d).total := by
  show round2 (calculateAvoidedCosts cfg p c d).total = _
  simp only [calculateAvoidedCosts, round2_round2]

theorem round2_paise (x : ℚ) : ∃ k : ℤ, round2 x = (k : ℚ) / 100 :=
  ⟨jsRound (x * 100), rfl⟩

theorem abs_round2_sub_le (x : ℚ) : |round2 x - x| ≤ 1 / 200 := by
  unfold round2 jsRound
  have h1 := Int.floor_le (x * 100 + 1 / 2)
  have h2 := Int.lt_floor_add_one (x * 100 + 1 / 2)
  rw [abs_le]
  constructor
  · linarith
  · linarith

theorem abs_round2_sub_lt (x : ℚ) : |round2 x - x| < 1 / 100 :=
  lt_of_le_of_lt (abs_round2_sub_le x) (by norm_num)

theorem finalBuyerCredit_eq (cfg : Config) (p : ℚ) (c : CategoryKey) (d : ℚ) (r t : String) :
    finalBuyerCredit cfg p c d
      = max
          (min
            ((creditDetailsFor cfg p c d r t).avoidedCosts.total
              * cfg.creditConfig.buyerCreditPercentage / 100)
            (min (p * cfg.creditConfig.maxCreditPercentage / 100)
              cfg.creditConfig.maxCreditAmount))
          cfg.creditConfig.minCreditAmount := by
  rw [creditDetailsFor_total]
  simp only [finalBuyerCredit, cappedCredit, rawBuyerCredit, min_assoc]

/-- C2: buyerCredit is the capped and floored raw credit rounded to 2 decimals:
a whole number of hundredths less than one hundredth away from
max(min(rawCredit, price × maxCreditPercentage / 100, maxCreditAmount),
minCreditAmount), where rawCredit is the reported total avoided cost ×
buyerCreditPercentage / 100. The direction of the rounding at or next to a tie,
where the binary arithmetic of the code decides, is left open. -/
theorem calculateInstantCredit_buyerCredit (cfg : Config) :
    (∀ (productPrice : ℚ) (category : CategoryKey) (distanceKm : ℚ)
        (returnReason calculatedAt : String),
        (∃ k : ℤ,
          (creditDetailsFor cfg productPrice category distanceKm returnReason
              calculatedAt).buyerCredit = (k : ℚ) / 100) ∧
        |(creditDetailsFor cfg productPrice category distanceKm returnReason
              calculatedAt).buyerCredit
            - max
                (min
                  ((creditDetailsFor cfg productPrice category distanceKm returnReason
                      calculatedAt).avoidedCosts.total
                    * cfg.creditConfig.buyerCreditPercentage / 100)
                  (min (productPrice * cfg.creditConfig.maxCreditPercentage / 100)
                    cfg.creditConfig.maxCreditAmount))
                cfg.creditConfig.minCreditAmount| < 1 / 100) ∧
      (∀ (product : Product) (orderDetails : OrderDetails) (returnReason calculatedAt : String),
        ∃ details,
          calculateInstantCredit cfg (some product) (some orderDetails) returnReason calculatedAt
            = some details ∧
          (∃ k : ℤ, details.buyerCredit = (k : ℚ) / 100) ∧
          |details.buyerCredit
              - max
                  (min (details.avoidedCosts.total * cfg.creditConfig.buyerCreditPercentage / 100)
                    (min (product.price * cfg.creditConfig.maxCreditPercentage / 100)
                      cfg.creditConfig.maxCreditAmount))
                  cfg.creditConfig.minCreditAmount| < 1 / 100) := by
  have key : ∀ (productPrice : ℚ) (category : CategoryKey) (distanceKm : ℚ)
      (returnReason calculatedAt : String),
      (∃ k : ℤ,
        (creditDetailsFor cfg productPrice category distanceKm returnReason
            calculatedAt).buyerCredit = (k : ℚ) / 100) ∧
      |(creditDetailsFor cfg productPrice category distanceKm returnReason
            calculatedAt).buyerCredit
          - max
              (min
                ((creditDetailsFor cfg productPrice category distanceKm returnReason
                    calculatedAt).avoidedCosts.total
                  * cfg.creditConfig.buyerCreditPercentage / 100)
                (min (productPrice * cfg.creditConfig.maxCreditPercentage / 100)
                  cfg.creditConfig.maxCreditAmount))
              cfg.creditConfig.minCreditAmount| < 1 / 100 := by
    intro p c d r t
    rw [← finalBuyerCredit_eq cfg p c d r t, creditDetailsFor_buyerCredit]
    exact ⟨round2_paise _, abs_round2_sub_lt _⟩
  exact ⟨key, fun product orderDetails r t => ⟨_, rfl, key _ _ _ _ _⟩⟩

/-- C3 (as stated, refuted): at price 50 the floor 25 exceeds the cap 17.5, and at
price 285.73 the rounded credit 100.01 exceeds the cap 100.0055. -/
theorem buyerCredit_upper_bound_fails :
    ((0 : ℚ) < 50 ∧ (0 : ℚ) ≤ 50 ∧
      (creditDetailsFor defaultConfig 50 .fashion 50 "ngo_donation" "").buyerCredit = 25 ∧
      ¬ ((creditDetailsFor defaultConfig 50 .fashion 50 "ngo_donation" "").buyerCredit
          ≤ min defaultConfig.creditConfig.maxCreditAmount
              (50 * defaultConfig.creditConfig.maxCreditPercentage / 100))) ∧
    ((0 : ℚ) < 285.73 ∧
      (creditDetailsFor defaultConfig 285.73 .electronics 50 "ngo_donation" "").buyerCredit
        = 100.01 ∧
      ¬ ((creditDetailsFor defaultConfig 285.73 .electronics 50 "ngo_donation" "").buyerCredit
          ≤ min defaultConfig.creditConfig.maxCreditAmount
              (285.73 * defaultConfig.creditConfig.maxCreditPercentage / 100))) := by
  have h1 : (creditDetailsFor defaultConfig 50 .fashion 50 "ngo_donation" "").buyerCredit = 25 := by
    rw [creditDetailsFor_buyerCredit, final_50_fashion, round2_25]
  have h2 : (creditDetailsFor defaultConfig 285.73 .electronics 50 "ngo_donation" "").buyerCredit
      = 100.01 := by
    rw [creditDetailsFor_buyerCredit, final_28573_electronics,
      round2_eq_of 10001 (by norm_num) (by norm_num)]
    norm_num
  refine ⟨⟨by norm_num, by norm_num, h1, ?_⟩, by norm_num, h2, ?_⟩
  · rw [h1]; norm_num [defaultConfig]
  · rw [h2]; norm_num [defaultConfig]

/-- C3 (amended): the credit is at least the floor and at most the larger of the
floor and the rounded cap -/
theorem buyerCredit_bounds (productPrice : ℚ) (category : CategoryKey) (distanceKm : ℚ)
    (returnReason calculatedAt : String) :
    (∀ cfg : Config,
      round2 cfg.creditConfig.minCreditAmount
          ≤ (creditDetailsFor cfg productPrice category distanceKm returnReason
              calculatedAt).buyerCredit ∧
        (creditDetailsFor cfg productPrice category distanceKm returnReason
            calculatedAt).buyerCredit
          ≤ max (round2 cfg.creditConfig.minCreditAmount)
              (round2 (min cfg.creditConfig.maxCreditAmount
                (productPrice * cfg.creditConfig.maxCreditPercentage / 100)))) ∧
      defaultConfig.creditConfig.minCreditAmount
          ≤ (creditDetailsFor defaultConfig productPrice category distanceKm returnReason
              calculatedAt).buyerCredit ∧
      (creditDetailsFor defaultConfig productPrice category distanceKm returnReason
          calculatedAt).buyerCredit
        ≤ max defaultConfig.creditConfig.minCreditAmount
            (round2 (min defaultConfig.creditConfig.maxCreditAmount
              (productPrice * defaultConfig.creditConfig.maxCreditPercentage / 100))) := by
  have gen : ∀ cfg : Config,
      round2 cfg.creditConfig.minCreditAmount
          ≤ (creditDetailsFor cfg productPrice category distanceKm returnReason
              calculatedAt).buyerCredit ∧
        (creditDetailsFor cfg productPrice category distanceKm returnReason
            calculatedAt).buyerCredit
          ≤ max (round2 cfg.creditConfig.minCreditAmount)
              (round2 (min cfg.creditConfig.maxCreditAmount
                (productPrice * cfg.creditConfig.maxCreditPercentage / 100))) := by
    intro cfg
    rw [creditDetailsFor_buyerCredit]
    unfold finalBuyerCredit
    rw [round2_max]
    refine ⟨le_max_right _ _, max_le ?_ (le_max_left _ _)⟩
    refine le_trans (round2_mono ?_) (le_max_right _ _)
    unfold cappedCredit
    refine le_min (min_le_right _ _) (le_trans (min_le_left _ _) (min_le_right _ _))
  refine ⟨gen, ?_⟩
  have h := gen defaultConfig
  have h25 : round2 defaultConfig.creditConfig.minCreditAmount
      = defaultConfig.creditConfig.minCreditAmount := round2_25
  rw [h25] at h
  exact h

/-- C4: when the capped credit is below the floor the credit is the floor, and a
cheap item then gets more than its total avoided cost -/
theorem credit_floor_unconditional (cfg : Config) (productPrice : ℚ) (category : CategoryKey)
    (distanceKm : ℚ) (returnReason calculatedAt : String)
    (hfloor : round2 cfg.creditConfig.minCreditAmount = cfg.creditConfig.minCreditAmount)
    (hcapped : cappedCredit cfg productPrice category distanceKm
      < cfg.creditConfig.minCreditAmount) :
    (creditDetailsFor cfg productPrice category distanceKm returnReason calculatedAt).buyerCredit
        = cfg.creditConfig.minCreditAmount ∧
      ∃ (price : ℚ) (cat : CategoryKey) (dist : ℚ),
        0 < price ∧
        cappedCredit defaultConfig price cat dist < defaultConfig.creditConfig.minCreditAmount ∧
        (creditDetailsFor defaultConfig price cat dist returnReason calculatedAt).avoidedCosts.total
          < (creditDetailsFor defaultConfig price cat dist returnReason calculatedAt).buyerCredit := by
  constructor
  · rw [creditDetailsFor_buyerCredit]
    unfold finalBuyerCredit
    rw [max_eq_right (le_of_lt hcapped), hfloor]
  · refine ⟨50, .fashion, 50, by norm_num, ?_, ?_⟩
    · rw [capped_50_fashion]; norm_num [defaultConfig]
    · rw [creditDetailsFor_total, creditDetailsFor_buyerCredit, total_50_fashion,
        final_50_fashion, round2_25]
      norm_num

/-- C4 at price 50, fashion, 50 km under the constructor's configuration -/
theorem credit_floor_unconditional_witness :
    round2 defaultConfig.creditConfig.minCreditAmount = defaultConfig.creditConfig.minCreditAmount ∧
      cappedCredit defaultConfig 50 .fashion 50 < defaultConfig.creditConfig.minCreditAmount ∧
      (creditDetailsFor defaultConfig 50 .fashion 50 "ngo_donation" "").buyerCredit
        = defaultConfig.creditConfig.minCreditAmount :=
  ⟨round2_25, by rw [capped_50_fashion]; norm_num [defaultConfig],
    (credit_floor_unconditional defaultConfig 50 .fashion 50 "ngo_donation" "" round2_25
      (by rw [capped_50_fashion]; norm_num [defaultConfig])).1⟩

/-- C5 (as stated, refuted): price 86, electronics, 50 km, shares 65/35: the
reported parts 19.57 and 10.54 add up to 30.11, the reported credit is 30.10. -/
theorem costSharing_reported_sum_differs :
    defaultConfig.costSharingConfig.seller + defaultConfig.costSharingConfig.meesho = 100 ∧
      (creditDetailsFor defaultConfig 86 .electronics 50 "ngo_donation" "").buyerCredit = 30.1 ∧
      (creditDetailsFor defaultConfig 86 .electronics 50 "ngo_donation" "").costSharing.sellerAmount
        = 19.57 ∧
      (creditDetailsFor defaultConfig 86 .electronics 50 "ngo_donation" "").costSharing.meeshoAmount
        = 10.54 ∧
      (creditDetailsFor defaultConfig 86 .electronics 50 "ngo_donation" "").costSharing.sellerAmount
        + (creditDetailsFor defaultConfig 86 .electronics 50 "ngo_donation"
            "").costSharing.meeshoAmount
        ≠ (creditDetailsFor defaultConfig 86 .electronics 50 "ngo_donation" "").buyerCredit := by
  have hb : (creditDetailsFor defaultConfig 86 .electronics 50 "ngo_donation" "").buyerCredit
      = 30.1 := by
    rw [creditDetailsFor_buyerCredit, final_86_electronics,
      round2_eq_of 3010 (by norm_num) (by norm_num)]
    norm_num
  have hs : (creditDetailsFor defaultConfig 86 .electronics 50 "ngo_donation"
      "").costSharing.sellerAmount = 19.57 := by
    show round2 (calculateCostSharing defaultConfig
      (finalBuyerCredit defaultConfig 86 .electronics 50)).sellerAmount = 19.57
    rw [final_86_electronics]
    simp only [calculateCostSharing, defaultConfig]
    rw [round2_eq_of 1957 (by norm_num) (by norm_num)]
    norm_num
  have hm : (creditDetailsFor defaultConfig 86 .electronics 50 "ngo_donation"
      "").costSharing.meeshoAmount = 10.54 := by
    show round2 (calculateCostSharing defaultConfig
      (finalBuyerCredit defaultConfig 86 .electronics 50)).meeshoAmount = 10.54
    rw [final_86_electronics]
    simp only [calculateCostSharing, defaultConfig]
    rw [round2_eq_of 1054 (by norm_num) (by norm_num)]
    norm_num
  refine ⟨by norm_num [defaultConfig], hb, hs, hm, ?_⟩
  rw [hb, hs, hm]
  norm_num

/-- C5 (amended): with shares summing to 100 the reported sellerAmount and
meeshoAmount, each rounded to 2 decimals on its own, add up to the reported
buyerCredit up to one hundredth -/
theorem costSharing_sum (cfg : Config) (productPrice : ℚ) (category : CategoryKey)
    (distanceKm : ℚ) (returnReason calculatedAt : String)
    (hshare : cfg.costSharingConfig.seller + cfg.costSharingConfig.meesho = 100) :
    |(creditDetailsFor cfg productPrice category distanceKm returnReason
            calculatedAt).costSharing.sellerAmount
          + (creditDetailsFor cfg productPrice category distanceKm returnReason
              calculatedAt).costSharing.meeshoAmount
        - (creditDetailsFor cfg productPrice category distanceKm returnReason
            calculatedAt).buyerCredit| ≤ 1 / 100 := by
  have hsum : finalBuyerCredit cfg productPrice category distanceKm
        * cfg.costSharingConfig.seller / 100
      + finalBuyerCredit cfg productPrice category distanceKm
        * cfg.costSharingConfig.meesho / 100
      = finalBuyerCredit cfg productPrice category distanceKm := by
    rw [← add_div, ← mul_add, hshare]
    field_simp
  have hr := round2_add_le
    (finalBuyerCredit cfg productPrice category distanceKm * cfg.costSharingConfig.seller / 100)
    (finalBuyerCredit cfg productPrice category distanceKm * cfg.costSharingConfig.meesho / 100)
  rw [hsum] at hr
  show |round2 (finalBuyerCredit cfg productPrice category distanceKm
          * cfg.costSharingConfig.seller / 100)
        + round2 (finalBuyerCredit cfg productPrice category distanceKm
          * cfg.costSharingConfig.meesho / 100)
      - round2 (finalBuyerCredit cfg productPrice category distanceKm)| ≤ 1 / 100
  rw [abs_le]
  constructor
  · linarith [hr.1]
  · linarith [hr.2]

/-- C5 (amended) at price 86, electronics, 50 km, shares 65/35 -/
theorem costSharing_sum_witness :
    defaultConfig.costSharingConfig.seller + defaultConfig.costSharingConfig.meesho = 100 ∧
      |(creditDetailsFor defaultConfig 86 .electronics 50 "ngo_donation"
              "").costSharing.sellerAmount
            + (creditDetailsFor defaultConfig 86 .electronics 50 "ngo_donation"
                "").costSharing.meeshoAmount
          - (creditDetailsFor defaultConfig 86 .electronics 50 "ngo_donation" "").buyerCredit|
        ≤ 1 / 100 :=
  ⟨by norm_num [defaultConfig],
    costSharing_sum defaultConfig 86 .electronics 50 "ngo_donation" ""
      (by norm_num [defaultConfig])⟩

/-! ## Columns of type DECIMAL -/

theorem pgRound_zero (s : ℕ) : pgRound s 0 = 0 := by
  unfold pgRound
  rw [if_pos (le_refl _)]
  have h : ⌊(0 : ℚ) * 10 ^ s + 1 / 2⌋ = 0 := by
    rw [Int.floor_eq_iff]
    constructor <;> norm_num
  rw [h]
  simp

theorem pgRound_neg (s : ℕ) (x : ℚ) : pgRound s (-x) = -pgRound s x := by
  rcases lt_trichotomy x 0 with h | h | h
  · unfold pgRound
    rw [if_pos (by linarith : (0 : ℚ) ≤ -x), if_neg (by linarith : ¬ (0 : ℚ) ≤ x), neg_neg]
  · subst h
    rw [neg_zero, pgRound_zero, neg_zero]
  · unfold pgRound
    rw [if_neg (by linarith : ¬ (0 : ℚ) ≤ -x), if_pos (le_of_lt h), neg_neg]

theorem pgRound_eq_of (s : ℕ) {x : ℚ} (n : ℤ) (h0 : 0 ≤ x) (h1 : (n : ℚ) ≤ x * 10 ^ s + 1 / 2)
    (h2 : x * 10 ^ s + 1 / 2 < n + 1) : pgRound s x = (n : ℚ) / 10 ^ s := by
  unfold pgRound
  rw [if_pos h0]
  have h : ⌊x * 10 ^ s + 1 / 2⌋ = n := by
    rw [Int.floor_eq_iff]
    exact ⟨h1, h2⟩
  rw [h]

theorem pgRound_nonneg (s : ℕ) {x : ℚ} (h : 0 ≤ x) : 0 ≤ pgRound s x := by
  unfold pgRound
  rw [if_pos h]
  apply div_nonneg
  · have : (0 : ℤ) ≤ ⌊x * 10 ^ s + 1 / 2⌋ := by
      apply Int.floor_nonneg.2
      have : (0 : ℚ) ≤ x * 10 ^ s := mul_nonneg h (by positivity)
      linarith
    exact_mod_cast this
  · positivity

theorem pgRound_intCast_div (s : ℕ) (n : ℤ) : pgRound s ((n : ℚ) / 10 ^ s) = (n : ℚ) / 10 ^ s := by
  have hpos : (0 : ℚ) < 10 ^ s := by positivity
  have key : ∀ m : ℤ, 0 ≤ m → pgRound s ((m : ℚ) / 10 ^ s) = (m : ℚ) / 10 ^ s := by
    intro m hm
    have hm' : (0 : ℚ) ≤ (m : ℚ) := by exact_mod_cast hm
    apply pgRound_eq_of s m (div_nonneg hm' hpos.le)
    · rw [div_mul_cancel₀ _ hpos.ne']
      linarith
    · rw [div_mul_cancel₀ _ hpos.ne']
      linarith
  rcases le_total 0 n with h | h
  · exact key n h
  · have h2 := key (-n) (by omega)
    have e : ((-n : ℤ) : ℚ) / 10 ^ s = -((n : ℚ) / 10 ^ s) := by
      push_cast
      ring
    rw [e, pgRound_neg] at h2
    exact neg_injective h2

theorem pgRound_eq_self_iff (s : ℕ) (x : ℚ) :
    pgRound s x = x ↔ ∃ n : ℤ, x = (n : ℚ) / 10 ^ s := by
  constructor
  · intro h
    unfold pgRound at h
    split_ifs at h
    · exact ⟨_, h.symm⟩
    · refine ⟨-⌊-x * 10 ^ s + 1 / 2⌋, ?_⟩
      calc x = -(((⌊-x * 10 ^ s + 1 / 2⌋ : ℤ) : ℚ) / 10 ^ s) := h.symm
        _ = ((-⌊-x * 10 ^ s + 1 / 2⌋ : ℤ) : ℚ) / 10 ^ s := by
          push_cast
          ring
  · rintro ⟨n, rfl⟩
    exact pgRound_intCast_div s n

theorem pgRound_pgRound (s : ℕ) (x : ℚ) : pgRound s (pgRound s x) = pgRound s x := by
  rw [pgRound_eq_self_iff]
  unfold pgRound
  split_ifs
  · exact ⟨_, rfl⟩
  · refine ⟨-⌊-x * 10 ^ s + 1 / 2⌋, ?_⟩
    push_cast
    ring

theorem pgRound_add_self (s : ℕ) {a b : ℚ} (ha : pgRound s a = a) (hb : pgRound s b = b) :
    pgRound s (a + b) = a + b := by
  rw [pgRound_eq_self_iff] at ha hb ⊢
  obtain ⟨m, rfl⟩ := ha
  obtain ⟨n, rfl⟩ := hb
  refine ⟨m + n, ?_⟩
  push_cast
  ring

theorem pgRound_neg_self (s : ℕ) {a : ℚ} (ha : pgRound s a = a) : pgRound s (-a) = -a := by
  rw [pgRound_neg, ha]

theorem pgRound_sub_self (s : ℕ) {a b : ℚ} (ha : pgRound s a = a) (hb : pgRound s b = b) :
    pgRound s (a - b) = a - b := by
  rw [sub_eq_add_neg]
  exact pgRound_add_self s ha (pgRound_neg_self s hb)

theorem pgRound_intCast (s : ℕ) (n : ℤ) : pgRound s (n : ℚ) = n := by
  rw [pgRound_eq_self_iff]
  refine ⟨n * 10 ^ s, ?_⟩
  push_cast
  field_simp

theorem pgRound_natCast (s : ℕ) (n : ℕ) : pgRound s (n : ℚ) = n := by
  have := pgRound_intCast s (n : ℤ)
  simpa using this

theorem pgRound_ofNat (s : ℕ) (n : ℕ) [n.AtLeastTwo] :
    pgRound s (no_index (OfNat.ofNat n : ℚ)) = OfNat.ofNat n :=
  pgRound_natCast s n

theorem pgRound_one (s : ℕ) : pgRound s 1 = 1 := by
  have := pgRound_natCast s 1
  simpa using this

theorem pgFits_iff (p s : ℕ) (x : ℚ) :
    pgFits p s x = true ↔ |pgRound s x| < 10 ^ (p - s) := by
  unfold pgFits
  simp

theorem pgFits_eq_false_iff (p s : ℕ) (x : ℚ) :
    pgFits p s x = false ↔ ¬ |pgRound s x| < 10 ^ (p - s) := by
  unfold pgFits
  simp

theorem pgFits_neg (p s : ℕ) (x : ℚ) : pgFits p s (-x) = pgFits p s x := by
  unfold pgFits
  rw [pgRound_neg, abs_neg]

theorem pgFits_zero (p s : ℕ) : pgFits p s 0 = true := by
  rw [pgFits_iff, pgRound_zero, abs_zero]
  positivity

theorem pgFits_ofNat (p s : ℕ) (n : ℕ) [n.AtLeastTwo] (h : n < 10 ^ (p - s)) :
    pgFits p s (no_index (OfNat.ofNat n : ℚ)) = true := by
  rw [pgFits_iff, pgRound_ofNat]
  have h2 : ((n : ℕ) : ℚ) < ((10 ^ (p - s) : ℕ) : ℚ) := by exact_mod_cast h
  have h3 : (OfNat.ofNat n : ℚ) = (n : ℚ) := rfl
  rw [h3, abs_of_nonneg (by positivity)]
  push_cast at h2
  exact h2

theorem pgFits_of_eq (p s : ℕ) {x : ℚ} (y : ℚ) (h : pgRound s x = y)
    (hy : |y| < 10 ^ (p - s)) : pgFits p s x = true := by
  rw [pgFits_iff, h]
  exact hy

/-! ## Wallet ledger -/

theorem getOrCreateWallet_cases (env : Env) (db : Db) (userId : String) :
    getOrCreateWallet env db userId = (db, none) ∨
      ∃ row, getOrCreateWallet env db userId = (withWallet db userId, some row) ∧
        (walletRows (withWallet db userId) userId).head? = some row := by
  unfold getOrCreateWallet withWallet walletRows
  by_cases h1 : env.fails .walletSelect = true
  · left; simp [h1]
  · rcases hrows : db.wallets.filter (fun w => w.user_id = userId) with _ | ⟨row, rest⟩
    · by_cases h2 : env.fails .walletInsert = true
      · left; simp [h1, h2, hrows]
      · right
        refine ⟨⟨userId, 0, 0, 0⟩, ?_, ?_⟩
        · simp [h1, h2, hrows]
        · simp [List.filter_append, hrows]
    · right
      exact ⟨row, by simp [h1, hrows], by simp [hrows]⟩

theorem map_complete_append (l : List WalletTransaction) (t : WalletTransaction)
    (hfresh : l.any (fun s => s.transaction_id = t.transaction_id) = false) :
    (l ++ [t]).map (fun s =>
        if s.transaction_id = t.transaction_id then { s with status := .completed } else s)
      = l ++ [{ t with status := .completed }] := by
  rw [List.map_append]
  congr 1
  · rw [List.any_eq_false] at hfresh
    conv_rhs => rw [← List.map_id l]
    apply List.map_congr_left
    intro s hs
    have := hfresh s hs
    simp at this
    simp [this]
  · simp

theorem issue_cases (env : Env) (db : Db) (cd : CreditData) :
    issueNGODonationCredit env db cd = (db, none) ∨
    issueNGODonationCredit env db cd = (withWallet db cd.userId, none) ∨
    ∃ tx : WalletTransaction,
      tx.user_id = cd.userId ∧ tx.amount = pgRound 2 cd.creditAmount ∧ tx.status = .completed ∧
      tx.transaction_id = generateTransactionId env "NGO" cd.userId ∧
      (withWallet db cd.userId).wallet_transactions.any
        (fun s => s.transaction_id = tx.transaction_id) = false ∧
      issueNGODonationCredit env db cd =
        ({ withWallet db cd.userId with
            wallets := (withWallet db cd.userId).wallets.map (creditRow cd.userId cd.creditAmount)
            wallet_transactions := (withWallet db cd.userId).wallet_transactions ++ [tx] },
          some { transaction := tx
                 wallet := (((withWallet db cd.userId).wallets.map
                    (creditRow cd.userId cd.creditAmount)).filter
                      (fun w => w.user_id = cd.userId)).head? }) := by
  unfold issueNGODonationCredit
  by_cases h0 : env.fails .issueBegin = true
  · left; simp [h0]
  rcases getOrCreateWallet_cases env db cd.userId with hg | ⟨row, hg, -⟩
  · left; simp [h0, hg]
  rw [if_neg h0]
  simp only [hg]
  split
  · right; left; rfl
  rename_i h1
  split
  · right; left; rfl
  rename_i h2
  split
  · right; left; rfl
  rename_i h3
  split
  · right; left; rfl
  rename_i h4
  right; right
  simp only [Bool.or_eq_true, not_or, Bool.not_eq_true] at h1
  refine ⟨{ transaction_id := generateTransactionId env "NGO" cd.userId
            user_id := cd.userId
            type := .ngo_donation_credit
            amount := pgRound 2 cd.creditAmount
            status := .completed
            description := cd.description.getD "Credit for donating return to NGO"
            order_id := cd.orderId
            return_id := cd.returnId
            ngo_id := cd.ngoId }, rfl, rfl, rfl, rfl, h1.1.2, ?_⟩
  have hm := map_complete_append (withWallet db cd.userId).wallet_transactions
    { transaction_id := generateTransactionId env "NGO" cd.userId
      user_id := cd.userId
      type := .ngo_donation_credit
      amount := pgRound 2 cd.creditAmount
      status := .pending
      description := cd.description.getD "Credit for donating return to NGO"
      order_id := cd.orderId
      return_id := cd.returnId
      ngo_id := cd.ngoId } h1.1.2
  simp only [] at hm
  simp only [hm]
  rfl

theorem pay_cases (env : Env) (db : Db) (pd : PaymentData) :
    processWalletPayment env db pd = (db, none) ∨
    ∃ (row : Wallet) (rest : List Wallet) (tx : WalletTransaction),
      walletRows db pd.userId = row :: rest ∧ pd.amount ≤ row.balance ∧
      tx.user_id = pd.userId ∧ tx.amount = pgRound 2 (-pd.amount) ∧ tx.status = .completed ∧
      tx.transaction_id = generateTransactionId env "PAY" pd.userId ∧
      db.wallet_transactions.any (fun s => s.transaction_id = tx.transaction_id) = false ∧
      processWalletPayment env db pd =
        ({ db with
            wallets := db.wallets.map (debitRow pd.userId pd.amount)
            wallet_transactions := db.wallet_transactions ++ [tx] },
          some { transactionId := tx.transaction_id
                 wallet := ((db.wallets.map (debitRow pd.userId pd.amount)).filter
                      (fun w => w.user_id = pd.userId)).head? }) := by
  unfold processWalletPayment
  by_cases h0 : env.fails .paymentBegin = true
  · left; simp [h0]
  by_cases h1 : env.fails .paymentSelect = true
  · left; simp [h0, h1]
  rcases hrows : db.wallets.filter (fun w => w.user_id = pd.userId) with _ | ⟨row, rest⟩
  · left; simp [h0, h1, hrows]
  by_cases hb : row.balance < pd.amount
  · left; simp [h0, h1, hrows, hb]
  rw [if_neg h0, if_neg h1]
  simp only [hrows]
  rw [if_neg hb]
  split
  · left; rfl
  rename_i h2
  split
  · left; rfl
  rename_i h3
  split
  · left; rfl
  rename_i h4
  right
  simp only [Bool.or_eq_true, not_or, Bool.not_eq_true] at h2
  exact ⟨row, rest,
    { transaction_id := generateTransactionId env "PAY" pd.userId
      user_id := pd.userId
      type := .purchase
      amount := pgRound 2 (-pd.amount)
      status := .completed
      description := pd.description.getD "Wallet payment for order"
      order_id := pd.orderId
      return_id := none
      ngo_id := none }, hrows, le_of_not_lt hb, rfl, rfl, rfl, rfl, h2.1.2, rfl⟩

theorem completedSum_append (db : Db) (wallets : List Wallet) (tx : WalletTransaction)
    (u : String) :
    completedSum { db with wallets := wallets
                           wallet_transactions := db.wallet_transactions ++ [tx] } u
      = completedSum db u + (if tx.user_id = u ∧ tx.status = .completed then tx.amount else 0) := by
  unfold completedSum
  simp only [List.filter_append, List.map_append, List.sum_append]
  by_cases h : tx.user_id = u ∧ tx.status = .completed
  · simp [List.filter, h]
  · simp [List.filter, h]

theorem completedSum_withWallet (db : Db) (v u : String) :
    completedSum (withWallet db v) u = completedSum db u := by
  unfold withWallet completedSum
  split <;> rfl

theorem walletRows_withWallet_ne_nil (db : Db) (v : String) :
    walletRows (withWallet db v) v ≠ [] := by
  unfold withWallet
  rcases h : walletRows db v with _ | ⟨row, rest⟩
  · simp [walletRows, List.filter_append]
  · simp [h]

theorem mem_withWallet (db : Db) (v : String) (w : Wallet) (hw : w ∈ (withWallet db v).wallets) :
    w ∈ db.wallets ∨ (walletRows db v = [] ∧ w = ⟨v, 0, 0, 0⟩) := by
  unfold withWallet at hw
  rcases h : walletRows db v with _ | ⟨row, rest⟩
  · simp only [h, List.mem_append, List.mem_singleton] at hw
    rcases hw with hw | hw
    · exact Or.inl hw
    · exact Or.inr ⟨rfl, hw⟩
  · simp only [h] at hw
    exact Or.inl hw

theorem walletRows_withWallet_of_ne (db : Db) (v u : String) (h : v ≠ u) :
    walletRows (withWallet db v) u = walletRows db u := by
  unfold withWallet
  rcases hr : walletRows db v with _ | ⟨row, rest⟩
  · simp [walletRows, List.filter_append, h]
  · simp

theorem LedgerOK_withWallet (db : Db) (v u : String) (h : LedgerOK db u) :
    LedgerOK (withWallet db v) u := by
  refine ⟨fun w hw hu => ?_, fun hnil => ?_⟩
  · rw [completedSum_withWallet]
    rcases mem_withWallet db v w hw with hmem | ⟨hnone, rfl⟩
    · exact h.1 w hmem hu
    · simp only at hu
      subst hu
      exact (h.2 hnone).symm
  · rw [completedSum_withWallet]
    by_cases hvu : v = u
    · subst hvu
      exact absurd hnil (walletRows_withWallet_ne_nil db v)
    · rw [walletRows_withWallet_of_ne db v u hvu] at hnil
      exact h.2 hnil

theorem walletRows_map_eq_nil {f : Wallet → Wallet} (hf : ∀ w, (f w).user_id = w.user_id)
    (l : List Wallet) (u : String) :
    (l.map f).filter (fun w => w.user_id = u) = [] ↔ l.filter (fun w => w.user_id = u) = [] := by
  simp only [List.filter_eq_nil_iff, List.mem_map, forall_exists_index, and_imp,
    forall_apply_eq_imp_iff₂, hf]

theorem creditRow_user_id (v : String) (a : ℚ) (w : Wallet) :
    (creditRow v a w).user_id = w.user_id := by
  unfold creditRow; split <;> rfl

theorem debitRow_user_id (v : String) (a : ℚ) (w : Wallet) :
    (debitRow v a w).user_id = w.user_id := by
  unfold debitRow; split <;> rfl

theorem LedgerOK_credit (db : Db) (v u : String) (a : ℚ) (tx : WalletTransaction)
    (h : LedgerOK db u) (hv : walletRows db v ≠ []) (htu : tx.user_id = v)
    (hta : tx.amount = pgRound 2 a) (hts : tx.status = .completed)
    (hsum : pgRound 2 (completedSum db u) = completedSum db u)
    (ha : v = u → pgRound 2 a = a) :
    LedgerOK { db with wallets := db.wallets.map (creditRow v a)
                       wallet_transactions := db.wallet_transactions ++ [tx] } u := by
  refine ⟨fun w hw hu => ?_, fun hnil => ?_⟩
  · rw [completedSum_append]
    simp only [List.mem_map] at hw
    obtain ⟨w0, hw0, rfl⟩ := hw
    rw [creditRow_user_id] at hu
    have hb := h.1 w0 hw0 hu
    by_cases hvu : v = u
    · subst hvu
      have hr := pgRound_add_self 2 hsum (ha rfl)
      simp [creditRow, hu, htu, hts, hta, hb, hr, ha rfl]
    · have : ¬ (tx.user_id = u) := by rw [htu]; exact hvu
      have hne : ¬ (w0.user_id = v) := by rw [hu]; exact fun e => hvu e.symm
      simp [creditRow, this, hne, hb]
  · rw [completedSum_append]
    have hnil' : walletRows db u = [] :=
      (walletRows_map_eq_nil (creditRow_user_id v a) db.wallets u).mp hnil
    have hvu : ¬ (v = u) := fun e => hv (e ▸ hnil')
    have : ¬ (tx.user_id = u) := by rw [htu]; exact hvu
    simp [this, h.2 hnil']

theorem LedgerOK_debit (db : Db) (v u : String) (a : ℚ) (tx : WalletTransaction)
    (h : LedgerOK db u) (hv : walletRows db v ≠ []) (htu : tx.user_id = v)
    (hta : tx.amount = pgRound 2 (-a)) (hts : tx.status = .completed)
    (hsum : pgRound 2 (completedSum db u) = completedSum db u)
    (ha : v = u → pgRound 2 a = a) :
    LedgerOK { db with wallets := db.wallets.map (debitRow v a)
                       wallet_transactions := db.wallet_transactions ++ [tx] } u := by
  refine ⟨fun w hw hu => ?_, fun hnil => ?_⟩
  · rw [completedSum_append]
    simp only [List.mem_map] at hw
    obtain ⟨w0, hw0, rfl⟩ := hw
    rw [debitRow_user_id] at hu
    have hb := h.1 w0 hw0 hu
    by_cases hvu : v = u
    · subst hvu
      have hr := pgRound_sub_self 2 hsum (ha rfl)
      have hn := pgRound_neg_self 2 (ha rfl)
      simp [debitRow, hu, htu, hts, hta, hb, hr, hn]
      ring
    · have : ¬ (tx.user_id = u) := by rw [htu]; exact hvu
      have hne : ¬ (w0.user_id = v) := by rw [hu]; exact fun e => hvu e.symm
      simp [debitRow, this, hne, hb]
  · rw [completedSum_append]
    have hnil' : walletRows db u = [] :=
      (walletRows_map_eq_nil (debitRow_user_id v a) db.wallets u).mp hnil
    have hvu : ¬ (v = u) := fun e => hv (e ▸ hnil')
    have : ¬ (tx.user_id = u) := by rw [htu]; exact hvu
    simp [this, h.2 hnil']

theorem completedSum_append_paise (db : Db) (wallets : List Wallet) (tx : WalletTransaction)
    (u : String) (x : ℚ) (hta : tx.amount = pgRound 2 x)
    (hsum : pgRound 2 (completedSum db u) = completedSum db u) :
    pgRound 2 (completedSum { db with wallets := wallets
                                      wallet_transactions := db.wallet_transactions ++ [tx] } u)
      = completedSum { db with wallets := wallets
                               wallet_transactions := db.wallet_transactions ++ [tx] } u := by
  rw [completedSum_append]
  apply pgRound_add_self 2 hsum
  split
  · rw [hta, pgRound_pgRound]
  · exact pgRound_zero 2

theorem LedgerOK_step (db : Db) (u : String) (c : Call)
    (h : LedgerOK db u ∧ pgRound 2 (completedSum db u) = completedSum db u)
    (ha : c.userId = u → pgRound 2 c.amount = c.amount) :
    LedgerOK (step db c) u
      ∧ pgRound 2 (completedSum (step db c) u) = completedSum (step db c) u := by
  cases c with
  | issue env cd =>
    rcases issue_cases env db cd with hc | hc | ⟨tx, htu, hta, hts, -, -, hc⟩
    · simp only [step, hc]; exact h
    · simp only [step, hc]
      exact ⟨LedgerOK_withWallet db cd.userId u h.1, by rw [completedSum_withWallet]; exact h.2⟩
    · simp only [step, hc]
      have hs : pgRound 2 (completedSum (withWallet db cd.userId) u)
          = completedSum (withWallet db cd.userId) u := by
        rw [completedSum_withWallet]; exact h.2
      exact ⟨LedgerOK_credit (withWallet db cd.userId) cd.userId u cd.creditAmount tx
        (LedgerOK_withWallet db cd.userId u h.1) (walletRows_withWallet_ne_nil db cd.userId)
        htu hta hts hs ha, completedSum_append_paise _ _ tx u _ hta hs⟩
  | pay env pd =>
    rcases pay_cases env db pd with hc | ⟨row, rest, tx, hrows, -, htu, hta, hts, -, -, hc⟩
    · simp only [step, hc]; exact h
    · simp only [step, hc]
      exact ⟨LedgerOK_debit db pd.userId u pd.amount tx h.1 (by rw [hrows]; simp) htu hta hts
        h.2 ha, completedSum_append_paise _ _ tx u _ hta h.2⟩

theorem LedgerOK_run (calls : List Call) (db : Db) (u : String)
    (h : LedgerOK db u ∧ pgRound 2 (completedSum db u) = completedSum db u)
    (ha : ∀ c ∈ calls, c.userId = u → pgRound 2 c.amount = c.amount) :
    LedgerOK (run db calls) u
      ∧ pgRound 2 (completedSum (run db calls) u) = completedSum (run db calls) u := by
  induction calls generalizing db with
  | nil => exact h
  | cons c cs ih =>
    exact ih (step db c) (LedgerOK_step db u c h (ha c (List.mem_cons_self _ _)))
      (fun c1 hc1 => ha c1 (List.mem_cons_of_mem _ hc1))

theorem LedgerOK_fresh (db : Db) (u : String) (hw : walletRows db u = [])
    (ht : ∀ t ∈ db.wallet_transactions, t.user_id ≠ u) : LedgerOK db u := by
  have hsum : completedSum db u = 0 := by
    unfold completedSum
    have : db.wallet_transactions.filter
        (fun t => t.user_id = u ∧ t.status = .completed) = [] := by
      rw [List.filter_eq_nil_iff]
      intro t hmem
      simp [ht t hmem]
    rw [this]; rfl
  refine ⟨fun w hmem hu => ?_, fun _ => hsum⟩
  have : w ∈ walletRows db u := by
    unfold walletRows
    simp [List.mem_filter, hmem, hu]
  rw [hw] at this
  exact absurd this (List.not_mem_nil w)

theorem balanceOf_eq_of_LedgerOK (db : Db) (u : String) (h : LedgerOK db u) :
    balanceOf db u = completedSum db u := by
  unfold balanceOf
  rcases hr : walletRows db u with _ | ⟨row, rest⟩
  · exact (h.2 hr).symm
  · have hmem : row ∈ walletRows db u := by rw [hr]; exact List.mem_cons_self _ _
    unfold walletRows at hmem
    rw [List.mem_filter] at hmem
    exact h.1 row hmem.1 (by simpa using hmem.2)

theorem pgRound_2001_200 : pgRound 2 (2001 / 200 : ℚ) = 1001 / 100 := by
  rw [pgRound_eq_of 2 1001 (by norm_num) (by norm_num) (by norm_num)]; norm_num

theorem pgRound_7999_200 : pgRound 2 (7999 / 200 : ℚ) = 40 := by
  rw [pgRound_eq_of 2 4000 (by norm_num) (by norm_num) (by norm_num)]; norm_num

theorem pgFits_2001_200 : pgFits 10 2 (2001 / 200 : ℚ) = true :=
  pgFits_of_eq 10 2 _ pgRound_2001_200 (by norm_num [abs_lt])

theorem pgFits_7999_200 : pgFits 10 2 (7999 / 200 : ℚ) = true :=
  pgFits_of_eq 10 2 _ pgRound_7999_200 (by norm_num [abs_lt])

/-- C6 (as stated, refuted): for a user without wallet and transactions, a credit
of 50 followed by a payment of 10.005 succeeds; the payment is logged as -10.01
while the balance goes from 50.00 to 40.00 (39.995 rounded to two decimals), so
the balance is 40.00 and the completed transactions sum to 39.99. -/
theorem ledger_balance_differs_from_completed_sum :
    walletRows Db.empty "u1" = [] ∧
      (run Db.empty
          [.issue (okEnv 1 "AAAAAA") Samples.sampleCredit,
           .pay (okEnv 2 "BBBBBB") (Samples.samplePayment 10.005)]).wallet_transactions.map
          (fun t => (t.user_id, t.amount, t.status))
        = [("u1", 50, .completed), ("u1", -10.01, .completed)] ∧
      balanceOf
          (run Db.empty
            [.issue (okEnv 1 "AAAAAA") Samples.sampleCredit,
             .pay (okEnv 2 "BBBBBB") (Samples.samplePayment 10.005)]) "u1" = 40 ∧
      completedSum
          (run Db.empty
            [.issue (okEnv 1 "AAAAAA") Samples.sampleCredit,
             .pay (okEnv 2 "BBBBBB") (Samples.samplePayment 10.005)]) "u1" = 39.99 ∧
      balanceOf
          (run Db.empty
            [.issue (okEnv 1 "AAAAAA") Samples.sampleCredit,
             .pay (okEnv 2 "BBBBBB") (Samples.samplePayment 10.005)]) "u1"
        ≠ completedSum
          (run Db.empty
            [.issue (okEnv 1 "AAAAAA") Samples.sampleCredit,
             .pay (okEnv 2 "BBBBBB") (Samples.samplePayment 10.005)]) "u1" := by
  have hb : balanceOf
          (run Db.empty
            [.issue (okEnv 1 "AAAAAA") Samples.sampleCredit,
             .pay (okEnv 2 "BBBBBB") (Samples.samplePayment 10.005)]) "u1" = 40 := by
    norm_num +decide [run, step, issueNGODonationCredit, getOrCreateWallet, processWalletPayment,
      okEnv, Samples.sampleCredit, Samples.samplePayment, Db.empty, balanceOf,
      walletRows, pgRound_ofNat,
      creditOverflows, debitOverflows, pgFits_ofNat, pgRound_neg, pgFits_neg, pgRound_2001_200,
      pgRound_7999_200, pgFits_2001_200, pgFits_7999_200]
  have hs : completedSum
          (run Db.empty
            [.issue (okEnv 1 "AAAAAA") Samples.sampleCredit,
             .pay (okEnv 2 "BBBBBB") (Samples.samplePayment 10.005)]) "u1" = 39.99 := by
    norm_num +decide [run, step, issueNGODonationCredit, getOrCreateWallet, processWalletPayment,
      okEnv, Samples.sampleCredit, Samples.samplePayment, Db.empty, completedSum,
      walletRows, pgRound_ofNat,
      creditOverflows, debitOverflows, pgFits_ofNat, pgRound_neg, pgFits_neg, pgRound_2001_200,
      pgRound_7999_200, pgFits_2001_200, pgFits_7999_200]
  refine ⟨rfl, ?_, hb, hs, ?_⟩
  · norm_num +decide [run, step, issueNGODonationCredit, getOrCreateWallet, processWalletPayment,
      okEnv, Samples.sampleCredit, Samples.samplePayment, Db.empty,
      walletRows, pgRound_ofNat,
      creditOverflows, debitOverflows, pgFits_ofNat, pgRound_neg, pgFits_neg, pgRound_2001_200,
      pgRound_7999_200, pgFits_2001_200, pgFits_7999_200]
  · rw [hb, hs]
    norm_num

/-- C6 (amended): for a user who starts without wallet and transactions, after
any sequence of credit and payment calls, successful or failed, in which every
amount passed for this user has at most two decimals, the balance is the sum of
the user's completed transactions -/
theorem ledger_balance_eq_completed_sum (db : Db) (userId : String) (calls : List Call)
    (hwallet : walletRows db userId = [])
    (htx : ∀ t ∈ db.wallet_transactions, t.user_id ≠ userId)
    (hdecimals : ∀ c ∈ calls, c.userId = userId → pgRound 2 c.amount = c.amount) :
    balanceOf (run db calls) userId = completedSum (run db calls) userId ∧
      ∀ w ∈ (run db calls).wallets, w.user_id = userId →
        w.balance = completedSum (run db calls) userId := by
  have h0 := LedgerOK_fresh db userId hwallet htx
  have hz : pgRound 2 (completedSum db userId) = completedSum db userId := by
    rw [h0.2 hwallet]
    exact pgRound_zero 2
  have h := (LedgerOK_run calls db userId ⟨h0, hz⟩ hdecimals).1
  exact ⟨balanceOf_eq_of_LedgerOK _ _ h, h.1⟩

theorem filter_map_user {f : Wallet → Wallet} (hf : ∀ w, (f w).user_id = w.user_id)
    (l : List Wallet) (u : String) :
    (l.map f).filter (fun w => w.user_id = u) = (l.filter (fun w => w.user_id = u)).map f := by
  induction l with
  | nil => rfl
  | cons w ws ih =>
    by_cases h : w.user_id = u
    · simp [List.filter, hf, h, ih]
    · simp [List.filter, hf, h, ih]

theorem walletRows_withWallet_self (db : Db) (v : String) :
    walletRows (withWallet db v) v
      = match walletRows db v with
        | [] => [⟨v, 0, 0, 0⟩]
        | row :: rest => row :: rest := by
  unfold withWallet
  rcases h : walletRows db v with _ | ⟨row, rest⟩
  · simp only [walletRows] at h ⊢
    simp [List.filter_append, h]
  · simp [h]

/-- The effect of a successful `issueNGODonationCredit` on the user's wallet row
and on the transaction log. -/
theorem issue_success_spec (env : Env) (db db' : Db) (creditData : CreditData)
    (result : CreditResult)
    (h : issueNGODonationCredit env db creditData = (db', some result)) :
    balanceOf db' creditData.userId
        = pgRound 2 (balanceOf db creditData.userId + creditData.creditAmount) ∧
      creditsEarnedOf db' creditData.userId
        = pgRound 2 (creditsEarnedOf db creditData.userId + creditData.creditAmount) ∧
      totalSpentOf db' creditData.userId = totalSpentOf db creditData.userId ∧
      db'.wallet_transactions = db.wallet_transactions ++ [result.transaction] ∧
      result.transaction.amount = pgRound 2 creditData.creditAmount ∧
      result.transaction.user_id = creditData.userId ∧
      result.transaction.status = .completed ∧
      result.wallet = (walletRows db' creditData.userId).head? ∧
      result.wallet.isSome = true := by
  rcases issue_cases env db creditData with hc | hc | ⟨tx, htu, hta, hts, -, -, hc⟩
  · rw [hc] at h; simp at h
  · rw [hc] at h; simp at h
  rw [hc] at h
  simp only [Prod.mk.injEq, Option.some.injEq] at h
  obtain ⟨hdb, hres⟩ := h
  subst hdb
  subst hres
  have hrows : walletRows
      { withWallet db creditData.userId with
        wallets := (withWallet db creditData.userId).wallets.map
          (creditRow creditData.userId creditData.creditAmount)
        wallet_transactions := (withWallet db creditData.userId).wallet_transactions ++ [tx] }
      creditData.userId
      = (walletRows (withWallet db creditData.userId) creditData.userId).map
          (creditRow creditData.userId creditData.creditAmount) := by
    unfold walletRows
    exact filter_map_user (creditRow_user_id _ _) _ _
  have htxs : (withWallet db creditData.userId).wallet_transactions = db.wallet_transactions := by
    unfold withWallet; split <;> rfl
  refine ⟨?_, ?_, ?_, ?_, hta, htu, hts, ?_, ?_⟩
  · unfold balanceOf
    rw [hrows, walletRows_withWallet_self]
    rcases hr : walletRows db creditData.userId with _ | ⟨row, rest⟩
    · simp [creditRow]
    · have hmem : row ∈ walletRows db creditData.userId := by rw [hr]; exact List.mem_cons_self _ _
      unfold walletRows at hmem
      rw [List.mem_filter] at hmem
      have hu : row.user_id = creditData.userId := by simpa using hmem.2
      simp [creditRow, hu]
  · unfold creditsEarnedOf
    rw [hrows, walletRows_withWallet_self]
    rcases hr : walletRows db creditData.userId with _ | ⟨row, rest⟩
    · simp [creditRow]
    · have hmem : row ∈ walletRows db creditData.userId := by rw [hr]; exact List.mem_cons_self _ _
      unfold walletRows at hmem
      rw [List.mem_filter] at hmem
      have hu : row.user_id = creditData.userId := by simpa using hmem.2
      simp [creditRow, hu]
  · unfold totalSpentOf
    rw [hrows, walletRows_withWallet_self]
    rcases hr : walletRows db creditData.userId with _ | ⟨row, rest⟩
    · simp [creditRow]
    · have hmem : row ∈ walletRows db creditData.userId := by rw [hr]; exact List.mem_cons_self _ _
      unfold walletRows at hmem
      rw [List.mem_filter] at hmem
      have hu : row.user_id = creditData.userId := by simpa using hmem.2
      simp [creditRow, hu]
  · simp only [htxs]
  · rfl
  · have hrows' := hrows
    unfold walletRows at hrows'
    simp only at hrows'
    simp only [hrows']
    have hself := walletRows_withWallet_self db creditData.userId
    unfold walletRows at hself
    rw [hself]
    rcases hr : db.wallets.filter (fun w => w.user_id = creditData.userId) with _ | ⟨row, rest⟩
      <;> simp [hr]

/-- C7 (as stated, refuted): a first credit of 10.005 for a user without wallet
succeeds, and the balance, the credits earned and the amount of the logged and
returned transaction are 10.01, not 10.005. -/
theorem issueNGODonationCredit_rounds_amount :
    (issueNGODonationCredit (okEnv 1 "AAAAAA") Db.empty
        { Samples.sampleCredit with creditAmount := 10.005 }).1.wallets
      = [⟨"u1", 10.01, 10.01, 0⟩] ∧
    (issueNGODonationCredit (okEnv 1 "AAAAAA") Db.empty
        { Samples.sampleCredit with creditAmount := 10.005 }).1.wallet_transactions.map
        (fun t => (t.user_id, t.amount, t.status))
      = [("u1", 10.01, .completed)] ∧
    (issueNGODonationCredit (okEnv 1 "AAAAAA") Db.empty
        { Samples.sampleCredit with creditAmount := 10.005 }).2.map
        (fun r => (r.transaction.amount, r.wallet))
      = some (10.01, some ⟨"u1", 10.01, 10.01, 0⟩) ∧
    balanceOf (issueNGODonationCredit (okEnv 1 "AAAAAA") Db.empty
        { Samples.sampleCredit with creditAmount := 10.005 }).1 "u1"
      ≠ balanceOf Db.empty "u1" + 10.005 := by
  have hrun : issueNGODonationCredit (okEnv 1 "AAAAAA") Db.empty
        { Samples.sampleCredit with creditAmount := 10.005 }
      = ({ Db.empty with
            wallets := [⟨"u1", 10.01, 10.01, 0⟩]
            wallet_transactions :=
              [{ transaction_id := "NGO_U1_1_AAAAAA", user_id := "u1",
                 type := .ngo_donation_credit, amount := 10.01, status := .completed,
                 description := "Credit for donating return to NGO",
                 order_id := some "ORD001", return_id := none, ngo_id := some "NGO001" }] },
          some
            { transaction :=
                { transaction_id := "NGO_U1_1_AAAAAA", user_id := "u1",
                  type := .ngo_donation_credit, amount := 10.01, status := .completed,
                  description := "Credit for donating return to NGO",
                  order_id := some "ORD001", return_id := none, ngo_id := some "NGO001" }
              wallet := some ⟨"u1", 10.01, 10.01, 0⟩ }) := by
    norm_num +decide [issueNGODonationCredit, getOrCreateWallet, okEnv, Samples.sampleCredit,
      Db.empty, creditOverflows, pgRound_2001_200, pgFits_2001_200]
  rw [hrun]
  refine ⟨rfl, rfl, rfl, ?_⟩
  norm_num [balanceOf, walletRows, Db.empty]

/-- C7 (amended): a successful credit sets the balance and the credits earned to
the old value plus the amount, rounded to two decimals (ties away from zero),
leaves the amount spent, appends one completed transaction whose amount is the
amount rounded to two decimals and returns it with the updated wallet row; when
the amount and the old values have at most two decimals the balance and the
credits earned grow by exactly the amount -/
theorem issueNGODonationCredit_success (env : Env) (db db' : Db) (creditData : CreditData)
    (result : CreditResult)
    (h : issueNGODonationCredit env db creditData = (db', some result)) :
    (balanceOf db' creditData.userId
        = pgRound 2 (balanceOf db creditData.userId + creditData.creditAmount) ∧
      creditsEarnedOf db' creditData.userId
        = pgRound 2 (creditsEarnedOf db creditData.userId + creditData.creditAmount) ∧
      totalSpentOf db' creditData.userId = totalSpentOf db creditData.userId ∧
      db'.wallet_transactions = db.wallet_transactions ++ [result.transaction] ∧
      result.transaction.amount = pgRound 2 creditData.creditAmount ∧
      result.transaction.user_id = creditData.userId ∧
      result.transaction.status = .completed ∧
      result.wallet = (walletRows db' creditData.userId).head? ∧
      result.wallet.isSome = true) ∧
    (pgRound 2 creditData.creditAmount = creditData.creditAmount →
      pgRound 2 (balanceOf db creditData.userId) = balanceOf db creditData.userId →
      pgRound 2 (creditsEarnedOf db creditData.userId) = creditsEarnedOf db creditData.userId →
      balanceOf db' creditData.userId = balanceOf db creditData.userId + creditData.creditAmount ∧
        creditsEarnedOf db' creditData.userId
          = creditsEarnedOf db creditData.userId + creditData.creditAmount ∧
        result.transaction.amount = creditData.creditAmount) := by
  have hs := issue_success_spec env db db' creditData result h
  refine ⟨hs, fun ha hb he => ⟨?_, ?_, ?_⟩⟩
  · rw [hs.1, pgRound_add_self 2 hb ha]
  · rw [hs.2.1, pgRound_add_self 2 he ha]
  · rw [hs.2.2.2.2.1, ha]

/-- C7 (amended) at a first credit of 50 for a user without wallet -/
theorem issueNGODonationCredit_success_witness :
    issueNGODonationCredit (okEnv 1 "AAAAAA") Db.empty Samples.sampleCredit
        = ({ Db.empty with
              wallets := [⟨"u1", 50, 50, 0⟩]
              wallet_transactions :=
                [{ transaction_id := "NGO_U1_1_AAAAAA", user_id := "u1",
                   type := .ngo_donation_credit, amount := 50, status := .completed,
                   description := "Credit for donating return to NGO",
                   order_id := some "ORD001", return_id := none, ngo_id := some "NGO001" }] },
            some
              { transaction :=
                  { transaction_id := "NGO_U1_1_AAAAAA", user_id := "u1",
                    type := .ngo_donation_credit, amount := 50, status := .completed,
                    description := "Credit for donating return to NGO",
                    order_id := some "ORD001", return_id := none, ngo_id := some "NGO001" }
                wallet := some ⟨"u1", 50, 50, 0⟩ }) ∧
      balanceOf
          { Db.empty with
              wallets := [⟨"u1", 50, 50, 0⟩]
              wallet_transactions :=
                [{ transaction_id := "NGO_U1_1_AAAAAA", user_id := "u1",
                   type := .ngo_donation_credit, amount := 50, status := .completed,
                   description := "Credit for donating return to NGO",
                   order_id := some "ORD001", return_id := none, ngo_id := some "NGO001" }] }
          Samples.sampleCredit.userId
        = pgRound 2
            (balanceOf Db.empty Samples.sampleCredit.userId + Samples.sampleCredit.creditAmount) ∧
      balanceOf
          { Db.empty with
              wallets := [⟨"u1", 50, 50, 0⟩]
              wallet_transactions :=
                [{ transaction_id := "NGO_U1_1_AAAAAA", user_id := "u1",
                   type := .ngo_donation_credit, amount := 50, status := .completed,
                   description := "Credit for donating return to NGO",
                   order_id := some "ORD001", return_id := none, ngo_id := some "NGO001" }] }
          Samples.sampleCredit.userId
        = balanceOf Db.empty Samples.sampleCredit.userId + Samples.sampleCredit.creditAmount := by
  have hrun : issueNGODonationCredit (okEnv 1 "AAAAAA") Db.empty Samples.sampleCredit
        = ({ Db.empty with
              wallets := [⟨"u1", 50, 50, 0⟩]
              wallet_transactions :=
                [{ transaction_id := "NGO_U1_1_AAAAAA", user_id := "u1",
                   type := .ngo_donation_credit, amount := 50, status := .completed,
                   description := "Credit for donating return to NGO",
                   order_id := some "ORD001", return_id := none, ngo_id := some "NGO001" }] },
            some
              { transaction :=
                  { transaction_id := "NGO_U1_1_AAAAAA", user_id := "u1",
                    type := .ngo_donation_credit, amount := 50, status := .completed,
                    description := "Credit for donating return to NGO",
                    order_id := some "ORD001", return_id := none, ngo_id := some "NGO001" }
                wallet := some ⟨"u1", 50, 50, 0⟩ }) := by
    simp +decide [issueNGODonationCredit, getOrCreateWallet, okEnv, Samples.sampleCredit, Db.empty,
      pgRound_ofNat, pgFits_ofNat, creditOverflows, debitOverflows]
  exact ⟨hrun, (issueNGODonationCredit_success _ _ _ _ _ hrun).1.1,
    ((issueNGODonationCredit_success _ _ _ _ _ hrun).2 (pgRound_ofNat 2 50) (pgRound_zero 2)
      (pgRound_zero 2)).1⟩

/-- C8: a payment succeeds only when the wallet row exists and holds at least the
amount; without a wallet row or with a lower balance it fails and the committed
database is the one before the call -/
theorem processWalletPayment_guard (env : Env) (db : Db) (paymentData : PaymentData) :
    (∀ (db' : Db) (result : PaymentResult),
        processWalletPayment env db paymentData = (db', some result) →
        ∃ row rest, walletRows db paymentData.userId = row :: rest ∧
          paymentData.amount ≤ row.balance) ∧
      (walletRows db paymentData.userId = [] ∨
          balanceOf db paymentData.userId < paymentData.amount →
        processWalletPayment env db paymentData = (db, none)) := by
  constructor
  · intro db' result h
    rcases pay_cases env db paymentData with hc | ⟨row, rest, tx, hrows, hle, -, -, -, -, -, -⟩
    · rw [hc] at h; simp at h
    · exact ⟨row, rest, hrows, hle⟩
  · intro h
    rcases pay_cases env db paymentData with hc | ⟨row, rest, tx, hrows, hle, -, -, -, -, -, -⟩
    · exact hc
    · rcases h with h | h
      · rw [hrows] at h; simp at h
      · unfold balanceOf at h
        rw [hrows] at h
        simp only at h
        exact absurd hle (not_le.mpr h)

/-- C8 at a payment of 75 from a balance of 50 -/
theorem processWalletPayment_guard_witness :
    balanceOf { Db.empty with wallets := [⟨"u1", 50, 50, 0⟩] } (Samples.samplePayment 75).userId
        < (Samples.samplePayment 75).amount ∧
      processWalletPayment (okEnv 2 "BBBBBB") { Db.empty with wallets := [⟨"u1", 50, 50, 0⟩] }
          (Samples.samplePayment 75)
        = ({ Db.empty with wallets := [⟨"u1", 50, 50, 0⟩] }, none) :=
  ⟨by norm_num [balanceOf, walletRows, Db.empty, Samples.samplePayment],
    (processWalletPayment_guard (okEnv 2 "BBBBBB") { Db.empty with wallets := [⟨"u1", 50, 50, 0⟩] }
      (Samples.samplePayment 75)).2
      (Or.inr (by norm_num [balanceOf, walletRows, Db.empty, Samples.samplePayment]))⟩

/-- C6 (amended) at a credit of 50, a payment of 20, a rejected credit and a
rejected payment -/
theorem ledger_balance_eq_completed_sum_witness :
    walletRows Db.empty "u1" = [] ∧
      balanceOf
          (run Db.empty
            [.issue (okEnv 1 "AAAAAA") Samples.sampleCredit,
             .pay (okEnv 2 "BBBBBB") (Samples.samplePayment 20),
             .issue (failingEnv .walletCreditUpdate 3 "CCCCCC") Samples.sampleCredit,
             .pay (okEnv 4 "DDDDDD") (Samples.samplePayment 75)]) "u1"
        = completedSum
          (run Db.empty
            [.issue (okEnv 1 "AAAAAA") Samples.sampleCredit,
             .pay (okEnv 2 "BBBBBB") (Samples.samplePayment 20),
             .issue (failingEnv .walletCreditUpdate 3 "CCCCCC") Samples.sampleCredit,
             .pay (okEnv 4 "DDDDDD") (Samples.samplePayment 75)]) "u1" :=
  ⟨rfl,
    (ledger_balance_eq_completed_sum Db.empty "u1" _ rfl
      (fun t ht => absurd ht (List.not_mem_nil t))
      (by
        intro c hc _
        simp only [List.mem_cons, List.mem_singleton, List.not_mem_nil, or_false] at hc
        rcases hc with rfl | rfl | rfl | rfl <;>
          norm_num [Call.amount, Samples.sampleCredit, Samples.samplePayment, pgRound_ofNat])).1⟩

/-- The ledger after a credit of 50, a payment of 20, a rejected credit and a
rejected payment holds 30. -/
theorem run_sample_balance :
    balanceOf
        (run Db.empty
          [.issue (okEnv 1 "AAAAAA") Samples.sampleCredit,
           .pay (okEnv 2 "BBBBBB") (Samples.samplePayment 20),
           .issue (failingEnv .walletCreditUpdate 3 "CCCCCC") Samples.sampleCredit,
           .pay (okEnv 4 "DDDDDD") (Samples.samplePayment 75)]) "u1" = 30 := by
  norm_num +decide [run, step, issueNGODonationCredit, getOrCreateWallet, processWalletPayment,
    okEnv, failingEnv, Samples.sampleCredit, Samples.samplePayment, Db.empty, balanceOf,
    walletRows, pgRound_ofNat,
    creditOverflows, debitOverflows, pgFits_ofNat, pgRound_neg, pgFits_neg]

theorem processWalletPayment_failure (env : Env) (db db' : Db) (paymentData : PaymentData)
    (h : processWalletPayment env db paymentData = (db', none)) : db' = db := by
  rcases pay_cases env db paymentData with hc | ⟨row, rest, tx, -, -, -, -, -, -, -, hc⟩
  · rw [hc] at h; exact (Prod.mk.inj h).1.symm
  · rw [hc] at h; simp at h

theorem issueNGODonationCredit_failure (env : Env) (db db' : Db) (creditData : CreditData)
    (h : issueNGODonationCredit env db creditData = (db', none)) :
    (db' = db ∨ db' = withWallet db creditData.userId) ∧
      db'.wallet_transactions = db.wallet_transactions ∧
      db'.credit_cost_sharing = db.credit_cost_sharing ∧
      balanceOf db' creditData.userId = balanceOf db creditData.userId := by
  have hww : (withWallet db creditData.userId).wallet_transactions = db.wallet_transactions ∧
      (withWallet db creditData.userId).credit_cost_sharing = db.credit_cost_sharing ∧
      balanceOf (withWallet db creditData.userId) creditData.userId
        = balanceOf db creditData.userId := by
    refine ⟨by unfold withWallet; split <;> rfl, by unfold withWallet; split <;> rfl, ?_⟩
    unfold balanceOf
    rw [walletRows_withWallet_self]
    rcases walletRows db creditData.userId with _ | ⟨row, rest⟩ <;> rfl
  rcases issue_cases env db creditData with hc | hc | ⟨tx, -, -, -, -, -, hc⟩
  · rw [hc] at h
    obtain rfl := (Prod.mk.inj h).1
    exact ⟨Or.inl rfl, rfl, rfl, rfl⟩
  · rw [hc] at h
    obtain rfl := (Prod.mk.inj h).1
    exact ⟨Or.inr rfl, hww.1, hww.2.1, hww.2.2⟩
  · rw [hc] at h; simp at h

/-- C9 (the code at the failing input): a credit for a user without wallet whose
transaction insert is rejected returns a failure and leaves a new wallet row;
the same happens without any fault of the database when the generated
transaction id is already taken -/
theorem issueNGODonationCredit_failure_keeps_wallet_row :
    (walletRows Db.empty "u1" = [] ∧
      issueNGODonationCredit (failingEnv .transactionInsert 1 "AAAAAA") Db.empty
          Samples.sampleCredit
        = ({ Db.empty with wallets := [⟨"u1", 0, 0, 0⟩] }, none) ∧
      ({ Db.empty with wallets := [⟨"u1", 0, 0, 0⟩] } : Db).wallets ≠ Db.empty.wallets) ∧
    issueNGODonationCredit (okEnv 1 "AAAAAA")
        { Db.empty with
            wallets := [⟨"user123", 50, 50, 0⟩]
            wallet_transactions :=
              [{ transaction_id := "NGO_USER_1_AAAAAA", user_id := "user123",
                 type := .ngo_donation_credit, amount := 50, status := .completed,
                 description := "Credit for donating return to NGO",
                 order_id := some "ORD001", return_id := none, ngo_id := some "NGO001" }] }
        { Samples.sampleCredit with userId := "user456" }
      = ({ Db.empty with
            wallets := [⟨"user123", 50, 50, 0⟩, ⟨"user456", 0, 0, 0⟩]
            wallet_transactions :=
              [{ transaction_id := "NGO_USER_1_AAAAAA", user_id := "user123",
                 type := .ngo_donation_credit, amount := 50, status := .completed,
                 description := "Credit for donating return to NGO",
                 order_id := some "ORD001", return_id := none, ngo_id := some "NGO001" }] },
          none) := by
  refine ⟨⟨rfl, ?_, by simp [Db.empty]⟩, ?_⟩
  · simp +decide [issueNGODonationCredit, getOrCreateWallet, failingEnv, okEnv,
      Samples.sampleCredit, Db.empty]
  · simp +decide [issueNGODonationCredit, getOrCreateWallet, okEnv, Samples.sampleCredit,
      Db.empty]

theorem updateMonthlySummary_frame (env : Env) (db : Db) (d : CreditDetails)
    (c : Option String) :
    (updateMonthlySummary env db d c).wallets = db.wallets ∧
      (updateMonthlySummary env db d c).wallet_transactions = db.wallet_transactions ∧
      (updateMonthlySummary env db d c).credit_cost_sharing = db.credit_cost_sharing := by
  unfold updateMonthlySummary
  by_cases h1 : env.fails .summarySelect = true
  · simp [h1]
  by_cases h2 : env.fails .summaryUpsert = true
  · simp [h1, h2]
  simp only [h1, h2]
  rcases hf : db.ngo_credit_financial_summary.filter (fun r => r.month_year = env.monthYear)
    with _ | ⟨old, rest⟩
  · simp [hf]
  · simp only [hf, Bool.false_eq_true, if_false]
    split <;> simp

theorem recordCostSharing_cases (env : Env) (db : Db) (data : CostSharingData) :
    recordCostSharing env db data = (db, none) ∨
      ∃ row : CostSharingRecord, row.transaction_id = data.transactionId ∧
        recordCostSharing env db data
          = ({ db with credit_cost_sharing := db.credit_cost_sharing ++ [row] }, some row) := by
  unfold recordCostSharing
  by_cases h : (env.fails .costSharingInsert
      || db.credit_cost_sharing.any (fun r => r.transaction_id = data.transactionId)) = true
  · left; simp only [h, if_true]
  · right
    rw [if_neg h]
    refine ⟨_, ?_, rfl⟩
    rfl

/-- A successful donation credit leaves the credit in the wallet, as a completed
transaction, and a cost-sharing row with the same transaction id; the wallet
columns hold the amounts rounded to two decimals. -/
theorem processNGODonationCredit_success (cfg : Config) (env : Env) (db db' : Db)
    (donationData : DonationData) (result : DonationResult)
    (h : processNGODonationCredit cfg env db donationData = (db', some result)) :
    balanceOf db' donationData.userId
        = pgRound 2 (balanceOf db donationData.userId + result.creditIssued.amount) ∧
      (∃ tx ∈ db'.wallet_transactions,
        tx.transaction_id = result.creditIssued.transactionId ∧
        tx.user_id = donationData.userId ∧
        tx.amount = pgRound 2 result.creditIssued.amount ∧ tx.status = .completed) ∧
      ∃ row ∈ db'.credit_cost_sharing,
        row.transaction_id = result.creditIssued.transactionId := by
  unfold processNGODonationCredit at h
  by_cases h0 : env.fails .donationBegin = true
  · simp [h0] at h
  simp only [h0] at h
  rcases hp : donationData.product with _ | product
  · simp [hp] at h
  rcases hcalc : calculateInstantCredit cfg (some product) donationData.orderDetails
      (donationData.returnReason.getD "ngo_donation") env.calculatedAt with _ | details
  · simp [hp, hcalc] at h
  simp only [hp, hcalc] at h
  by_cases hv : validateCreditAmount details.buyerCredit = true
  swap
  · simp [hv] at h
  simp only [hv] at h
  generalize hcd : ({ userId := donationData.userId
                      creditAmount := details.buyerCredit
                      orderId := some donationData.orderId
                      returnId := donationData.returnId
                      ngoId := donationData.ngoId
                      description := some "credit for donating return to NGO" } : CreditData)
    = cd at h
  have hcdu : cd.userId = donationData.userId := by rw [← hcd]
  have hcda : cd.creditAmount = details.buyerCredit := by rw [← hcd]
  rcases hissue : issueNGODonationCredit env db cd with ⟨db1, _ | creditResult⟩
  · simp [hissue] at h
  simp only [hissue] at h
  have hsucc := issue_success_spec env db db1 cd creditResult hissue
  obtain ⟨hbal, -, -, htxs, hamt, huser, hstatus, -, -⟩ := hsucc
  generalize hdata : ({ transactionId := creditResult.transaction.transaction_id
                        userId := donationData.userId
                        orderId := donationData.orderId
                        returnId := donationData.returnId
                        ngoId := donationData.ngoId
                        sellerId := donationData.sellerId
                        creditDetails := details
                        product := product } : CostSharingData) = data at h
  have hid : data.transactionId = creditResult.transaction.transaction_id := by rw [← hdata]
  rcases recordCostSharing_cases env db1 data with hr | ⟨row, hrow, hr⟩
  · simp [hr] at h
  simp only [hr] at h
  by_cases hcommit : env.fails .donationCommit = true
  · simp [hcommit] at h
  rcases hw : creditResult.wallet with _ | wallet
  · simp [hcommit, hw] at h
  simp only [hcommit, hw, Bool.false_eq_true, if_false, Bool.not_true, Prod.mk.injEq,
    Option.some.injEq] at h
  obtain ⟨hdb, hres⟩ := h
  have hframe := updateMonthlySummary_frame env
    { db1 with credit_cost_sharing := db1.credit_cost_sharing ++ [row] } details product.category
  subst hdb
  subst hres
  refine ⟨?_, ⟨creditResult.transaction, ?_, rfl, ?_, ?_, hstatus⟩, ⟨row, ?_, ?_⟩⟩
  · have : balanceOf (updateMonthlySummary env
        { db1 with credit_cost_sharing := db1.credit_cost_sharing ++ [row] } details
        product.category) donationData.userId = balanceOf db1 donationData.userId := by
      unfold balanceOf walletRows
      rw [hframe.1]
    rw [this, ← hcdu, hbal, hcda]
  · rw [hframe.2.1]
    simp only [htxs]
    simp
  · rw [huser, hcdu]
  · rw [hamt, hcda]
  · rw [hframe.2.2]; simp
  · rw [hrow, hid]

theorem total_100_electronics :
    (calculateAvoidedCosts defaultConfig 100 .electronics 50).total = 7580 / 100 := by
  simp only [calculateAvoidedCosts, defaultConfig, jsOr, jsCeil_half]
  rw [round2_eq_of 7580 (by norm_num) (by norm_num)]
  norm_num

theorem final_100_electronics : finalBuyerCredit defaultConfig 100 .electronics 50 = 35 := by
  simp only [finalBuyerCredit, cappedCredit, rawBuyerCredit, total_100_electronics]
  norm_num [defaultConfig]

theorem buyerCredit_100_electronics (r t : String) :
    (creditDetailsFor defaultConfig 100 .electronics 50 r t).buyerCredit = 35 := by
  rw [creditDetailsFor_buyerCredit, final_100_electronics,
    round2_eq_of 3500 (by norm_num) (by norm_num)]
  norm_num

theorem sampleDonation_calculation (t : String) :
    calculateInstantCredit defaultConfig Samples.sampleDonation.product
        Samples.sampleDonation.orderDetails "ngo_donation" t
      = some (creditDetailsFor defaultConfig 100 .electronics 50 "ngo_donation" t) := by
  have hcat : getCategoryKey (some "Electronics") = .electronics := by decide
  have hdist : calculateDistance (some "Bangalore, Karnataka") (some "Bangalore, Karnataka")
      = 50 := by decide
  simp only [calculateInstantCredit, Samples.sampleDonation, hcat, hdist]

/-- C10 (the code at the failing input): when the cost-sharing insert is rejected
the call returns a failure and the credit of 35 stays in the wallet with its
completed transaction and without a cost-sharing row; when the final `COMMIT`
is rejected the call returns a failure and both the credit and the cost-sharing
row stay -/
theorem processNGODonationCredit_failure_keeps_credit :
    processNGODonationCredit defaultConfig (failingEnv .costSharingInsert 1 "AAAAAA") Db.empty
        Samples.sampleDonation
      = ({ Db.empty with
            wallets := [⟨"u1", 35, 35, 0⟩]
            wallet_transactions :=
              [{ transaction_id := "NGO_U1_1_AAAAAA", user_id := "u1",
                 type := .ngo_donation_credit, amount := 35, status := .completed,
                 description := "credit for donating return to NGO",
                 order_id := some "ORD001", return_id := none, ngo_id := some "NGO001" }] },
          none) ∧
    (processNGODonationCredit defaultConfig (failingEnv .donationCommit 1 "AAAAAA") Db.empty
        Samples.sampleDonation).2 = none ∧
    (processNGODonationCredit defaultConfig (failingEnv .donationCommit 1 "AAAAAA") Db.empty
        Samples.sampleDonation).1.wallets = [⟨"u1", 35, 35, 0⟩] ∧
    ((processNGODonationCredit defaultConfig (failingEnv .donationCommit 1 "AAAAAA") Db.empty
        Samples.sampleDonation).1.credit_cost_sharing.map (fun r => r.transaction_id))
      = ["NGO_U1_1_AAAAAA"] := by
  have hret : Samples.sampleDonation.returnReason.getD "ngo_donation" = "ngo_donation" := rfl
  refine ⟨?_, ?_⟩
  · have hcalc :=
      sampleDonation_calculation (failingEnv .costSharingInsert 1 "AAAAAA").calculatedAt
    unfold processNGODonationCredit
    simp only [hret, hcalc]
    norm_num +decide [buyerCredit_100_electronics, Samples.sampleDonation, failingEnv, okEnv,
      validateCreditAmount, issueNGODonationCredit, getOrCreateWallet, recordCostSharing,
      Db.empty, pgRound_ofNat, pgFits_ofNat, creditOverflows, debitOverflows]
  · have hcalc := sampleDonation_calculation (failingEnv .donationCommit 1 "AAAAAA").calculatedAt
    unfold processNGODonationCredit
    simp only [hret, hcalc]
    norm_num +decide [buyerCredit_100_electronics, Samples.sampleDonation, failingEnv, okEnv,
      validateCreditAmount, issueNGODonationCredit, getOrCreateWallet, recordCostSharing,
      Db.empty, updateMonthlySummary_frame, pgRound_ofNat,
      creditOverflows, debitOverflows, pgFits_ofNat]

open CreditRoute

/-! ## The scenario of price 299 -/

theorem calculateAvoidedCosts_total (cfg : Config) (p : ℚ) (c : CategoryKey) (d : ℚ) :
    (calculateAvoidedCosts cfg p c d).total = round2 (totalAvoidedCosts cfg p c d) := rfl

theorem sameCity_distance :
    calculateDistance Samples.sameCity.deliveryAddress Samples.sameCity.sellerLocation = 50 := by
  decide

theorem kurti_category : getCategoryKey Samples.kurti.category = .fashion := by decide

theorem avoidedCosts_299_fashion :
    (calculateAvoidedCosts defaultConfig 299 .fashion 50).reverseLogistics = 25.42 ∧
      (calculateAvoidedCosts defaultConfig 299 .fashion 50).warehouseProcessing = 13.46 ∧
      (calculateAvoidedCosts defaultConfig 299 .fashion 50).productWriteOff = 44.85 ∧
      (calculateAvoidedCosts defaultConfig 299 .fashion 50).qualityDegradation = 59.8 ∧
      (calculateAvoidedCosts defaultConfig 299 .fashion 50).total = 143.52 := by
  simp only [calculateAvoidedCosts, defaultConfig, jsOr, jsCeil_half]
  refine ⟨?_, ?_, ?_, ?_, ?_⟩
  · rw [round2_eq_of 2542 (by norm_num) (by norm_num)]; norm_num
  · rw [round2_eq_of 1346 (by norm_num) (by norm_num)]; norm_num
  · rw [round2_eq_of 4485 (by norm_num) (by norm_num)]; norm_num
  · rw [round2_eq_of 5980 (by norm_num) (by norm_num)]; norm_num
  · rw [round2_eq_of 14352 (by norm_num) (by norm_num)]; norm_num

theorem final_299_fashion : finalBuyerCredit defaultConfig 299 .fashion 50 = 86.112 := by
  simp only [finalBuyerCredit, cappedCredit, rawBuyerCredit, avoidedCosts_299_fashion.2.2.2.2]
  norm_num [defaultConfig]

theorem buyerCredit_299_fashion (r t : String) :
    (creditDetailsFor defaultConfig 299 .fashion 50 r t).buyerCredit = 86.11 := by
  rw [creditDetailsFor_buyerCredit, final_299_fashion,
    round2_eq_of 8611 (by norm_num) (by norm_num)]
  norm_num

theorem creditDetailsFor_sellerAmount (cfg : Config) (p : ℚ) (c : CategoryKey) (d : ℚ)
    (r t : String) :
    (creditDetailsFor cfg p c d r t).costSharing.sellerAmount
      = round2 (finalBuyerCredit cfg p c d * cfg.costSharingConfig.seller / 100) := rfl

theorem creditDetailsFor_meeshoAmount (cfg : Config) (p : ℚ) (c : CategoryKey) (d : ℚ)
    (r t : String) :
    (creditDetailsFor cfg p c d r t).costSharing.meeshoAmount
      = round2 (finalBuyerCredit cfg p c d * cfg.costSharingConfig.meesho / 100) := rfl

theorem creditDetailsFor_savings (cfg : Config) (p : ℚ) (c : CategoryKey) (d : ℚ)
    (r t : String) :
    (creditDetailsFor cfg p c d r t).sellerBenefit.savings
      = round2 ((calculateAvoidedCosts cfg p c d).total
          - finalBuyerCredit cfg p c d * cfg.costSharingConfig.seller / 100) := rfl

theorem creditDetailsFor_components (cfg : Config) (p : ℚ) (c : CategoryKey) (d : ℚ)
    (r t : String) :
    (creditDetailsFor cfg p c d r t).avoidedCosts.reverseLogistics
        = (calculateAvoidedCosts cfg p c d).reverseLogistics ∧
      (creditDetailsFor cfg p c d r t).avoidedCosts.warehouseProcessing
        = (calculateAvoidedCosts cfg p c d).warehouseProcessing ∧
      (creditDetailsFor cfg p c d r t).avoidedCosts.productWriteOff
        = (calculateAvoidedCosts cfg p c d).productWriteOff ∧
      (creditDetailsFor cfg p c d r t).avoidedCosts.qualityDegradation
        = (calculateAvoidedCosts cfg p c d).qualityDegradation :=
  ⟨rfl, rfl, rfl, rfl⟩

theorem shares_299_fashion (r t : String) :
    (creditDetailsFor defaultConfig 299 .fashion 50 r t).costSharing.sellerAmount = 55.97 ∧
      (creditDetailsFor defaultConfig 299 .fashion 50 r t).costSharing.meeshoAmount = 30.14 := by
  rw [creditDetailsFor_sellerAmount, creditDetailsFor_meeshoAmount, final_299_fashion]
  simp only [defaultConfig]
  constructor
  · rw [round2_eq_of 5597 (by norm_num) (by norm_num)]; norm_num
  · rw [round2_eq_of 3014 (by norm_num) (by norm_num)]; norm_num

theorem kurti_calculation (r t : String) :
    calculateInstantCredit defaultConfig (some Samples.kurti) (some Samples.sameCity) r t
      = some (creditDetailsFor defaultConfig 299 .fashion 50 r t) := by
  rw [calculateInstantCredit_some, sameCity_distance, kurti_category]
  rfl

/-- C11 (as stated, refuted): for price 299, fashion, same-city addresses the
reported total is 143.52, the credit 86.11 and the seller amount 55.97, not
143.53, 86.12 and 55.98 -/
theorem scenario_299_claimed_values_fail :
    ¬ ∃ details,
        calculateInstantCredit defaultConfig (some Samples.kurti) (some Samples.sameCity)
            "ngo_donation" "2024-01-15T10:00:00.000Z" = some details ∧
          details.avoidedCosts.reverseLogistics = 25.42 ∧
          details.avoidedCosts.warehouseProcessing = 13.46 ∧
          details.avoidedCosts.productWriteOff = 44.85 ∧
          details.avoidedCosts.qualityDegradation = 59.80 ∧
          details.avoidedCosts.total = 143.53 ∧
          details.buyerCredit = 86.12 ∧
          details.costSharing.sellerAmount = 55.98 ∧
          details.costSharing.meeshoAmount = 30.14 := by
  rintro ⟨details, hcalc, -, -, -, -, -, hcredit, -, -⟩
  rw [kurti_calculation] at hcalc
  obtain rfl := Option.some.inj hcalc
  rw [buyerCredit_299_fashion] at hcredit
  norm_num at hcredit

/-- C11 (amended): for price 299, fashion, same-city addresses the reported values
are 25.42, 13.46, 44.85, 59.80, total 143.52, credit 86.11, seller amount 55.97
and platform amount 30.14 -/
theorem scenario_299_values :
    ∃ details,
      calculateInstantCredit defaultConfig (some Samples.kurti) (some Samples.sameCity)
          "ngo_donation" "2024-01-15T10:00:00.000Z" = some details ∧
        details.metadata.distanceKm = 50 ∧
        details.avoidedCosts.reverseLogistics = 25.42 ∧
        details.avoidedCosts.warehouseProcessing = 13.46 ∧
        details.avoidedCosts.productWriteOff = 44.85 ∧
        details.avoidedCosts.qualityDegradation = 59.80 ∧
        details.avoidedCosts.total = 143.52 ∧
        details.buyerCredit = 86.11 ∧
        details.costSharing.sellerAmount = 55.97 ∧
        details.costSharing.meeshoAmount = 30.14 := by
  refine ⟨_, kurti_calculation _ _, rfl, ?_, ?_, ?_, ?_, ?_, buyerCredit_299_fashion _ _,
    (shares_299_fashion _ _).1, (shares_299_fashion _ _).2⟩
  · rw [(creditDetailsFor_components _ _ _ _ _ _).1]; exact avoidedCosts_299_fashion.1
  · rw [(creditDetailsFor_components _ _ _ _ _ _).2.1]; exact avoidedCosts_299_fashion.2.1
  · rw [(creditDetailsFor_components _ _ _ _ _ _).2.2.1]; exact avoidedCosts_299_fashion.2.2.1
  · rw [(creditDetailsFor_components _ _ _ _ _ _).2.2.2]
    have h := avoidedCosts_299_fashion.2.2.2.1
    rw [h]; norm_num
  · rw [creditDetailsFor_total]; exact avoidedCosts_299_fashion.2.2.2.2

/-! ## Rounding of intermediates, savings, determinism -/

theorem total_82_default :
    totalAvoidedCosts defaultConfig 82 .default 50 = 43.542 ∧
      (calculateAvoidedCosts defaultConfig 82 .default 50).total = 43.54 := by
  have hu : totalAvoidedCosts defaultConfig 82 .default 50 = 43.542 := by
    simp only [totalAvoidedCosts, defaultConfig, jsOr, jsCeil_half]
    norm_num
  refine ⟨hu, ?_⟩
  rw [calculateAvoidedCosts_total, hu, round2_eq_of 4354 (by norm_num) (by norm_num)]
  norm_num

theorem final_82_default : finalBuyerCredit defaultConfig 82 .default 50 = 26.124 := by
  simp only [finalBuyerCredit, cappedCredit, rawBuyerCredit, total_82_default.2]
  norm_num [defaultConfig]

theorem specFinal_82_default : SpecCredit.finalCredit defaultConfig 82 .default 50 = 26.1252 := by
  simp only [SpecCredit.finalCredit, total_82_default.1]
  norm_num [defaultConfig]

/-- C12 (as stated, refuted): price 82, default category, 50 km: the unrounded total
43.542 gives a credit of 26.1252, reported 26.13; the code goes through the
rounded total 43.54 and reports 26.12 -/
theorem buyerCredit_uses_rounded_total :
    totalAvoidedCosts defaultConfig 82 .default 50 = 43.542 ∧
      round2 (SpecCredit.finalCredit defaultConfig 82 .default 50) = 26.13 ∧
      (creditDetailsFor defaultConfig 82 .default 50 "ngo_donation" "").buyerCredit = 26.12 ∧
      (creditDetailsFor defaultConfig 82 .default 50 "ngo_donation" "").buyerCredit
        ≠ round2 (SpecCredit.finalCredit defaultConfig 82 .default 50) := by
  have hs : round2 (SpecCredit.finalCredit defaultConfig 82 .default 50) = 26.13 := by
    rw [specFinal_82_default, round2_eq_of 2613 (by norm_num) (by norm_num)]
    norm_num
  have hc : (creditDetailsFor defaultConfig 82 .default 50 "ngo_donation" "").buyerCredit
      = 26.12 := by
    rw [creditDetailsFor_buyerCredit, final_82_default,
      round2_eq_of 2612 (by norm_num) (by norm_num)]
    norm_num
  refine ⟨total_82_default.1, hs, hc, ?_⟩
  rw [hs, hc]
  norm_num

theorem round2_add_hundredth (x : ℚ) : round2 (x + 1 / 100) = round2 x + 1 / 100 := by
  unfold round2 jsRound
  have h : (x + 1 / 100) * 100 + 1 / 2 = (x * 100 + 1 / 2) + 1 := by ring
  rw [h, Int.floor_add_one]
  push_cast
  ring

theorem abs_round2_sub_round2_le {x y : ℚ} (h : |x - y| ≤ 1 / 200) :
    |round2 x - round2 y| ≤ 1 / 100 := by
  rw [abs_le] at h ⊢
  have hx : round2 x ≤ round2 y + 1 / 100 := by
    rw [← round2_add_hundredth]
    exact round2_mono (by linarith [h.2])
  have hy : round2 y ≤ round2 x + 1 / 100 := by
    rw [← round2_add_hundredth]
    exact round2_mono (by linarith [h.1])
  constructor <;> linarith

theorem abs_min_sub_min_le_abs' (a b c : ℚ) : |min a c - min b c| ≤ |a - b| := by
  have h := abs_min_sub_min_le_max a c b c
  simpa using h

theorem abs_finalBuyerCredit_sub_spec_le (cfg : Config) (p : ℚ) (c : CategoryKey) (d : ℚ)
    (h0 : 0 ≤ cfg.creditConfig.buyerCreditPercentage)
    (h100 : cfg.creditConfig.buyerCreditPercentage ≤ 100) :
    |finalBuyerCredit cfg p c d - SpecCredit.finalCredit cfg p c d| ≤ 1 / 200 := by
  unfold finalBuyerCredit cappedCredit rawBuyerCredit SpecCredit.finalCredit
  rw [calculateAvoidedCosts_total]
  refine le_trans (abs_max_sub_max_le_abs _ _ _) ?_
  refine le_trans (abs_min_sub_min_le_abs' _ _ _) ?_
  refine le_trans (abs_min_sub_min_le_abs' _ _ _) ?_
  have hT := abs_round2_sub_le (totalAvoidedCosts cfg p c d)
  have hrew : round2 (totalAvoidedCosts cfg p c d) * cfg.creditConfig.buyerCreditPercentage / 100
      - totalAvoidedCosts cfg p c d * cfg.creditConfig.buyerCreditPercentage / 100
      = (round2 (totalAvoidedCosts cfg p c d) - totalAvoidedCosts cfg p c d)
        * (cfg.creditConfig.buyerCreditPercentage / 100) := by ring
  rw [hrew, abs_mul]
  have hp : |cfg.creditConfig.buyerCreditPercentage / 100| ≤ 1 := by
    rw [abs_le]; constructor <;> linarith
  calc |round2 (totalAvoidedCosts cfg p c d) - totalAvoidedCosts cfg p c d|
        * |cfg.creditConfig.buyerCreditPercentage / 100|
      ≤ 1 / 200 * 1 := mul_le_mul hT hp (abs_nonneg _) (by norm_num)
    _ = 1 / 200 := by norm_num

theorem finalBuyerCredit_from_total (cfg : Config) (p : ℚ) (c : CategoryKey) (d : ℚ) :
    finalBuyerCredit cfg p c d
      = SpecCredit.creditFromTotal cfg p (calculateAvoidedCosts cfg p c d).total := rfl

theorem total_1_fashion :
    (calculateAvoidedCosts Samples.noFloorConfig 1 .fashion 50).total = 48 / 100 ∧
      totalAvoidedCosts Samples.noFloorConfig 1 .fashion 50 = 48 / 100 := by
  simp only [calculateAvoidedCosts, totalAvoidedCosts, Samples.noFloorConfig, defaultConfig, jsOr,
    jsCeil_half]
  constructor
  · rw [round2_eq_of 48 (by norm_num) (by norm_num)]
    norm_num
  · norm_num

theorem jsCeil_750 : jsCeil ((750 : ℚ) / 100) = 8 := by
  unfold jsCeil
  rw [Int.ceil_eq_iff]
  constructor <;> norm_num

theorem total_1_homeKitchen :
    (calculateAvoidedCosts Samples.noFloorConfig 1 .homeKitchen 750).total = 48 / 100 ∧
      totalAvoidedCosts Samples.noFloorConfig 1 .homeKitchen 750 = 478 / 1000 := by
  simp only [calculateAvoidedCosts, totalAvoidedCosts, Samples.noFloorConfig, defaultConfig, jsOr,
    jsCeil_750]
  constructor
  · rw [round2_eq_of 48 (by norm_num) (by norm_num)]
    norm_num
  · norm_num

/-- C12 (amended): the total avoided cost is rounded to 2 decimals inside
calculateAvoidedCosts, and the reported credit, shares and savings are computed
from that rounded total: each is a whole number of hundredths less than one
hundredth away from the value the formulas give for the reported total, and two
calculations with the same price, configuration and reported total report the
same four values, whatever their unrounded totals -/
theorem reported_values_from_rounded_total (cfg : Config) (productPrice : ℚ)
    (category : CategoryKey) (distanceKm : ℚ) (returnReason calculatedAt : String) :
    ((∃ k : ℤ,
        (creditDetailsFor cfg productPrice category distanceKm returnReason
          calculatedAt).avoidedCosts.total = (k : ℚ) / 100) ∧
      |(creditDetailsFor cfg productPrice category distanceKm returnReason
            calculatedAt).avoidedCosts.total
          - totalAvoidedCosts cfg productPrice category distanceKm| < 1 / 100) ∧
    ((∃ k : ℤ,
        (creditDetailsFor cfg productPrice category distanceKm returnReason
          calculatedAt).buyerCredit = (k : ℚ) / 100) ∧
      |(creditDetailsFor cfg productPrice category distanceKm returnReason
            calculatedAt).buyerCredit
          - SpecCredit.creditFromTotal cfg productPrice
              (creditDetailsFor cfg productPrice category distanceKm returnReason
                calculatedAt).avoidedCosts.total| < 1 / 100) ∧
    ((∃ k : ℤ,
        (creditDetailsFor cfg productPrice category distanceKm returnReason
          calculatedAt).costSharing.sellerAmount = (k : ℚ) / 100) ∧
      |(creditDetailsFor cfg productPrice category distanceKm returnReason
            calculatedAt).costSharing.sellerAmount
          - SpecCredit.creditFromTotal cfg productPrice
              (creditDetailsFor cfg productPrice category distanceKm returnReason
                calculatedAt).avoidedCosts.total
            * cfg.costSharingConfig.seller / 100| < 1 / 100) ∧
    ((∃ k : ℤ,
        (creditDetailsFor cfg productPrice category distanceKm returnReason
          calculatedAt).costSharing.meeshoAmount = (k : ℚ) / 100) ∧
      |(creditDetailsFor cfg productPrice category distanceKm returnReason
            calculatedAt).costSharing.meeshoAmount
          - SpecCredit.creditFromTotal cfg productPrice
              (creditDetailsFor cfg productPrice category distanceKm returnReason
                calculatedAt).avoidedCosts.total
            * cfg.costSharingConfig.meesho / 100| < 1 / 100) ∧
    ((∃ k : ℤ,
        (creditDetailsFor cfg productPrice category distanceKm returnReason
          calculatedAt).sellerBenefit.savings = (k : ℚ) / 100) ∧
      |(creditDetailsFor cfg productPrice category distanceKm returnReason
            calculatedAt).sellerBenefit.savings
          - ((creditDetailsFor cfg productPrice category distanceKm returnReason
                calculatedAt).avoidedCosts.total
            - SpecCredit.creditFromTotal cfg productPrice
                (creditDetailsFor cfg productPrice category distanceKm returnReason
                  calculatedAt).avoidedCosts.total
              * cfg.costSharingConfig.seller / 100)| < 1 / 100) ∧
    (∀ (category2 : CategoryKey) (distanceKm2 : ℚ),
      (creditDetailsFor cfg productPrice category2 distanceKm2 returnReason
          calculatedAt).avoidedCosts.total
        = (creditDetailsFor cfg productPrice category distanceKm returnReason
            calculatedAt).avoidedCosts.total →
      (creditDetailsFor cfg productPrice category2 distanceKm2 returnReason
          calculatedAt).buyerCredit
        = (creditDetailsFor cfg productPrice category distanceKm returnReason
            calculatedAt).buyerCredit ∧
      (creditDetailsFor cfg productPrice category2 distanceKm2 returnReason
          calculatedAt).costSharing.sellerAmount
        = (creditDetailsFor cfg productPrice category distanceKm returnReason
            calculatedAt).costSharing.sellerAmount ∧
      (creditDetailsFor cfg productPrice category2 distanceKm2 returnReason
          calculatedAt).costSharing.meeshoAmount
        = (creditDetailsFor cfg productPrice category distanceKm returnReason
            calculatedAt).costSharing.meeshoAmount ∧
      (creditDetailsFor cfg productPrice category2 distanceKm2 returnReason
          calculatedAt).sellerBenefit.savings
        = (creditDetailsFor cfg productPrice category distanceKm returnReason
            calculatedAt).sellerBenefit.savings) := by
  have htot := creditDetailsFor_total cfg productPrice category distanceKm returnReason
    calculatedAt
  have hfin := finalBuyerCredit_from_total cfg productPrice category distanceKm
  rw [htot, ← hfin]
  refine ⟨⟨?_, ?_⟩, ⟨round2_paise _, abs_round2_sub_lt _⟩, ⟨round2_paise _, abs_round2_sub_lt _⟩,
    ⟨round2_paise _, abs_round2_sub_lt _⟩, ⟨round2_paise _, abs_round2_sub_lt _⟩, ?_⟩
  · rw [calculateAvoidedCosts_total]
    exact round2_paise _
  · rw [calculateAvoidedCosts_total]
    exact abs_round2_sub_lt _
  · intro c2 d2 h
    rw [creditDetailsFor_total] at h
    have hfin2 : finalBuyerCredit cfg productPrice c2 d2
        = finalBuyerCredit cfg productPrice category distanceKm := by
      rw [finalBuyerCredit_from_total, finalBuyerCredit_from_total, h]
    refine ⟨?_, ?_, ?_, ?_⟩
    · rw [creditDetailsFor_buyerCredit, creditDetailsFor_buyerCredit, hfin2]
    · rw [creditDetailsFor_sellerAmount, creditDetailsFor_sellerAmount, hfin2]
    · rw [creditDetailsFor_meeshoAmount, creditDetailsFor_meeshoAmount, hfin2]
    · rw [creditDetailsFor_savings, creditDetailsFor_savings, hfin2, h]

/-- C12 (amended) at price 1 without a floor: a fashion product at 50 km has the
unrounded total 0.48, a home product at 750 km has 0.478, both report the total
0.48 and so the same credit -/
theorem reported_values_from_rounded_total_witness :
    totalAvoidedCosts Samples.noFloorConfig 1 .homeKitchen 750
        ≠ totalAvoidedCosts Samples.noFloorConfig 1 .fashion 50 ∧
      (creditDetailsFor Samples.noFloorConfig 1 .homeKitchen 750 "ngo_donation" "").buyerCredit
        = (creditDetailsFor Samples.noFloorConfig 1 .fashion 50 "ngo_donation" "").buyerCredit :=
  ⟨by rw [total_1_homeKitchen.2, total_1_fashion.2]; norm_num,
    ((reported_values_from_rounded_total Samples.noFloorConfig 1 .fashion 50 "ngo_donation"
      "").2.2.2.2.2 .homeKitchen 750
      (by rw [creditDetailsFor_total, creditDetailsFor_total, total_1_homeKitchen.1,
        total_1_fashion.1])).1⟩

theorem savings_86_electronics (r t : String) :
    (creditDetailsFor defaultConfig 86 .electronics 50 r t).sellerBenefit.savings = 45.63 ∧
      (creditDetailsFor defaultConfig 86 .electronics 50 r t).sellerBenefit.traditionalCost
        = 65.19 ∧
      (creditDetailsFor defaultConfig 86 .electronics 50 r t).sellerBenefit.ngoPathCost
        = 19.57 := by
  refine ⟨?_, ?_, ?_⟩
  · rw [creditDetailsFor_savings, total_86_electronics, final_86_electronics]
    simp only [defaultConfig]
    rw [round2_eq_of 4563 (by norm_num) (by norm_num)]
    norm_num
  · show round2 (calculateAvoidedCosts defaultConfig 86 .electronics 50).total = 65.19
    rw [total_86_electronics, round2_eq_of 6519 (by norm_num) (by norm_num)]
    norm_num
  · show round2 (finalBuyerCredit defaultConfig 86 .electronics 50
        * defaultConfig.costSharingConfig.seller / 100) = 19.57
    rw [final_86_electronics]
    simp only [defaultConfig]
    rw [round2_eq_of 1957 (by norm_num) (by norm_num)]
    norm_num

/-- C13 (as stated, refuted): price 86, electronics, 50 km: the reported savings
are 45.63, while the reported traditional cost 65.19 minus the reported seller
amount 19.57 is 45.62 -/
theorem reported_savings_differ :
    (creditDetailsFor defaultConfig 86 .electronics 50 "ngo_donation" "").sellerBenefit.savings
        = 45.63 ∧
      (creditDetailsFor defaultConfig 86 .electronics 50 "ngo_donation"
          "").sellerBenefit.traditionalCost
        - (creditDetailsFor defaultConfig 86 .electronics 50 "ngo_donation"
            "").sellerBenefit.ngoPathCost = 45.62 ∧
      (creditDetailsFor defaultConfig 86 .electronics 50 "ngo_donation" "").sellerBenefit.savings
        ≠ (creditDetailsFor defaultConfig 86 .electronics 50 "ngo_donation"
              "").sellerBenefit.traditionalCost
          - (creditDetailsFor defaultConfig 86 .electronics 50 "ngo_donation"
              "").sellerBenefit.ngoPathCost := by
  obtain ⟨h1, h2, h3⟩ := savings_86_electronics "ngo_donation" ""
  rw [h1, h2, h3]
  norm_num

/-- C13 (amended): the reported seller cost is the reported seller amount, the
reported traditional cost is the reported total, and the savings, rounded to 2
decimals on their own from unrounded values, are a whole number of hundredths
that differs from the difference of the two reported values by at most one
hundredth -/
theorem reported_savings (cfg : Config) (productPrice : ℚ) (category : CategoryKey)
    (distanceKm : ℚ) (returnReason calculatedAt : String) :
    (creditDetailsFor cfg productPrice category distanceKm returnReason
        calculatedAt).sellerBenefit.ngoPathCost
      = (creditDetailsFor cfg productPrice category distanceKm returnReason
          calculatedAt).costSharing.sellerAmount ∧
    (creditDetailsFor cfg productPrice category distanceKm returnReason
        calculatedAt).sellerBenefit.traditionalCost
      = (creditDetailsFor cfg productPrice category distanceKm returnReason
          calculatedAt).avoidedCosts.total ∧
    (∃ k : ℤ,
      (creditDetailsFor cfg productPrice category distanceKm returnReason
        calculatedAt).sellerBenefit.savings = (k : ℚ) / 100) ∧
    (creditDetailsFor cfg productPrice category distanceKm returnReason
          calculatedAt).sellerBenefit.traditionalCost
        - (creditDetailsFor cfg productPrice category distanceKm returnReason
            calculatedAt).sellerBenefit.ngoPathCost - 1 / 100
      ≤ (creditDetailsFor cfg productPrice category distanceKm returnReason
          calculatedAt).sellerBenefit.savings ∧
    (creditDetailsFor cfg productPrice category distanceKm returnReason
        calculatedAt).sellerBenefit.savings
      ≤ (creditDetailsFor cfg productPrice category distanceKm returnReason
            calculatedAt).sellerBenefit.traditionalCost
          - (creditDetailsFor cfg productPrice category distanceKm returnReason
              calculatedAt).sellerBenefit.ngoPathCost + 1 / 100 := by
  have htot := creditDetailsFor_total cfg productPrice category distanceKm returnReason
    calculatedAt
  have htrad : (creditDetailsFor cfg productPrice category distanceKm returnReason
      calculatedAt).sellerBenefit.traditionalCost
      = (calculateAvoidedCosts cfg productPrice category distanceKm).total := by
    show round2 (calculateAvoidedCosts cfg productPrice category distanceKm).total = _
    rw [calculateAvoidedCosts_total, round2_round2]
  have hngo : (creditDetailsFor cfg productPrice category distanceKm returnReason
      calculatedAt).sellerBenefit.ngoPathCost
      = round2 (finalBuyerCredit cfg productPrice category distanceKm
          * cfg.costSharingConfig.seller / 100) := rfl
  have hsav := creditDetailsFor_savings cfg productPrice category distanceKm returnReason
    calculatedAt
  have hr := round2_add_le
    ((calculateAvoidedCosts cfg productPrice category distanceKm).total
      - finalBuyerCredit cfg productPrice category distanceKm * cfg.costSharingConfig.seller / 100)
    (finalBuyerCredit cfg productPrice category distanceKm * cfg.costSharingConfig.seller / 100)
  rw [sub_add_cancel, calculateAvoidedCosts_total, round2_round2,
    ← calculateAvoidedCosts_total] at hr
  refine ⟨rfl, by rw [htrad, htot], ?_, ?_, ?_⟩
  · rw [hsav]; exact round2_paise _
  · rw [htrad, hngo, hsav]; linarith [hr.1]
  · rw [htrad, hngo, hsav]; linarith [hr.2]

/-- C14 (as stated, refuted): two calls with the same product, order details,
reason and configuration at different instants return different objects -/
theorem calculateInstantCredit_outputs_differ :
    calculateInstantCredit defaultConfig (some Samples.kurti) (some Samples.sameCity)
        "ngo_donation" "2024-01-15T10:00:00.000Z"
      ≠ calculateInstantCredit defaultConfig (some Samples.kurti) (some Samples.sameCity)
        "ngo_donation" "2024-01-15T10:00:00.001Z" := by
  intro h
  rw [calculateInstantCredit_some, calculateInstantCredit_some] at h
  have h2 := congrArg (fun d : CreditDetails => d.metadata.calculatedAt) (Option.some.inj h)
  revert h2
  show ¬ ("2024-01-15T10:00:00.000Z" = "2024-01-15T10:00:00.001Z")
  decide

/-- C14 (amended): for the same product, order details, reason and configuration
the results of two calls at any two instants agree once `metadata.calculatedAt`
is blanked, and so agree on the credit, the avoided costs, the cost sharing and
the seller benefit; both succeed or both fail -/
theorem calculateInstantCredit_deterministic (cfg : Config) (product : Option Product)
    (orderDetails : Option OrderDetails) (returnReason t1 t2 : String) :
    (calculateInstantCredit cfg product orderDetails returnReason t1).map withoutTimestamp
      = (calculateInstantCredit cfg product orderDetails returnReason t2).map withoutTimestamp ∧
    (calculateInstantCredit cfg product orderDetails returnReason t1).map
        (fun d => (d.buyerCredit, d.avoidedCosts, d.costSharing, d.sellerBenefit))
      = (calculateInstantCredit cfg product orderDetails returnReason t2).map
        (fun d => (d.buyerCredit, d.avoidedCosts, d.costSharing, d.sellerBenefit)) ∧
    ((calculateInstantCredit cfg product orderDetails returnReason t1).isSome
      = (calculateInstantCredit cfg product orderDetails returnReason t2).isSome) := by
  cases product with
  | none => exact ⟨rfl, rfl, rfl⟩
  | some product =>
    cases orderDetails with
    | none => exact ⟨rfl, rfl, rfl⟩
    | some orderDetails => exact ⟨rfl, rfl, rfl⟩

/-! ## Admin configuration -/

theorem applyAdmin_costSharing_sum (cfg : Config) (request : AdminRequest)
    (h : cfg.costSharingConfig.seller + cfg.costSharingConfig.meesho = 100) :
    (applyAdmin cfg request).costSharingConfig.seller
      + (applyAdmin cfg request).costSharingConfig.meesho = 100 := by
  cases request with
  | costFactors body =>
    cases body with
    | none => exact h
    | some patch => exact h
  | creditSettings body =>
    cases body with
    | none => exact h
    | some patch => exact h
  | costSharing body =>
    cases body with
    | none => exact h
    | some patch =>
      obtain ⟨seller, meesho⟩ := patch
      cases seller with
      | none => exact h
      | some s =>
        cases meesho with
        | none => exact h
        | some m =>
          by_cases hsum : s + m = 100
          · simp [applyAdmin, putCostSharing, hsum, updateCostSharingConfig]
          · simp [applyAdmin, putCostSharing, hsum, h]

theorem runAdmin_costSharing_sum (requests : List AdminRequest) (cfg : Config)
    (h : cfg.costSharingConfig.seller + cfg.costSharingConfig.meesho = 100) :
    (runAdmin cfg requests).costSharingConfig.seller
      + (runAdmin cfg requests).costSharingConfig.meesho = 100 := by
  induction requests generalizing cfg with
  | nil => exact h
  | cons r rs ih => exact ih (applyAdmin cfg r) (applyAdmin_costSharing_sum cfg r h)

/-- C15: a cost-sharing update whose percentages do not sum to 100, or which lacks
one of them, is rejected and leaves the configuration as it was; an accepted
one installs its two percentages; from 65/35 every sequence of admin requests
leaves percentages that sum to 100 -/
theorem putCostSharing_keeps_sum (cfg : Config) :
    (∀ seller meesho : ℚ, seller + meesho ≠ 100 →
        putCostSharing cfg (some { seller := some seller, meesho := some meesho })
          = (cfg, false)) ∧
      (∀ body : CostSharingPatch, body.seller = none ∨ body.meesho = none →
        putCostSharing cfg (some body) = (cfg, false)) ∧
      putCostSharing cfg none = (cfg, false) ∧
      (∀ seller meesho : ℚ, seller + meesho = 100 →
        putCostSharing cfg (some { seller := some seller, meesho := some meesho })
          = ({ cfg with costSharingConfig := { seller := seller, meesho := meesho } }, true)) ∧
      ∀ requests : List AdminRequest,
        (runAdmin defaultConfig requests).costSharingConfig.seller
          + (runAdmin defaultConfig requests).costSharingConfig.meesho = 100 := by
  refine ⟨fun s m h => ?_, fun body h => ?_, rfl, fun s m h => ?_, fun requests => ?_⟩
  · simp [putCostSharing, h]
  · obtain ⟨seller, meesho⟩ := body
    rcases h with h | h
    · simp only at h; subst h; rfl
    · simp only at h; subst h
      cases seller <;> rfl
  · simp [putCostSharing, h, updateCostSharingConfig]
  · exact runAdmin_costSharing_sum requests defaultConfig (by norm_num [defaultConfig])

/-- C15 at the requests 60/40 (accepted), 70/40 (rejected) and a credit-settings
update -/
theorem putCostSharing_keeps_sum_witness :
    (70 : ℚ) + 40 ≠ 100 ∧
      putCostSharing defaultConfig (some { seller := some 70, meesho := some 40 })
        = (defaultConfig, false) ∧
      (runAdmin defaultConfig
          [.costSharing (some { seller := some 60, meesho := some 40 }),
           .costSharing (some { seller := some 70, meesho := some 40 }),
           .creditSettings (some { minCreditAmount := some 40 })]).costSharingConfig.seller
        + (runAdmin defaultConfig
          [.costSharing (some { seller := some 60, meesho := some 40 }),
           .costSharing (some { seller := some 70, meesho := some 40 }),
           .creditSettings (some { minCreditAmount := some 40 })]).costSharingConfig.meesho
        = 100 :=
  ⟨by norm_num, (putCostSharing_keeps_sum defaultConfig).1 70 40 (by norm_num),
    (putCostSharing_keeps_sum defaultConfig).2.2.2.2 _⟩

/-- The sequence 60/40, 70/40, credit settings leaves the shares 60 and 40. -/
theorem runAdmin_sample :
    (runAdmin defaultConfig
        [.costSharing (some { seller := some 60, meesho := some 40 }),
         .costSharing (some { seller := some 70, meesho := some 40 }),
         .creditSettings (some { minCreditAmount := some 40 })]).costSharingConfig.seller = 60 := by
  norm_num [runAdmin, applyAdmin, putCostSharing, putCreditSettings, updateCostSharingConfig,
    updateCreditConfig, defaultConfig]

/-! ## Donation pathway: credit offered and NGO lookup -/

theorem makeReturnDecision_donation (env : DecisionEnv) (itemData : ItemData)
    (customerData : CustomerData) (h : itemData.originalPrice ≤ 500) :
    makeReturnDecision env itemData customerData
      = { pathway := "CARECONNECT"
          recommended := "DONATION"
          creditOffered :=
            some (creditDetailsFor defaultConfig itemData.originalPrice
              (getCategoryKey itemData.category)
              (calculateDistance (some (strOr customerData.address "Bangalore, Karnataka"))
                (some (strOr itemData.sellerLocation "Bangalore, Karnataka")))
              "ngo_donation" env.calculatedAt).buyerCredit
          creditDetails :=
            some (creditDetailsFor defaultConfig itemData.originalPrice
              (getCategoryKey itemData.category)
              (calculateDistance (some (strOr customerData.address "Bangalore, Karnataka"))
                (some (strOr itemData.sellerLocation "Bangalore, Karnataka")))
              "ngo_donation" env.calculatedAt)
          estimatedSavings := some (itemData.originalPrice * 0.6)
          processingTime := "24 hours"
          ngosAvailable := some (findNearbyNGOs env).length
          nearbyNGOs := findNearbyNGOs env
          confidence := 0.85
          dynamicCreditEnabled := some true } := by
  simp only [makeReturnDecision, if_pos h, calculateInstantCredit_some]
  rfl

theorem defaulted_addresses_distance :
    calculateDistance (some (strOr none "Bangalore, Karnataka"))
      (some (strOr none "Bangalore, Karnataka")) = 50 := by decide

theorem fashion_category : getCategoryKey (some "Fashion") = .fashion := by decide

theorem calculateDonationCredit_299 : calculateDonationCredit 299 none = 75 := by
  simp only [calculateDonationCredit, Option.getD, List.lookup]
  have h : ("BRONZE" == "BRONZE") = true := by decide
  simp only [h, jsOr]
  apply jsRound_eq_of <;> norm_num

/-- C16 (the code at the failing input): after the admin sets the minimum credit
to 40, the preview of a fashion item of price 50 reports a credit of 40, and
the decision for the same item still offers 25, the credit under the
constructor's configuration -/
theorem decision_ignores_admin_update :
    (putCreditSettings defaultConfig (some { minCreditAmount := some 40 })).2 = true ∧
      (∃ details,
        postCalculate (putCreditSettings defaultConfig (some { minCreditAmount := some 40 })).1
            "2024-01-15T10:00:00.000Z" (some Samples.scarf) (some Samples.sameCity) none
          = some details ∧ details.buyerCredit = 40) ∧
      (makeReturnDecision Samples.sampleDecisionEnv (Samples.fashionItem 50)
          Samples.sampleCustomer).pathway = "CARECONNECT" ∧
      (makeReturnDecision Samples.sampleDecisionEnv (Samples.fashionItem 50)
          Samples.sampleCustomer).creditOffered = some 25 := by
  refine ⟨rfl, ⟨creditDetailsFor
      (putCreditSettings defaultConfig (some { minCreditAmount := some 40 })).1 50 .fashion 50
      "ngo_donation" "2024-01-15T10:00:00.000Z", ?_, ?_⟩, ?_, ?_⟩
  · have hprice : ¬ (Samples.scarf.price = 0) := by norm_num [Samples.scarf]
    simp only [postCalculate, if_neg hprice, calculateInstantCredit_some, sameCity_distance]
    have hcat : getCategoryKey Samples.scarf.category = .fashion := by decide
    rw [hcat]
    rfl
  · rw [creditDetailsFor_buyerCredit]
    have hfinal : finalBuyerCredit
        (putCreditSettings defaultConfig (some { minCreditAmount := some 40 })).1 50 .fashion 50
        = 40 := by
      have htotal : (calculateAvoidedCosts
          (putCreditSettings defaultConfig (some { minCreditAmount := some 40 })).1 50
          .fashion 50).total = 24 := total_50_fashion
      simp only [finalBuyerCredit, cappedCredit, rawBuyerCredit, htotal]
      norm_num [putCreditSettings, updateCreditConfig, defaultConfig]
    rw [hfinal, round2_eq_of 4000 (by norm_num) (by norm_num)]
    norm_num
  · rw [makeReturnDecision_donation _ _ _ (by norm_num [Samples.fashionItem, Samples.sampleItem])]
  · rw [makeReturnDecision_donation _ _ _ (by norm_num [Samples.fashionItem, Samples.sampleItem])]
    show some (creditDetailsFor defaultConfig 50 (getCategoryKey (some "Fashion"))
      (calculateDistance (some (strOr none "Bangalore, Karnataka"))
        (some (strOr none "Bangalore, Karnataka"))) "ngo_donation" _).buyerCredit = some 25
    rw [fashion_category, defaulted_addresses_distance, creditDetailsFor_buyerCredit,
      final_50_fashion, round2_25]

/-- C18 (as stated, refuted): without delivery address and seller location, for
price 299 the credit offered is the dynamic 86.11, not the static fallback 75 -/
theorem creditOffered_not_fallback :
    Samples.sampleCustomer.address = none ∧
      (Samples.fashionItem 299).sellerLocation = none ∧
      calculateDonationCredit (Samples.fashionItem 299).originalPrice
        Samples.sampleCustomer.loyaltyTier = 75 ∧
      (makeReturnDecision Samples.sampleDecisionEnv (Samples.fashionItem 299)
          Samples.sampleCustomer).creditOffered = some 86.11 ∧
      (makeReturnDecision Samples.sampleDecisionEnv (Samples.fashionItem 299)
          Samples.sampleCustomer).creditOffered
        ≠ some ((calculateDonationCredit (Samples.fashionItem 299).originalPrice
            Samples.sampleCustomer.loyaltyTier : ℤ) : ℚ) := by
  have hoffer : (makeReturnDecision Samples.sampleDecisionEnv (Samples.fashionItem 299)
      Samples.sampleCustomer).creditOffered = some 86.11 := by
    rw [makeReturnDecision_donation _ _ _
      (by norm_num [Samples.fashionItem, Samples.sampleItem])]
    show some (creditDetailsFor defaultConfig 299 (getCategoryKey (some "Fashion"))
      (calculateDistance (some (strOr none "Bangalore, Karnataka"))
        (some (strOr none "Bangalore, Karnataka"))) "ngo_donation" _).buyerCredit = some 86.11
    rw [fashion_category, defaulted_addresses_distance, buyerCredit_299_fashion]
  have hstatic : calculateDonationCredit (Samples.fashionItem 299).originalPrice
      Samples.sampleCustomer.loyaltyTier = 75 := calculateDonationCredit_299
  refine ⟨rfl, rfl, hstatic, hoffer, ?_⟩
  rw [hoffer, hstatic]
  norm_num

/-- C18 (amended): on the donation pathway the credit offered is always the
dynamic credit of `calculateInstantCredit` under the constructor's
configuration, a missing delivery address or seller location being replaced by
"Bangalore, Karnataka" -/
theorem creditOffered_dynamic (env : DecisionEnv) (itemData : ItemData)
    (customerData : CustomerData) (h : itemData.originalPrice ≤ 500) :
    ∃ details,
      calculateInstantCredit defaultConfig
          (some { name := strOr itemData.productName "Product"
                  price := itemData.originalPrice
                  category := itemData.category
                  sku := strOr itemData.sku itemData.productId })
          (some { deliveryAddress := some (strOr customerData.address "Bangalore, Karnataka")
                  sellerLocation :=
                    some (strOr itemData.sellerLocation "Bangalore, Karnataka") })
          "ngo_donation" env.calculatedAt = some details ∧
        (makeReturnDecision env itemData customerData).creditOffered
          = some details.buyerCredit ∧
        (makeReturnDecision env itemData customerData).creditDetails = some details ∧
        (makeReturnDecision env itemData customerData).dynamicCreditEnabled = some true := by
  refine ⟨_, calculateInstantCredit_some _ _ _ _ _, ?_, ?_, ?_⟩ <;>
    rw [makeReturnDecision_donation env itemData customerData h]

/-- C18 (amended) at price 299 without address and seller location -/
theorem creditOffered_dynamic_witness :
    (Samples.fashionItem 299).originalPrice ≤ 500 ∧
      ∃ details : CreditDetails,
        (makeReturnDecision Samples.sampleDecisionEnv (Samples.fashionItem 299)
            Samples.sampleCustomer).creditOffered = some details.buyerCredit ∧
          (makeReturnDecision Samples.sampleDecisionEnv (Samples.fashionItem 299)
            Samples.sampleCustomer).dynamicCreditEnabled = some true :=
  ⟨by norm_num [Samples.fashionItem, Samples.sampleItem],
    (creditOffered_dynamic Samples.sampleDecisionEnv (Samples.fashionItem 299)
      Samples.sampleCustomer (by norm_num [Samples.fashionItem, Samples.sampleItem])).elim
      fun details hd => ⟨details, hd.2.1, hd.2.2.2⟩⟩

/-- C19: for a price of at most 500, when the NGO lookup throws or finds nothing
the decision is the donation pathway with no NGO available -/
theorem makeReturnDecision_without_ngos (env : DecisionEnv) (itemData : ItemData)
    (customerData : CustomerData) (hprice : itemData.originalPrice ≤ 500)
    (hlookup : env.ngoLookup = none ∨ env.ngoLookup = some []) :
    (makeReturnDecision env itemData customerData).pathway = "CARECONNECT" ∧
      (makeReturnDecision env itemData customerData).recommended = "DONATION" ∧
      (makeReturnDecision env itemData customerData).ngosAvailable = some 0 ∧
      (makeReturnDecision env itemData customerData).nearbyNGOs = [] := by
  have hngos : findNearbyNGOs env = [] := by
    unfold findNearbyNGOs
    rcases hlookup with h | h
    · rw [h]
    · rw [h]; rfl
  rw [makeReturnDecision_donation env itemData customerData hprice, hngos]
  exact ⟨rfl, rfl, rfl, rfl⟩

/-- C19 at a lookup that throws and at a lookup that finds nothing -/
theorem makeReturnDecision_without_ngos_witness :
    (Samples.fashionItem 299).originalPrice ≤ 500 ∧
      Samples.sampleDecisionEnv.ngoLookup = none ∧
      (makeReturnDecision Samples.sampleDecisionEnv (Samples.fashionItem 299)
          Samples.sampleCustomer).ngosAvailable = some 0 ∧
      Samples.emptyLookupEnv.ngoLookup = some [] ∧
      (makeReturnDecision Samples.emptyLookupEnv (Samples.fashionItem 299)
          Samples.sampleCustomer).pathway = "CARECONNECT" :=
  ⟨by norm_num [Samples.fashionItem, Samples.sampleItem], rfl,
    (makeReturnDecision_without_ngos Samples.sampleDecisionEnv (Samples.fashionItem 299)
      Samples.sampleCustomer (by norm_num [Samples.fashionItem, Samples.sampleItem])
      (Or.inl rfl)).2.2.1,
    rfl,
    (makeReturnDecision_without_ngos Samples.emptyLookupEnv (Samples.fashionItem 299)
      Samples.sampleCustomer (by norm_num [Samples.fashionItem, Samples.sampleItem])
      (Or.inr rfl)).1⟩

/-! ## Flash sale and resale -/

theorem makeReturnDecision_flash (env : DecisionEnv) (itemData : ItemData)
    (customerData : CustomerData)
    (h : itemData.originalPrice > 1000 ∧ itemData.condition = "Good") :
    makeReturnDecision env itemData customerData
      = { pathway := "FLASH_SALE"
          recommended := "FLASH_SALE"
          flashSalePrice := some (jsRound (itemData.originalPrice * 0.6))
          originalPrice := some itemData.originalPrice
          discount :=
            some (jsRound (((itemData.originalPrice - jsRound (itemData.originalPrice * 0.6))
              / itemData.originalPrice) * 100))
          processingTime := "2-3 hours"
          nearbyUsers := some (⌊env.random * 50⌋ + 10)
          confidence := 0.82 } := by
  have h500 : ¬ itemData.originalPrice ≤ 500 := by linarith [h.1]
  simp only [makeReturnDecision, if_neg h500, if_pos h]

theorem makeReturnDecision_resale (env : DecisionEnv) (itemData : ItemData)
    (customerData : CustomerData) (h500 : ¬ itemData.originalPrice ≤ 500)
    (h : ¬ (itemData.originalPrice > 1000 ∧ itemData.condition = "Good")) :
    makeReturnDecision env itemData customerData
      = { pathway := "RECOMMERCE"
          recommended := "RESALE"
          estimatedResaleValue := some (estimateResaleValue env itemData)
          processingCost := some (calculateProcessingCost itemData.category itemData.condition)
          expectedProfit :=
            some (estimateResaleValue env itemData
              - calculateProcessingCost itemData.category itemData.condition)
          processingTime := "5-7 days"
          qualityGrade := some (determineQualityGrade itemData.condition)
          confidence := 0.78 } := by
  simp only [makeReturnDecision, if_neg h500, if_neg h]

theorem pathway_cases (env : DecisionEnv) (itemData : ItemData) (customerData : CustomerData) :
    (itemData.originalPrice ≤ 500 ∧
        (makeReturnDecision env itemData customerData).pathway = "CARECONNECT") ∨
      (itemData.originalPrice > 1000 ∧ itemData.condition = "Good" ∧
        (makeReturnDecision env itemData customerData).pathway = "FLASH_SALE") ∨
      (¬ itemData.originalPrice ≤ 500 ∧
        ¬ (itemData.originalPrice > 1000 ∧ itemData.condition = "Good") ∧
        (makeReturnDecision env itemData customerData).pathway = "RECOMMERCE") := by
  by_cases h500 : itemData.originalPrice ≤ 500
  · left
    exact ⟨h500, by rw [makeReturnDecision_donation env itemData customerData h500]⟩
  · by_cases hflash : itemData.originalPrice > 1000 ∧ itemData.condition = "Good"
    · right; left
      exact ⟨hflash.1, hflash.2, by rw [makeReturnDecision_flash env itemData customerData hflash]⟩
    · right; right
      exact ⟨h500, hflash,
        by rw [makeReturnDecision_resale env itemData customerData h500 hflash]⟩

/-- C17: every flash-sale decision carries the flash-sale price
`Math.round(price * 0.6)`; for price 1500 and condition Good the decision is a
flash sale at 900 with discount 40 -/
theorem flashSale_price (env : DecisionEnv) (itemData : ItemData) (customerData : CustomerData)
    (hflash : (makeReturnDecision env itemData customerData).pathway = "FLASH_SALE") :
    (makeReturnDecision env itemData customerData).flashSalePrice
        = some (jsRound (itemData.originalPrice * 0.6)) ∧
      ∀ (env1 : DecisionEnv) (item1 : ItemData) (customer1 : CustomerData),
        item1.originalPrice = 1500 → item1.condition = "Good" →
        (makeReturnDecision env1 item1 customer1).pathway = "FLASH_SALE" ∧
        (makeReturnDecision env1 item1 customer1).flashSalePrice = some 900 ∧
        (makeReturnDecision env1 item1 customer1).discount = some 40 := by
  constructor
  · rcases pathway_cases env itemData customerData with ⟨-, hp⟩ | ⟨h1, h2, -⟩ | ⟨-, -, hp⟩
    · rw [hp] at hflash; exact absurd hflash (by decide)
    · rw [makeReturnDecision_flash env itemData customerData ⟨h1, h2⟩]
    · rw [hp] at hflash; exact absurd hflash (by decide)
  · intro env1 item1 customer1 hprice hcond
    rw [makeReturnDecision_flash env1 item1 customer1 ⟨by rw [hprice]; norm_num, hcond⟩]
    have h900 : jsRound (item1.originalPrice * 0.6) = 900 := by
      rw [hprice]; apply jsRound_eq_of <;> norm_num
    refine ⟨rfl, ?_, ?_⟩
    · show some (jsRound (item1.originalPrice * 0.6)) = some 900
      rw [h900]
    · show some (jsRound (((item1.originalPrice - jsRound (item1.originalPrice * 0.6))
        / item1.originalPrice) * 100)) = some 40
      rw [h900, hprice]
      congr 1
      apply jsRound_eq_of <;> norm_num

/-- C17 at price 1500, condition Good -/
theorem flashSale_price_witness :
    (makeReturnDecision Samples.sampleDecisionEnv (Samples.sampleItem 1500 "Good")
        Samples.sampleCustomer).pathway = "FLASH_SALE" ∧
      (makeReturnDecision Samples.sampleDecisionEnv (Samples.sampleItem 1500 "Good")
        Samples.sampleCustomer).flashSalePrice = some 900 ∧
      (makeReturnDecision Samples.sampleDecisionEnv (Samples.sampleItem 1500 "Good")
        Samples.sampleCustomer).discount = some 40 :=
  (flashSale_price Samples.sampleDecisionEnv (Samples.sampleItem 1500 "Good")
      Samples.sampleCustomer
      (by rw [makeReturnDecision_flash _ _ _ ⟨by norm_num [Samples.sampleItem], rfl⟩])).2
    Samples.sampleDecisionEnv (Samples.sampleItem 1500 "Good") Samples.sampleCustomer rfl rfl

theorem lookup_resaleCondition (condition : String) :
    jsOr (((([("Like New", 0.8), ("Good", 0.65), ("Fair", 0.45), ("Poor", 0.25)] :
        List (String × ℚ)).lookup condition)).getD 0) 0.5
      = resaleConditionMultiplier condition := by
  unfold resaleConditionMultiplier jsOr
  by_cases h1 : condition = "Like New"
  · subst h1; norm_num [List.lookup]
  by_cases h2 : condition = "Good"
  · subst h2; simp +decide [List.lookup]; norm_num
  by_cases h3 : condition = "Fair"
  · subst h3; simp +decide [List.lookup]; norm_num
  by_cases h4 : condition = "Poor"
  · subst h4; simp +decide [List.lookup]; norm_num
  have e1 : (condition == "Like New") = false := beq_eq_false_iff_ne.mpr h1
  have e2 : (condition == "Good") = false := beq_eq_false_iff_ne.mpr h2
  have e3 : (condition == "Fair") = false := beq_eq_false_iff_ne.mpr h3
  have e4 : (condition == "Poor") = false := beq_eq_false_iff_ne.mpr h4
  simp [List.lookup, e1, e2, e3, e4, h1, h2, h3, h4]

theorem lookup_resaleCategory (category : Option String) :
    jsOr ((category.bind ([("Electronics", 0.7), ("Fashion", 0.6), ("Home & Kitchen", 0.5),
        ("Books", 0.4)] : List (String × ℚ)).lookup).getD 0) 0.5
      = resaleCategoryMultiplier category := by
  unfold resaleCategoryMultiplier jsOr
  cases category with
  | none => simp
  | some c =>
    simp only [Option.some_bind, Option.some.injEq]
    by_cases h1 : c = "Electronics"
    · subst h1; norm_num [List.lookup]
    by_cases h2 : c = "Fashion"
    · subst h2; simp +decide [List.lookup]; norm_num
    by_cases h3 : c = "Home & Kitchen"
    · subst h3; simp +decide [List.lookup]
    by_cases h4 : c = "Books"
    · subst h4; simp +decide [List.lookup]; norm_num
    have e1 : (c == "Electronics") = false := beq_eq_false_iff_ne.mpr h1
    have e2 : (c == "Fashion") = false := beq_eq_false_iff_ne.mpr h2
    have e3 : (c == "Home & Kitchen") = false := beq_eq_false_iff_ne.mpr h3
    have e4 : (c == "Books") = false := beq_eq_false_iff_ne.mpr h4
    simp [List.lookup, e1, e2, e3, e4, h1, h2, h3, h4]

theorem lookup_processingBase (category : Option String) :
    jsOr ((category.bind ([("Electronics", 150), ("Fashion", 80), ("Home & Kitchen", 100),
        ("Books", 40)] : List (String × ℚ)).lookup).getD 0) 100
      = processingBaseCost category := by
  unfold processingBaseCost jsOr
  cases category with
  | none => simp
  | some c =>
    simp only [Option.some_bind, Option.some.injEq]
    by_cases h1 : c = "Electronics"
    · subst h1; norm_num [List.lookup]
    by_cases h2 : c = "Fashion"
    · subst h2; simp +decide [List.lookup]
    by_cases h3 : c = "Home & Kitchen"
    · subst h3; simp +decide [List.lookup]
    by_cases h4 : c = "Books"
    · subst h4; simp +decide [List.lookup]
    have e1 : (c == "Electronics") = false := beq_eq_false_iff_ne.mpr h1
    have e2 : (c == "Fashion") = false := beq_eq_false_iff_ne.mpr h2
    have e3 : (c == "Home & Kitchen") = false := beq_eq_false_iff_ne.mpr h3
    have e4 : (c == "Books") = false := beq_eq_false_iff_ne.mpr h4
    simp [List.lookup, e1, e2, e3, e4, h1, h2, h3, h4]

theorem lookup_processingCondition (condition : String) :
    jsOr (((([("Like New", 1.0), ("Good", 1.2), ("Fair", 1.5), ("Poor", 2.0)] :
        List (String × ℚ)).lookup condition)).getD 0) 1.0
      = processingConditionMultiplier condition := by
  unfold processingConditionMultiplier jsOr
  by_cases h1 : condition = "Like New"
  · subst h1; norm_num [List.lookup]
  by_cases h2 : condition = "Good"
  · subst h2; simp +decide [List.lookup]; norm_num
  by_cases h3 : condition = "Fair"
  · subst h3; simp +decide [List.lookup]; norm_num
  by_cases h4 : condition = "Poor"
  · subst h4; simp +decide [List.lookup]; norm_num
  have e1 : (condition == "Like New") = false := beq_eq_false_iff_ne.mpr h1
  have e2 : (condition == "Good") = false := beq_eq_false_iff_ne.mpr h2
  have e3 : (condition == "Fair") = false := beq_eq_false_iff_ne.mpr h3
  have e4 : (condition == "Poor") = false := beq_eq_false_iff_ne.mpr h4
  simp [List.lookup, e1, e2, e3, e4, h1, h2, h3, h4]

theorem estimateResaleValue_eq (env : DecisionEnv) (itemData : ItemData) :
    estimateResaleValue env itemData
      = jsRound (itemData.originalPrice
          * (1 - min ((ageInDays env itemData : ℚ) / 365 * 0.3) 0.5)
          * resaleConditionMultiplier itemData.condition
          * resaleCategoryMultiplier itemData.category) := by
  rw [← lookup_resaleCondition, ← lookup_resaleCategory]
  rfl

theorem calculateProcessingCost_eq (category : Option String) (condition : String) :
    calculateProcessingCost category condition
      = jsRound (processingBaseCost category * processingConditionMultiplier condition) := by
  rw [← lookup_processingBase, ← lookup_processingCondition]
  rfl

theorem processingBaseCost_tens (category : Option String) :
    ∃ b : ℤ, processingBaseCost category = 10 * (b : ℚ) := by
  unfold processingBaseCost
  split_ifs
  · exact ⟨15, by norm_num⟩
  · exact ⟨8, by norm_num⟩
  · exact ⟨10, by norm_num⟩
  · exact ⟨4, by norm_num⟩
  · exact ⟨10, by norm_num⟩

theorem processingConditionMultiplier_tenths (condition : String) :
    ∃ k : ℤ, 10 * processingConditionMultiplier condition = (k : ℚ) := by
  unfold processingConditionMultiplier
  split_ifs
  · exact ⟨10, by norm_num⟩
  · exact ⟨12, by norm_num⟩
  · exact ⟨15, by norm_num⟩
  · exact ⟨20, by norm_num⟩
  · exact ⟨10, by norm_num⟩

theorem processingCost_whole (category : Option String) (condition : String) :
    ((jsRound (processingBaseCost category * processingConditionMultiplier condition) : ℤ) : ℚ)
      = processingBaseCost category * processingConditionMultiplier condition := by
  obtain ⟨b, hb⟩ := processingBaseCost_tens category
  obtain ⟨k, hk⟩ := processingConditionMultiplier_tenths condition
  have h : processingBaseCost category * processingConditionMultiplier condition
      = ((b * k : ℤ) : ℚ) := by
    rw [hb, mul_comm (10 : ℚ) (b : ℚ), mul_assoc, hk]
    push_cast
    ring
  rw [h, jsRound_intCast]

theorem abs_jsRound_sub_le (x : ℚ) : |((jsRound x : ℤ) : ℚ) - x| ≤ 1 / 2 := by
  unfold jsRound
  have h1 := Int.floor_le (x + 1 / 2)
  have h2 := Int.lt_floor_add_one (x + 1 / 2)
  rw [abs_le]
  constructor
  · linarith
  · linarith

theorem abs_jsRound_sub_lt (x : ℚ) : |((jsRound x : ℤ) : ℚ) - x| < 1 :=
  lt_of_le_of_lt (abs_jsRound_sub_le x) (by norm_num)

/-- C20 (as stated, refuted): price 599, condition Good, fashion, bought the same
day: the formula gives 233.61 and the decision reports 234 -/
theorem resaleValue_is_rounded :
    (makeReturnDecision Samples.sampleDecisionEnv (Samples.fashionItem 599)
        Samples.sampleCustomer).pathway = "RECOMMERCE" ∧
      (Samples.fashionItem 599).originalPrice
          * (1 - min ((ageInDays Samples.sampleDecisionEnv (Samples.fashionItem 599) : ℚ)
              / 365 * 0.3) 0.5)
          * resaleConditionMultiplier (Samples.fashionItem 599).condition
          * resaleCategoryMultiplier (Samples.fashionItem 599).category = 233.61 ∧
      (makeReturnDecision Samples.sampleDecisionEnv (Samples.fashionItem 599)
        Samples.sampleCustomer).estimatedResaleValue = some 234 ∧
      (makeReturnDecision Samples.sampleDecisionEnv (Samples.fashionItem 599)
          Samples.sampleCustomer).estimatedResaleValue.map (fun v : ℤ => (v : ℚ))
        ≠ some ((Samples.fashionItem 599).originalPrice
          * (1 - min ((ageInDays Samples.sampleDecisionEnv (Samples.fashionItem 599) : ℚ)
              / 365 * 0.3) 0.5)
          * resaleConditionMultiplier (Samples.fashionItem 599).condition
          * resaleCategoryMultiplier (Samples.fashionItem 599).category) := by
  have hage : ageInDays Samples.sampleDecisionEnv (Samples.fashionItem 599) = 0 := by
    simp [ageInDays, Samples.sampleDecisionEnv, Samples.fashionItem, Samples.sampleItem]
  have hcond : resaleConditionMultiplier (Samples.fashionItem 599).condition = 0.65 := by
    simp +decide [resaleConditionMultiplier, Samples.fashionItem, Samples.sampleItem]
  have hcat : resaleCategoryMultiplier (Samples.fashionItem 599).category = 0.6 := by
    simp +decide [resaleCategoryMultiplier, Samples.fashionItem, Samples.sampleItem]
  have hprice : (Samples.fashionItem 599).originalPrice = 599 := rfl
  have hformula : (Samples.fashionItem 599).originalPrice
      * (1 - min ((ageInDays Samples.sampleDecisionEnv (Samples.fashionItem 599) : ℚ)
          / 365 * 0.3) 0.5)
      * resaleConditionMultiplier (Samples.fashionItem 599).condition
      * resaleCategoryMultiplier (Samples.fashionItem 599).category = 233.61 := by
    rw [hage, hcond, hcat, hprice]
    norm_num
  have h500 : ¬ (Samples.fashionItem 599).originalPrice ≤ 500 := by rw [hprice]; norm_num
  have hflash : ¬ ((Samples.fashionItem 599).originalPrice > 1000
      ∧ (Samples.fashionItem 599).condition = "Good") := by
    rw [hprice]; norm_num
  have hvalue : (makeReturnDecision Samples.sampleDecisionEnv (Samples.fashionItem 599)
      Samples.sampleCustomer).estimatedResaleValue = some 234 := by
    rw [makeReturnDecision_resale _ _ _ h500 hflash]
    show some (estimateResaleValue _ _) = some 234
    rw [estimateResaleValue_eq, hformula]
    congr 1
    apply jsRound_eq_of <;> norm_num
  refine ⟨by rw [makeReturnDecision_resale _ _ _ h500 hflash], hformula, hvalue, ?_⟩
  rw [hvalue, hformula]
  norm_num

/-- C20 (amended): on the resale pathway the estimated resale value is price ×
(1 − min(ageDays/365 × 0.3, 0.5)) × condition multiplier × category multiplier
rounded to a whole number, less than one away from that product, and the
processing cost is `Math.round` of base cost × condition multiplier, which is
that product itself -/
theorem resale_estimates (env : DecisionEnv) (itemData : ItemData) (customerData : CustomerData)
    (hresale : (makeReturnDecision env itemData customerData).pathway = "RECOMMERCE") :
    (∃ value : ℤ,
        (makeReturnDecision env itemData customerData).estimatedResaleValue = some value ∧
        |(value : ℚ)
            - itemData.originalPrice
              * (1 - min ((ageInDays env itemData : ℚ) / 365 * 0.3) 0.5)
              * resaleConditionMultiplier itemData.condition
              * resaleCategoryMultiplier itemData.category| < 1) ∧
      (makeReturnDecision env itemData customerData).processingCost
        = some (jsRound (processingBaseCost itemData.category
            * processingConditionMultiplier itemData.condition)) ∧
      ((makeReturnDecision env itemData customerData).processingCost.map
          (fun v : ℤ => (v : ℚ)))
        = some (processingBaseCost itemData.category
            * processingConditionMultiplier itemData.condition) := by
  rcases pathway_cases env itemData customerData with ⟨-, hp⟩ | ⟨-, -, hp⟩ | ⟨h500, hflash, -⟩
  · rw [hp] at hresale; exact absurd hresale (by decide)
  · rw [hp] at hresale; exact absurd hresale (by decide)
  · rw [makeReturnDecision_resale env itemData customerData h500 hflash]
    refine ⟨?_, ?_, ?_⟩
    · refine ⟨estimateResaleValue env itemData, rfl, ?_⟩
      rw [estimateResaleValue_eq]
      exact abs_jsRound_sub_lt _
    · show some (calculateProcessingCost itemData.category itemData.condition) = _
      rw [calculateProcessingCost_eq]
    · show (some (calculateProcessingCost itemData.category itemData.condition)).map
        (fun v : ℤ => (v : ℚ)) = _
      rw [calculateProcessingCost_eq, Option.map_some', processingCost_whole]

theorem pathway_599 :
    (makeReturnDecision Samples.sampleDecisionEnv (Samples.fashionItem 599)
        Samples.sampleCustomer).pathway = "RECOMMERCE" := by
  have hprice : (Samples.fashionItem 599).originalPrice = 599 := rfl
  have h500 : ¬ (Samples.fashionItem 599).originalPrice ≤ 500 := by rw [hprice]; norm_num
  have hflash : ¬ ((Samples.fashionItem 599).originalPrice > 1000
      ∧ (Samples.fashionItem 599).condition = "Good") := by
    rw [hprice]; norm_num
  rw [makeReturnDecision_resale _ _ _ h500 hflash]

/-- C20 (amended) at price 599, condition Good, fashion -/
theorem resale_estimates_witness :
    (makeReturnDecision Samples.sampleDecisionEnv (Samples.fashionItem 599)
        Samples.sampleCustomer).pathway = "RECOMMERCE" ∧
      (makeReturnDecision Samples.sampleDecisionEnv (Samples.fashionItem 599)
          Samples.sampleCustomer).processingCost.map (fun v : ℤ => (v : ℚ))
        = some (processingBaseCost (Samples.fashionItem 599).category
            * processingConditionMultiplier (Samples.fashionItem 599).condition) :=
  ⟨pathway_599,
    (resale_estimates Samples.sampleDecisionEnv (Samples.fashionItem 599) Samples.sampleCustomer
      pathway_599).2.2⟩

/-! ## Wallet details -/

theorem getWalletDetails_cases (env : Env) (db : Db) (userId : String) (limit offset : ℕ) :
    getWalletDetails env db userId limit offset = (db, none) ∨
      getWalletDetails env db userId limit offset = (withWallet db userId, none) ∨
      ∃ details : WalletDetails,
        getWalletDetails env db userId limit offset = (withWallet db userId, some details) ∧
        (walletRows (withWallet db userId) userId).head? = some details.wallet ∧
        details.transactions
          = (((db.wallet_transactions.filter (fun t => t.user_id = userId)).reverse.drop
              offset).take limit) ∧
        details.pagination.total
          = (db.wallet_transactions.filter (fun t => t.user_id = userId)).length := by
  have hlog : (withWallet db userId).wallet_transactions = db.wallet_transactions := by
    unfold withWallet
    cases walletRows db userId <;> rfl
  rcases getOrCreateWallet_cases env db userId with h | ⟨row, h, hrow⟩
  · left
    simp only [getWalletDetails, h]
  · right
    by_cases h1 : env.fails .detailsTransactions = true
    · left
      simp only [getWalletDetails, h, h1, if_true]
    · by_cases h2 : env.fails .detailsSummary = true
      · left
        simp only [getWalletDetails, h, h1, h2, if_true, if_false, Bool.false_eq_true]
      · right
        simp only [getWalletDetails, h, h1, h2, if_false, hlog, Bool.false_eq_true]
        exact ⟨_, rfl, hrow, rfl, rfl⟩

theorem withWallet_wallets (db : Db) (userId : String) :
    (withWallet db userId).wallet_transactions = db.wallet_transactions ∧
      (withWallet db userId).credit_cost_sharing = db.credit_cost_sharing ∧
      (withWallet db userId).ngo_credit_financial_summary = db.ngo_credit_financial_summary ∧
      ((withWallet db userId).wallets = db.wallets ∧ walletRows db userId ≠ [] ∨
        walletRows db userId = [] ∧
          (withWallet db userId).wallets = db.wallets ++ [⟨userId, 0, 0, 0⟩]) := by
  unfold withWallet
  rcases h : walletRows db userId with _ | ⟨row, rest⟩
  · exact ⟨rfl, rfl, rfl, Or.inr ⟨rfl, rfl⟩⟩
  · exact ⟨rfl, rfl, rfl, Or.inl ⟨rfl, by simp⟩⟩

/-- C21: getWalletDetails never changes the transaction log, the cost-sharing
records or the monthly summary, and never changes an existing wallet row: the
wallet rows stay as they were, or, for a user without a wallet row, one zero
row for that user is appended; a successful call for such a user always
appends it. -/
theorem getWalletDetails_frame (env : Env) (db : Db) (userId : String) (limit offset : ℕ) :
    (getWalletDetails env db userId limit offset).1.wallet_transactions
        = db.wallet_transactions ∧
      (getWalletDetails env db userId limit offset).1.credit_cost_sharing
        = db.credit_cost_sharing ∧
      (getWalletDetails env db userId limit offset).1.ngo_credit_financial_summary
        = db.ngo_credit_financial_summary ∧
      ((getWalletDetails env db userId limit offset).1.wallets = db.wallets ∨
        walletRows db userId = [] ∧
          (getWalletDetails env db userId limit offset).1.wallets
            = db.wallets ++ [⟨userId, 0, 0, 0⟩]) ∧
      (walletRows db userId ≠ [] ∨
        (getWalletDetails env db userId limit offset).2 = none ∨
        (getWalletDetails env db userId limit offset).1.wallets
          = db.wallets ++ [⟨userId, 0, 0, 0⟩]) := by
  obtain ⟨hw1, hw2, hw3, hw4⟩ := withWallet_wallets db userId
  have hw5 : (withWallet db userId).wallets = db.wallets ∨
      walletRows db userId = [] ∧
        (withWallet db userId).wallets = db.wallets ++ [⟨userId, 0, 0, 0⟩] := by
    rcases hw4 with h | h
    · exact Or.inl h.1
    · exact Or.inr h
  rcases getWalletDetails_cases env db userId limit offset with h | h | ⟨details, h, _⟩
  · rw [h]
    exact ⟨rfl, rfl, rfl, Or.inl rfl, Or.inr (Or.inl rfl)⟩
  · rw [h]
    exact ⟨hw1, hw2, hw3, hw5, Or.inr (Or.inl rfl)⟩
  · rw [h]
    refine ⟨hw1, hw2, hw3, hw5, ?_⟩
    rcases hw4 with h4 | h4
    · exact Or.inl h4.2
    · exact Or.inr (Or.inr h4.2)

/-- C21, counterexample: on an empty database getWalletDetails for user u1
succeeds and leaves a wallet row behind, so the set of wallet rows changes. -/
theorem getWalletDetails_creates_wallet :
    ((getWalletDetails (okEnv 1 "AAAAAA") Db.empty "u1" 50 0).1.wallets
        = [⟨"u1", 0, 0, 0⟩] ∧
      (getWalletDetails (okEnv 1 "AAAAAA") Db.empty "u1" 50 0).2.isSome = true) ∧
      ¬ (∀ (env : Env) (db : Db) (userId : String) (limit offset : ℕ),
        (getWalletDetails env db userId limit offset).1.wallets = db.wallets ∧
          (getWalletDetails env db userId limit offset).1.wallet_transactions
            = db.wallet_transactions) := by
  have h : (getWalletDetails (okEnv 1 "AAAAAA") Db.empty "u1" 50 0).1.wallets
        = [⟨"u1", 0, 0, 0⟩] ∧
      (getWalletDetails (okEnv 1 "AAAAAA") Db.empty "u1" 50 0).2.isSome = true := by
    simp +decide [getWalletDetails, getOrCreateWallet, okEnv, Db.empty]
  refine ⟨h, fun hall => ?_⟩
  have h2 := (hall (okEnv 1 "AAAAAA") Db.empty "u1" 50 0).1
  rw [h.1] at h2
  exact absurd h2 (by simp [Db.empty])

/-! ## Payments with an amount that is not positive -/

/-- C22: a wallet payment request with the amount -50 passes the required-field
check of the route and the balance guard of the service: it succeeds, stores a
purchase row with amount +50, raises the balance from 50 to 100 and lowers
total_spent from 0 to -50. An amount of 0 is turned away by the route, but the
service itself accepts it and appends a zero purchase row to the log. -/
theorem negative_payment_raises_balance :
    ((postWalletPayment (okEnv 2 "BBBBBB")
          { Db.empty with wallets := [⟨"u1", 50, 50, 0⟩] }
          (some "u1") (some (-50)) (some "ORD002") none).1.wallets = [⟨"u1", 100, 50, -50⟩] ∧
      (postWalletPayment (okEnv 2 "BBBBBB")
          { Db.empty with wallets := [⟨"u1", 50, 50, 0⟩] }
          (some "u1") (some (-50)) (some "ORD002") none).1.wallet_transactions.map
          (fun t => (t.transaction_id, t.user_id, t.type, t.amount, t.status))
        = [("PAY_U1_2_BBBBBB", "u1", .purchase, 50, .completed)] ∧
      (postWalletPayment (okEnv 2 "BBBBBB")
          { Db.empty with wallets := [⟨"u1", 50, 50, 0⟩] }
          (some "u1") (some (-50)) (some "ORD002") none).2.isSome = true) ∧
    ((postWalletPayment (okEnv 2 "BBBBBB")
          { Db.empty with wallets := [⟨"u1", 50, 50, 0⟩] }
          (some "u1") (some 0) (some "ORD002") none).2.isSome = false ∧
      (processWalletPayment (okEnv 2 "BBBBBB")
          { Db.empty with wallets := [⟨"u1", 50, 50, 0⟩] }
          (Samples.samplePayment 0)).1.wallet_transactions.map
          (fun t => (t.transaction_id, t.user_id, t.type, t.amount, t.status))
        = [("PAY_U1_2_BBBBBB", "u1", .purchase, 0, .completed)] ∧
      (processWalletPayment (okEnv 2 "BBBBBB")
          { Db.empty with wallets := [⟨"u1", 50, 50, 0⟩] }
          (Samples.samplePayment 0)).2.isSome = true) := by
  refine ⟨⟨?_, ?_, ?_⟩, ?_, ?_, ?_⟩
  · norm_num +decide [postWalletPayment, processWalletPayment, okEnv, Db.empty,
      pgRound_ofNat, pgFits_ofNat, creditOverflows, debitOverflows, pgRound_neg, pgFits_neg,
      pgRound_zero, pgFits_zero]
  · norm_num +decide [postWalletPayment, processWalletPayment, okEnv, Db.empty,
      pgRound_ofNat, pgFits_ofNat, creditOverflows, debitOverflows, pgRound_neg, pgFits_neg,
      pgRound_zero, pgFits_zero]
  · norm_num +decide [postWalletPayment, processWalletPayment, okEnv, Db.empty,
      pgRound_ofNat, pgFits_ofNat, creditOverflows, debitOverflows, pgRound_neg, pgFits_neg,
      pgRound_zero, pgFits_zero]
  · norm_num +decide [postWalletPayment, processWalletPayment, okEnv, Db.empty,
      pgRound_ofNat, pgFits_ofNat, creditOverflows, debitOverflows, pgRound_neg, pgFits_neg,
      pgRound_zero, pgFits_zero]
  · norm_num +decide [processWalletPayment, okEnv, Db.empty, Samples.samplePayment,
      pgRound_ofNat, pgFits_ofNat, creditOverflows, debitOverflows, pgRound_neg, pgFits_neg,
      pgRound_zero, pgFits_zero]
  · norm_num +decide [processWalletPayment, okEnv, Db.empty, Samples.samplePayment,
      pgRound_ofNat, pgFits_ofNat, creditOverflows, debitOverflows, pgRound_neg, pgFits_neg,
      pgRound_zero, pgFits_zero]

/-! ## Two concurrent first credits -/

open Concurrent

theorem any_false_of_filter_nil (l : List Wallet) (userId : String)
    (h : l.filter (fun w => w.user_id = userId) = []) :
    l.any (fun w => w.user_id = userId) = false := by
  rw [List.filter_eq_nil_iff] at h
  rw [List.any_eq_false]
  intro w hw
  exact h w hw

theorem solo_eq_issue (env : Env) (db : Db) (cd : CreditData) :
    (solo 7 db (Session.start env cd)).1 = (issueNGODonationCredit env db cd).1 ∧
      (solo 7 db (Session.start env cd)).2.pc
        = .done (issueNGODonationCredit env db cd).2.isSome := by
  simp only [solo, Function.iterate_succ, Function.iterate_zero, Function.comp, id]
  unfold issueNGODonationCredit getOrCreateWallet
  cases h0 : env.fails .issueBegin
  case true => simp [stepSession, Session.start, Session.fail, h0]
  case false =>
    cases h1 : env.fails .walletSelect
    case true => simp [stepSession, Session.start, Session.fail, h0, h1]
    case false =>
      cases h3 : env.fails .transactionInsert
      case true =>
        rcases hrows : db.wallets.filter (fun w => w.user_id = cd.userId) with _ | ⟨row, rest⟩
        · have hany := any_false_of_filter_nil _ _ hrows
          cases h2 : env.fails .walletInsert <;>
            simp [stepSession, Session.start, Session.fail, h0, h1, h2, h3, hrows, hany]
        · simp [stepSession, Session.start, Session.fail, h0, h1, h3, hrows]
      case false =>
        cases hdup : db.wallet_transactions.any
          (fun t => t.transaction_id = generateTransactionId env "NGO" cd.userId)
        case true =>
          rcases hrows : db.wallets.filter (fun w => w.user_id = cd.userId) with _ | ⟨row, rest⟩
          · have hany := any_false_of_filter_nil _ _ hrows
            cases h2 : env.fails .walletInsert <;>
              simp [stepSession, Session.start, Session.fail, h0, h1, h2, h3, hrows, hany, hdup]
          · simp [stepSession, Session.start, Session.fail, h0, h1, h3, hrows, hdup]
        case false =>
          cases hfit : pgFits 10 2 cd.creditAmount
          case false =>
            rcases hrows : db.wallets.filter (fun w => w.user_id = cd.userId) with _ | ⟨row, rest⟩
            · have hany := any_false_of_filter_nil _ _ hrows
              cases h2 : env.fails .walletInsert <;>
                simp [stepSession, Session.start, Session.fail, h0, h1, h2, h3, hrows, hany, hdup,
                  hfit]
            · simp [stepSession, Session.start, Session.fail, h0, h1, h3, hrows, hdup, hfit]
          case true =>
            have hm := map_complete_append db.wallet_transactions
              { transaction_id := generateTransactionId env "NGO" cd.userId
                user_id := cd.userId
                type := .ngo_donation_credit
                amount := pgRound 2 cd.creditAmount
                status := .pending
                description := cd.description.getD "Credit for donating return to NGO"
                order_id := cd.orderId
                return_id := cd.returnId
                ngo_id := cd.ngoId } hdup
            simp only [] at hm
            rcases hrows : db.wallets.filter (fun w => w.user_id = cd.userId) with _ | ⟨row, rest⟩
            · have hany := any_false_of_filter_nil _ _ hrows
              cases h2 : env.fails .walletInsert
              case true =>
                simp [stepSession, Session.start, Session.fail, h0, h1, h2, h3, hrows, hany, hdup,
                  hfit]
              case false =>
                cases hov : creditOverflows
                    (db.wallets ++ [⟨cd.userId, 0, 0, 0⟩]) cd.userId cd.creditAmount
                case true =>
                  simp [stepSession, Session.start, Session.fail, h0, h1, h2, h3, hrows, hany,
                    hdup, hfit, hov]
                case false =>
                  cases h4 : env.fails .walletCreditUpdate <;>
                    cases h5 : env.fails .transactionComplete <;>
                    cases h6 : env.fails .issueCommit <;>
                    simp [stepSession, Session.start, Session.fail, h0, h1, h2, h3, h4, h5, h6,
                      hrows, hany, hdup, hm, creditRow, hfit, hov]
            · cases hov : creditOverflows db.wallets cd.userId cd.creditAmount
              case true =>
                simp [stepSession, Session.start, Session.fail, h0, h1, h3, hrows,
                  hdup, hfit, hov]
              case false =>
                cases h4 : env.fails .walletCreditUpdate <;>
                  cases h5 : env.fails .transactionComplete <;> cases h6 : env.fails .issueCommit <;>
                  simp [stepSession, Session.start, Session.fail, h0, h1, h3, h4, h5, h6, hrows,
                    hdup, hm, creditRow, hfit, hov]

theorem oneAfterTheOther_result :
    (interleave fiftyAndSeventyFive oneAfterTheOther).finished = true ∧
      (interleave fiftyAndSeventyFive oneAfterTheOther).db.wallets = [⟨"u1", 125, 125, 0⟩] ∧
      (interleave fiftyAndSeventyFive oneAfterTheOther).first.pc = .done true ∧
      (interleave fiftyAndSeventyFive oneAfterTheOther).second.pc = .done true := by
  norm_num +decide [interleave, State.step, stepSession, blocked, fiftyAndSeventyFive,
    oneAfterTheOther, Session.start, Session.fail, State.finished, okEnv, Db.empty, creditRow,
    List.replicate, creditOverflows, pgRound_ofNat, pgFits_ofNat]

theorem stepSession_one_row (db : Db) (s : Session) (u : String)
    (h : (walletRows db u).length ≤ 1) :
    (walletRows (stepSession db s).1 u).length ≤ 1 := by
  unfold stepSession
  rcases hpc : s.pc with _ | _ | _ | _ | _ | _ | _ | b
  · simp only []
    split <;> exact h
  · simp only []
    split
    · exact h
    · split <;> exact h
  · simp only []
    split
    · exact h
    · rename_i hins
      simp only [Bool.or_eq_true, not_or, Bool.not_eq_true] at hins
      have hnone : db.wallets.filter (fun w => w.user_id = s.creditData.userId) = [] := by
        rw [List.filter_eq_nil_iff]
        intro w hw
        have := List.any_eq_false.1 hins.2 w hw
        simpa using this
      by_cases hu : s.creditData.userId = u
      · subst hu
        simp only [walletRows, List.filter_append, hnone]
        simp
      · simp only [walletRows, List.filter_append]
        have : ([⟨s.creditData.userId, 0, 0, 0⟩] : List Wallet).filter
            (fun w => w.user_id = u) = [] := by
          simp [hu]
        rw [this, List.append_nil]
        exact h
  · simp only []
    split <;> exact h
  · simp only []
    split <;> exact h
  · simp only []
    split <;> exact h
  · simp only []
    split
    · exact h
    · by_cases hc : s.credited = true
      · simp only [hc, if_true, walletRows]
        rw [filter_map_user (creditRow_user_id _ _), List.length_map]
        exact h
      · simp only [hc, walletRows]
        exact h
  · exact h

theorem interleave_one_row (schedule : List Turn) (st : State) (u : String)
    (h : (walletRows st.db u).length ≤ 1) :
    (walletRows (interleave st schedule).db u).length ≤ 1 := by
  induction schedule generalizing st with
  | nil => exact h
  | cons t ts ih =>
    apply ih
    cases t with
    | first =>
      simp only [State.step]
      split
      · exact h
      · exact stepSession_one_row st.db st.first u h
    | second =>
      simp only [State.step]
      split
      · exact h
      · exact stepSession_one_row st.db st.second u h

theorem fiftyAndSeventyFive_one_row (schedule : List Turn) :
    (walletRows (interleave fiftyAndSeventyFive schedule).db "u1").length ≤ 1 :=
  interleave_one_row schedule fiftyAndSeventyFive "u1" (Nat.zero_le 1)

/-- C23: when both calls read the wallet table before either inserts the
wallet row, the second insert violates the unique user_id, that call rolls
back and reports a failure, and the run ends with one wallet row of balance 50
and only the first credit in the log, not with balance 125. -/
theorem concurrent_first_credits_lose_one :
    (interleave fiftyAndSeventyFive bothSelectFirst).finished = true ∧
      (interleave fiftyAndSeventyFive bothSelectFirst).db.wallets = [⟨"u1", 50, 50, 0⟩] ∧
      (interleave fiftyAndSeventyFive bothSelectFirst).db.wallet_transactions.map
          (fun t => (t.transaction_id, t.amount, t.status))
        = [("NGO_U1_1000_aaaaaa", 50, .completed)] ∧
      (interleave fiftyAndSeventyFive bothSelectFirst).first.pc = .done true ∧
      (interleave fiftyAndSeventyFive bothSelectFirst).second.pc = .done false ∧
      balanceOf (interleave fiftyAndSeventyFive bothSelectFirst).db "u1" ≠ 125 := by
  have h : (interleave fiftyAndSeventyFive bothSelectFirst).db.wallets
      = [⟨"u1", 50, 50, 0⟩] := by
    norm_num +decide [interleave, State.step, stepSession, blocked, fiftyAndSeventyFive,
      bothSelectFirst, Session.start, Session.fail, okEnv, Db.empty, creditRow,
      creditOverflows, pgRound_ofNat, pgFits_ofNat]
  refine ⟨?_, h, ?_, ?_, ?_, ?_⟩
  · norm_num +decide [interleave, State.step, stepSession, blocked, fiftyAndSeventyFive,
      bothSelectFirst, Session.start, Session.fail, State.finished, okEnv, Db.empty, creditRow,
      creditOverflows, pgRound_ofNat, pgFits_ofNat]
  · norm_num +decide [interleave, State.step, stepSession, blocked, fiftyAndSeventyFive,
      bothSelectFirst, Session.start, Session.fail, okEnv, Db.empty, creditRow,
      creditOverflows, pgRound_ofNat, pgFits_ofNat]
  · norm_num +decide [interleave, State.step, stepSession, blocked, fiftyAndSeventyFive,
      bothSelectFirst, Session.start, Session.fail, okEnv, Db.empty, creditRow,
      creditOverflows, pgRound_ofNat, pgFits_ofNat]
  · norm_num +decide [interleave, State.step, stepSession, blocked, fiftyAndSeventyFive,
      bothSelectFirst, Session.start, Session.fail, okEnv, Db.empty, creditRow,
      creditOverflows, pgRound_ofNat, pgFits_ofNat]
  · simp only [balanceOf, walletRows, h]
    simp +decide

/-! ## The first monthly summary row -/

theorem details_100_electronics (r t : String) :
    (creditDetailsFor defaultConfig 100 .electronics 50 r t).costSharing.sellerAmount = 22.75 ∧
      (creditDetailsFor defaultConfig 100 .electronics 50 r t).costSharing.meeshoAmount = 12.25 ∧
      (creditDetailsFor defaultConfig 100 .electronics 50 r t).sellerBenefit.savings = 53.05 ∧
      (creditDetailsFor defaultConfig 100 .electronics 50 r t).avoidedCosts.total = 75.8 := by
  rw [creditDetailsFor_sellerAmount, creditDetailsFor_meeshoAmount, creditDetailsFor_savings,
    creditDetailsFor_total, final_100_electronics, total_100_electronics]
  simp only [defaultConfig]
  refine ⟨?_, ?_, ?_, ?_⟩
  · rw [round2_eq_of 2275 (by norm_num) (by norm_num)]; norm_num
  · rw [round2_eq_of 1225 (by norm_num) (by norm_num)]; norm_num
  · rw [round2_eq_of 5305 (by norm_num) (by norm_num)]; norm_num
  · norm_num

theorem updateMonthlySummary_first (env : Env) (db : Db) (details : CreditDetails)
    (category : Option String) (hs : env.fails .summarySelect = false)
    (hu : env.fails .summaryUpsert = false)
    (hnew : db.ngo_credit_financial_summary.filter (fun r => r.month_year = env.monthYear) = []) :
    ∃ row : MonthlySummary,
      (updateMonthlySummary env db details category).ngo_credit_financial_summary
        = db.ngo_credit_financial_summary ++ [row] ∧
      row.month_year = env.monthYear ∧ row.total_transactions = 1 ∧
      row.total_credits_issued = details.buyerCredit ∧
      row.total_seller_savings = details.sellerBenefit.savings ∧
      row.average_credit_amount = 0 ∧ row.average_seller_savings = 0 ∧
      row.cost_efficiency_ratio = 0 := by
  simp only [updateMonthlySummary, hs, hu, hnew, Bool.false_eq_true, if_false]
  exact ⟨_, rfl, rfl, rfl, rfl, rfl, rfl, rfl, rfl⟩

theorem updateMonthlySummary_later (env : Env) (db : Db) (details : CreditDetails)
    (category : Option String) (old : MonthlySummary) (rest : List MonthlySummary)
    (hs : env.fails .summarySelect = false) (hu : env.fails .summaryUpsert = false)
    (hold : db.ngo_credit_financial_summary.filter (fun r => r.month_year = env.monthYear)
      = old :: rest)
    (hdiv : ¬ (old.total_seller_costs + old.total_meesho_costs
      + details.costSharing.sellerAmount + details.costSharing.meeshoAmount = 0
      ∨ old.total_transactions + 1 = 0)) :
    ∀ row ∈ (updateMonthlySummary env db details category).ngo_credit_financial_summary,
      row.month_year = env.monthYear →
        ∃ before ∈ db.ngo_credit_financial_summary,
          before.month_year = env.monthYear ∧
          row.total_transactions = before.total_transactions + 1 ∧
          row.total_credits_issued = before.total_credits_issued + details.buyerCredit ∧
          row.total_seller_savings
            = before.total_seller_savings + details.sellerBenefit.savings ∧
          row.average_credit_amount = row.total_credits_issued / row.total_transactions ∧
          row.average_seller_savings = row.total_seller_savings / row.total_transactions := by
  intro row hrow hmonth
  simp only [updateMonthlySummary, hs, hu, hold, Bool.false_eq_true, if_false, if_neg hdiv,
    List.mem_map] at hrow
  obtain ⟨before, hb, rfl⟩ := hrow
  by_cases hm : before.month_year = env.monthYear
  · simp only [if_pos hm]
    refine ⟨before, hb, hm, rfl, rfl, rfl, ?_, ?_⟩ <;> push_cast <;> rfl
  · simp only [if_neg hm] at hmonth
    exact absurd hmonth hm

/-- C24: the first updateMonthlySummary of a month inserts a row with
total_transactions 1 and the sums of the donation, and leaves both averages at
their column default 0 (here total_credits_issued / total_transactions is 35
and total_seller_savings / total_transactions is 53.05); the second call of the
month takes the conflict branch and recomputes them. -/
theorem first_summary_of_month_has_zero_averages :
    (updateMonthlySummary (okEnv 1 "AAAAAA") Db.empty
        (creditDetailsFor defaultConfig 100 .electronics 50 "ngo_donation" "t")
        (some "Electronics")).ngo_credit_financial_summary.map
        (fun r => (r.month_year, r.total_transactions, r.total_credits_issued,
          r.total_seller_savings, r.average_credit_amount, r.average_seller_savings))
      = [("2024-01", 1, 35, 53.05, 0, 0)] ∧
    (updateMonthlySummary (okEnv 2 "BBBBBB")
        (updateMonthlySummary (okEnv 1 "AAAAAA") Db.empty
          (creditDetailsFor defaultConfig 100 .electronics 50 "ngo_donation" "t")
          (some "Electronics"))
        (creditDetailsFor defaultConfig 100 .electronics 50 "ngo_donation" "t")
        (some "Electronics")).ngo_credit_financial_summary.map
        (fun r => (r.month_year, r.total_transactions, r.total_credits_issued,
          r.total_seller_savings, r.average_credit_amount, r.average_seller_savings))
      = [("2024-01", 2, 70, 106.1, 35, 53.05)] := by
  obtain ⟨h1, h2, h3, h4⟩ := details_100_electronics "ngo_donation" "t"
  have h5 := buyerCredit_100_electronics "ngo_donation" "t"
  constructor
  · simp +decide [updateMonthlySummary, okEnv, Db.empty, h3, h5]
  · simp +decide [updateMonthlySummary, okEnv, Db.empty, h1, h2, h3, h4, h5]
    norm_num

/-! ## Category keys -/

theorem includes_iff_infix (l sub : List Char) : includes l sub = true ↔ sub <:+: l := by
  induction l with
  | nil => simp [includes]
  | cons c cs ih =>
    rw [includes, Bool.or_eq_true, ih, List.infix_cons_iff, List.isPrefixOf_iff_prefix]

/-- C25: getCategoryKey gives every category the key the specification
describes: default for a missing or empty text, otherwise the first of fashion
(fashion, clothing, apparel), electronics (electronics, mobile, laptop),
homeKitchen (home, kitchen, furniture) and beauty (beauty, cosmetics, skincare)
one of whose keywords the lower-cased text contains, and default when it
contains none. -/
theorem getCategoryKey_spec (category : Option String) :
    getCategoryKey category = SpecCategory.categoryOf category := by
  cases category with
  | none => rfl
  | some text =>
    by_cases h : text = ""
    · subst h
      rfl
    · have h2 : text.isEmpty = false := by
        rw [Bool.eq_false_iff]
        intro hh
        exact h ((String.isEmpty_iff text).1 hh)
      simp only [getCategoryKey, SpecCategory.categoryOf, SpecCategory.mentions, h2, h,
        if_false, Bool.or_eq_true, includes_iff_infix, Bool.false_eq_true, or_assoc]

theorem getCategoryKey_examples :
    getCategoryKey (some "Women FASHION") = .fashion ∧
      getCategoryKey (some "Home Fashion") = .fashion ∧
      getCategoryKey (some "Mobile Accessories") = .electronics ∧
      getCategoryKey (some "Home & Kitchen") = .homeKitchen ∧
      getCategoryKey (some "Skincare") = .beauty ∧
      getCategoryKey (some "Books") = .default ∧
      getCategoryKey (some "") = .default ∧
      getCategoryKey none = .default ∧
      getCategoryKey (some (String.mk [Char.ofNat 8490, 'I', 'T', 'C', 'H', 'E', 'N']))
        = .homeKitchen ∧
      getCategoryKey (some (String.mk ['F', 'A', 'S', 'H', Char.ofNat 304, 'O', 'N']))
        = .default := by
  decide

/-! ## Distances -/

theorem calculateDistance_missing (address : Option String) :
    calculateDistance none address = 500 ∧ calculateDistance address none = 500 ∧
      calculateDistance (some "") address = 500 ∧ calculateDistance address (some "") = 500 := by
  refine ⟨rfl, ?_, rfl, ?_⟩
  · cases address <;> simp [calculateDistance]
  · cases address <;> simp +decide [calculateDistance]

theorem calculateDistance_of_cities (a b : String) (ha : a.isEmpty = false)
    (hb : b.isEmpty = false) :
    calculateDistance (some a) (some b)
      = if extractCity (some a) = extractCity (some b) then 50
        else
          match cityDistances.lookup
            (if extractCity (some b) < extractCity (some a) then
              extractCity (some b) ++ "-" ++ extractCity (some a)
            else extractCity (some a) ++ "-" ++ extractCity (some b)) with
          | some d => jsOr d 750
          | none => 750 := by
  simp only [calculateDistance, ha, hb, Bool.or_self, Bool.false_eq_true, if_false]
  by_cases h : extractCity (some a) = extractCity (some b)
  · simp only [if_pos h]
    decide
  · simp only [if_neg h]

theorem calculateDistance_listed (a b : String) (ha : a.isEmpty = false)
    (hb : b.isEmpty = false) :
    (extractCity (some a) = extractCity (some b) → calculateDistance (some a) (some b) = 50) ∧
    (extractCity (some a) = "bangalore" → extractCity (some b) = "mumbai" →
      calculateDistance (some a) (some b) = 980 ∧ calculateDistance (some b) (some a) = 980) ∧
    (extractCity (some a) = "bangalore" → extractCity (some b) = "delhi" →
      calculateDistance (some a) (some b) = 2150 ∧ calculateDistance (some b) (some a) = 2150) ∧
    (extractCity (some a) = "bangalore" → extractCity (some b) = "chennai" →
      calculateDistance (some a) (some b) = 350 ∧ calculateDistance (some b) (some a) = 350) ∧
    (extractCity (some a) = "mumbai" → extractCity (some b) = "pune" →
      calculateDistance (some a) (some b) = 150 ∧ calculateDistance (some b) (some a) = 150) ∧
    (extractCity (some a) = "delhi" → extractCity (some b) = "gurgaon" →
      calculateDistance (some a) (some b) = 30 ∧ calculateDistance (some b) (some a) = 30) ∧
    (extractCity (some a) = "bangalore" → extractCity (some b) = "hyderabad" →
      calculateDistance (some a) (some b) = 570 ∧ calculateDistance (some b) (some a) = 570) ∧
    (extractCity (some a) = "mumbai" → extractCity (some b) = "delhi" →
      calculateDistance (some a) (some b) = 750 ∧ calculateDistance (some b) (some a) = 750) ∧
    (extractCity (some a) = "unknown" → extractCity (some b) = "unknown" →
      calculateDistance (some a) (some b) = 50) := by
  rw [calculateDistance_of_cities a b ha hb, calculateDistance_of_cities b a hb ha]
  refine ⟨fun h => by rw [if_pos h], ?_, ?_, ?_, ?_, ?_, ?_, ?_, ?_⟩ <;>
    (intro h1 h2; rw [h1, h2]; simp only [String.lt_iff_toList_lt]; decide)

/-- C26: the addresses Mumbai and New Delhi, in either order, get the default
750 although the table lists 1400 for that pair, and two addresses in different
cities the code does not recognise get the same-city distance 50; the other
listed pairs get their table distance. -/
theorem calculateDistance_mumbai_delhi :
    calculateDistance (some "Andheri East, Mumbai") (some "Connaught Place, New Delhi") = 750 ∧
      calculateDistance (some "Connaught Place, New Delhi") (some "Andheri East, Mumbai") = 750 ∧
      cityDistances.lookup "mumbai-delhi" = some 1400 ∧
      cityDistances.lookup "delhi-mumbai" = none ∧
      calculateDistance (some "MG Road, Jaipur") (some "Marine Drive, Kochi") = 50 ∧
      extractCity (some "MG Road, Jaipur") = "unknown" ∧
      extractCity (some "Marine Drive, Kochi") = "unknown" ∧
      calculateDistance (some "Koramangala, Bangalore") (some "Andheri East, Mumbai") = 980 ∧
      calculateDistance (some "Andheri East, Mumbai") (some "Koramangala, Bangalore") = 980 ∧
      calculateDistance (some "MG Road, Jaipur") (some "Andheri East, Mumbai") = 750 := by
  simp only [calculateDistance, String.lt_iff_toList_lt]
  decide

/-! ## The flash sale discount -/

theorem discount_of_price (p : ℚ) (h : 100 ≤ p) :
    jsRound (((p - jsRound (p * 0.6)) / p) * 100) = 40 := by
  have hp : 0 < p := by linarith
  have h1 : ((jsRound (p * 0.6) : ℤ) : ℚ) ≤ p * 0.6 + 1 / 2 := Int.floor_le _
  have h2 : p * 0.6 + 1 / 2 < (jsRound (p * 0.6) : ℤ) + 1 := Int.lt_floor_add_one _
  refine jsRound_eq_of ?_ ?_
  · rw [div_mul_eq_mul_div, ← sub_nonneg]
    have : (p - (jsRound (p * 0.6) : ℤ)) * 100 / p + 1 / 2 - ((40 : ℤ) : ℚ)
        = ((p - (jsRound (p * 0.6) : ℤ)) * 100 - 79 / 2 * p) / p := by
      field_simp; ring
    rw [this]
    apply div_nonneg _ hp.le
    norm_num at h1 ⊢
    linarith
  · rw [div_mul_eq_mul_div, ← sub_pos]
    have : ((40 : ℤ) : ℚ) + 1 - ((p - (jsRound (p * 0.6) : ℤ)) * 100 / p + 1 / 2)
        = (81 / 2 * p - (p - (jsRound (p * 0.6) : ℤ)) * 100) / p := by
      field_simp; ring
    rw [this]
    apply div_pos _ hp
    norm_num at h2 ⊢
    linarith

/-- C27: every decision routed to the flash sale has an original price above
1000 and reports the discount 40. -/
theorem flashSale_discount (env : DecisionEnv) (itemData : ItemData)
    (customerData : CustomerData)
    (h : (makeReturnDecision env itemData customerData).pathway = "FLASH_SALE") :
    itemData.originalPrice > 1000 ∧
      (makeReturnDecision env itemData customerData).discount = some 40 := by
  rcases pathway_cases env itemData customerData with h1 | h1 | h1
  · rw [h1.2] at h; exact absurd h (by decide)
  · refine ⟨h1.1, ?_⟩
    rw [makeReturnDecision_flash env itemData customerData ⟨h1.1, h1.2.1⟩]
    show some (jsRound _) = some 40
    rw [discount_of_price _ (by linarith [h1.1])]
  · rw [h1.2.2] at h; exact absurd h (by decide)

theorem flashSale_discount_witness :
    (Samples.fashionItem 1499).originalPrice > 1000 ∧
      (makeReturnDecision Samples.sampleDecisionEnv (Samples.fashionItem 1499)
        Samples.sampleCustomer).discount = some 40 :=
  flashSale_discount Samples.sampleDecisionEnv (Samples.fashionItem 1499) Samples.sampleCustomer
    (by rw [makeReturnDecision_flash _ _ _ ⟨by norm_num [Samples.fashionItem, Samples.sampleItem], rfl⟩])

/-! ## Validation of calculated credits -/

theorem validateCreditAmount_iff (a : ℚ) :
    validateCreditAmount a = true ↔ 0 < a ∧ a ≤ 5000 := by
  unfold validateCreditAmount
  by_cases h1 : a ≤ 0
  · simp only [if_pos h1]
    constructor
    · intro h; exact absurd h (by decide)
    · intro h; linarith [h.1]
  · by_cases h2 : a > 5000
    · simp only [if_neg h1, if_pos h2]
      constructor
      · intro h; exact absurd h (by decide)
      · intro h; linarith [h.2]
    · simp only [if_neg h1, if_neg h2]
      exact ⟨fun _ => ⟨lt_of_not_le h1, le_of_not_lt h2⟩, fun _ => trivial⟩

theorem round2_2000 : round2 2000 = 2000 := by
  have h := round2_intCast_div 200000
  norm_num at h
  exact h

theorem default_buyerCredit_range (p : ℚ) (c : CategoryKey) (d : ℚ) (r t : String) :
    25 ≤ (creditDetailsFor defaultConfig p c d r t).buyerCredit ∧
      (creditDetailsFor defaultConfig p c d r t).buyerCredit ≤ 2000 := by
  rw [creditDetailsFor_buyerCredit]
  constructor
  · have h : (25 : ℚ) ≤ finalBuyerCredit defaultConfig p c d := le_max_right _ _
    have h2 := round2_mono h
    rwa [round2_25] at h2
  · have h : finalBuyerCredit defaultConfig p c d ≤ 2000 := by
      apply max_le
      · exact min_le_right _ _
      · show (25 : ℚ) ≤ 2000
        norm_num
    have h2 := round2_mono h
    rwa [round2_2000] at h2

/-- C28: with the default configuration every credit that calculateInstantCredit
produces lies between 25 and 2000, validateCreditAmount accepts exactly the
amounts above 0 and up to 5000, and so it accepts every such credit: the
validation step of processNGODonationCredit does not reject it. -/
theorem calculated_credit_is_valid (product : Option Product)
    (orderDetails : Option OrderDetails) (returnReason calculatedAt : String)
    (details : CreditDetails)
    (h : calculateInstantCredit defaultConfig product orderDetails returnReason calculatedAt
      = some details) :
    25 ≤ details.buyerCredit ∧ details.buyerCredit ≤ 2000 ∧
      (∀ a : ℚ, validateCreditAmount a = true ↔ 0 < a ∧ a ≤ 5000) ∧
      validateCreditAmount details.buyerCredit = true ∧
      (!validateCreditAmount details.buyerCredit) = false := by
  cases product with
  | none => exact absurd h (by simp [calculateInstantCredit])
  | some product =>
    cases orderDetails with
    | none => exact absurd h (by simp [calculateInstantCredit])
    | some orderDetails =>
      rw [calculateInstantCredit_some] at h
      have hd := Option.some.inj h
      have hr := default_buyerCredit_range product.price (getCategoryKey product.category)
        (calculateDistance orderDetails.deliveryAddress orderDetails.sellerLocation)
        returnReason calculatedAt
      rw [hd] at hr
      have hv : validateCreditAmount details.buyerCredit = true :=
        (validateCreditAmount_iff _).2 ⟨by linarith [hr.1], by linarith [hr.2]⟩
      exact ⟨hr.1, hr.2, validateCreditAmount_iff, hv, by rw [hv]; rfl⟩

theorem calculated_credit_is_valid_witness :
    25 ≤ (creditDetailsFor defaultConfig 299 .fashion 50 "ngo_donation" "t").buyerCredit ∧
      (creditDetailsFor defaultConfig 299 .fashion 50 "ngo_donation" "t").buyerCredit ≤ 2000 ∧
      (∀ a : ℚ, validateCreditAmount a = true ↔ 0 < a ∧ a ≤ 5000) ∧
      validateCreditAmount
        (creditDetailsFor defaultConfig 299 .fashion 50 "ngo_donation" "t").buyerCredit = true ∧
      (!validateCreditAmount
        (creditDetailsFor defaultConfig 299 .fashion 50 "ngo_donation" "t").buyerCredit) = false :=
  calculated_credit_is_valid (some Samples.kurti) (some Samples.sameCity) "ngo_donation" "t" _
    (by rw [calculateInstantCredit_some, kurti_category, sameCity_distance]; rfl)

/-! ## Seller savings -/

theorem total_30_fashion : (calculateAvoidedCosts defaultConfig 30 .fashion 50).total = 72 / 5 := by
  simp only [calculateAvoidedCosts, defaultConfig, jsOr, jsCeil_half]
  rw [round2_eq_of 1440 (by norm_num) (by norm_num)]
  norm_num

theorem capped_30_fashion : cappedCredit defaultConfig 30 .fashion 50 = 216 / 25 := by
  simp only [cappedCredit, rawBuyerCredit, total_30_fashion]
  norm_num [defaultConfig]

theorem final_30_fashion : finalBuyerCredit defaultConfig 30 .fashion 50 = 25 := by
  simp only [finalBuyerCredit, capped_30_fashion]
  norm_num [defaultConfig]

theorem savings_30_fashion (r t : String) :
    (creditDetailsFor defaultConfig 30 .fashion 50 r t).sellerBenefit.savings = -1.85 := by
  rw [creditDetailsFor_savings, final_30_fashion, total_30_fashion]
  simp only [defaultConfig]
  rw [round2_eq_of (-185) (by norm_num) (by norm_num)]
  norm_num

theorem round2_zero : round2 0 = 0 := by
  have h := round2_intCast_div 0
  norm_num at h
  exact h

theorem sellerAmount_le_total (cfg : Config) (p : ℚ) (c : CategoryKey) (d : ℚ)
    (hsign : (0 ≤ (calculateAvoidedCosts cfg p c d).total ∧ 0 ≤ cfg.costSharingConfig.seller) ∨
      (0 ≤ cfg.creditConfig.minCreditAmount ∧ 0 < cfg.creditConfig.buyerCreditPercentage))
    (hpct : cfg.creditConfig.buyerCreditPercentage ≤ 100)
    (hseller : cfg.costSharingConfig.seller ≤ 100)
    (hfloor : cfg.creditConfig.minCreditAmount ≤ cappedCredit cfg p c d) :
    finalBuyerCredit cfg p c d * cfg.costSharingConfig.seller / 100
      ≤ (calculateAvoidedCosts cfg p c d).total := by
  have hfinal : finalBuyerCredit cfg p c d = cappedCredit cfg p c d := max_eq_left hfloor
  have hcap : cappedCredit cfg p c d ≤ rawBuyerCredit cfg p c d :=
    le_trans (min_le_left _ _) (min_le_left _ _)
  unfold rawBuyerCredit at hcap
  rw [hfinal]
  have key : 0 ≤ (calculateAvoidedCosts cfg p c d).total ∧
      (0 ≤ cappedCredit cfg p c d ∨ 0 ≤ cfg.costSharingConfig.seller) := by
    rcases hsign with h | h
    · exact ⟨h.1, Or.inr h.2⟩
    · have hcap0 : 0 ≤ cappedCredit cfg p c d := le_trans h.1 hfloor
      refine ⟨?_, Or.inl hcap0⟩
      by_contra hneg
      push_neg at hneg
      have := mul_neg_of_neg_of_pos hneg h.2
      linarith
  obtain ⟨htotal, hcase⟩ := key
  have h1 : (calculateAvoidedCosts cfg p c d).total * cfg.creditConfig.buyerCreditPercentage
      ≤ (calculateAvoidedCosts cfg p c d).total * 100 :=
    mul_le_mul_of_nonneg_left hpct htotal
  by_cases h0 : 0 ≤ cappedCredit cfg p c d
  · have h2 : cappedCredit cfg p c d * cfg.costSharingConfig.seller
        ≤ cappedCredit cfg p c d * 100 :=
      mul_le_mul_of_nonneg_left hseller h0
    linarith
  · have hs : 0 ≤ cfg.costSharingConfig.seller := by
      rcases hcase with h | h
      · exact absurd h h0
      · exact h
    have h2 : cappedCredit cfg p c d * cfg.costSharingConfig.seller ≤ 0 :=
      mul_nonpos_of_nonpos_of_nonneg (le_of_lt (lt_of_not_le h0)) hs
    linarith

/-- C29: when the floor is not binding (the capped credit is at least
minCreditAmount) and the buyer percentage and the seller percentage are at most
100, the seller amount is at most the total avoided cost, both before and after
rounding, and the reported savings are not negative. The signs are those of a
valid input (total avoided cost and seller percentage not negative) or of a
sound configuration (floor not negative, buyer percentage positive). When the
floor is binding the savings can be negative, as for a fashion product of
price 30. -/
theorem seller_savings_nonneg (cfg : Config) (p : ℚ) (c : CategoryKey) (d : ℚ)
    (r t : String)
    (hsign : (0 ≤ (calculateAvoidedCosts cfg p c d).total ∧ 0 ≤ cfg.costSharingConfig.seller) ∨
      (0 ≤ cfg.creditConfig.minCreditAmount ∧ 0 < cfg.creditConfig.buyerCreditPercentage))
    (hpct : cfg.creditConfig.buyerCreditPercentage ≤ 100)
    (hseller : cfg.costSharingConfig.seller ≤ 100)
    (hfloor : cfg.creditConfig.minCreditAmount ≤ cappedCredit cfg p c d) :
    (calculateCostSharing cfg (finalBuyerCredit cfg p c d)).sellerAmount
        ≤ (calculateAvoidedCosts cfg p c d).total ∧
      (creditDetailsFor cfg p c d r t).costSharing.sellerAmount
        ≤ (creditDetailsFor cfg p c d r t).avoidedCosts.total ∧
      0 ≤ (creditDetailsFor cfg p c d r t).sellerBenefit.savings ∧
      (cappedCredit defaultConfig 30 .fashion 50 < defaultConfig.creditConfig.minCreditAmount ∧
        (creditDetailsFor defaultConfig 30 .fashion 50 r t).sellerBenefit.savings < 0) := by
  have h := sellerAmount_le_total cfg p c d hsign hpct hseller hfloor
  refine ⟨h, ?_, ?_, ?_, ?_⟩
  · rw [creditDetailsFor_sellerAmount, creditDetailsFor_total]
    have h2 := round2_mono h
    rwa [calculateAvoidedCosts_total, round2_round2, ← calculateAvoidedCosts_total] at h2
  · rw [creditDetailsFor_savings]
    have h2 := round2_mono (sub_nonneg.2 h)
    rwa [round2_zero] at h2
  · rw [capped_30_fashion]
    norm_num [defaultConfig]
  · rw [savings_30_fashion]
    norm_num

theorem seller_savings_nonneg_witness :
    (creditDetailsFor defaultConfig 299 .fashion 50 "ngo_donation" "t").costSharing.sellerAmount
        ≤ (creditDetailsFor defaultConfig 299 .fashion 50 "ngo_donation" "t").avoidedCosts.total ∧
      0 ≤ (creditDetailsFor defaultConfig 299 .fashion 50 "ngo_donation"
        "t").sellerBenefit.savings :=
  ⟨(seller_savings_nonneg defaultConfig 299 .fashion 50 "ngo_donation" "t"
      (Or.inr (by norm_num [defaultConfig])) (by norm_num [defaultConfig])
      (by norm_num [defaultConfig])
      (by
        simp only [cappedCredit, rawBuyerCredit, avoidedCosts_299_fashion]
        norm_num [defaultConfig])).2.1,
   (seller_savings_nonneg defaultConfig 299 .fashion 50 "ngo_donation" "t"
      (Or.inr (by norm_num [defaultConfig])) (by norm_num [defaultConfig])
      (by norm_num [defaultConfig])
      (by
        simp only [cappedCredit, rawBuyerCredit, avoidedCosts_299_fashion]
        norm_num [defaultConfig])).2.2.1⟩

/-! ## Balance, credits earned and spending -/

theorem uniform_withWallet (P : ℚ → ℚ → ℚ → Prop) (h0 : P 0 0 0) (db : Db) (u v : String)
    (b e s : ℚ) (hb : P b e s)
    (h : ∀ w ∈ db.wallets, w.user_id = u →
      w.balance = b ∧ w.total_credits_earned = e ∧ w.total_spent = s) :
    ∃ b1 e1 s1 : ℚ, P b1 e1 s1 ∧
      ∀ w ∈ (withWallet db v).wallets, w.user_id = u →
        w.balance = b1 ∧ w.total_credits_earned = e1 ∧ w.total_spent = s1 := by
  by_cases hv : v = u
  · subst hv
    by_cases hrows : walletRows db v = []
    · refine ⟨0, 0, 0, h0, ?_⟩
      intro w hw hwu
      rcases mem_withWallet db v w hw with h1 | h1
      · have : w ∈ walletRows db v := by
          simp only [walletRows, List.mem_filter]
          exact ⟨h1, by simpa using hwu⟩
        rw [hrows] at this
        exact absurd this (List.not_mem_nil _)
      · rw [h1.2]
        exact ⟨rfl, rfl, rfl⟩
    · refine ⟨b, e, s, hb, ?_⟩
      intro w hw hwu
      rcases mem_withWallet db v w hw with h1 | h1
      · exact h w h1 hwu
      · exact absurd h1.1 hrows
  · refine ⟨b, e, s, hb, ?_⟩
    intro w hw hwu
    rcases mem_withWallet db v w hw with h1 | h1
    · exact h w h1 hwu
    · rw [h1.2] at hwu
      exact absurd hwu hv

/-- A fresh zero row satisfies what the ledger keeps for one user: a balance that
is not negative and, when every amount passed for the user has at most two
decimals (`twoDecimals`), equal to the credits earned minus the amount spent, all
three with two decimals. -/
theorem uniform_zero (twoDecimals : Prop) :
    (0 : ℚ) ≤ 0 ∧ (twoDecimals → (0 : ℚ) = 0 - 0 ∧ pgRound 2 (0 : ℚ) = 0 ∧ pgRound 2 (0 : ℚ) = 0
      ∧ pgRound 2 (0 : ℚ) = 0) :=
  ⟨le_refl _, fun _ => ⟨by norm_num, pgRound_zero 2, pgRound_zero 2, pgRound_zero 2⟩⟩

theorem uniform_step (twoDecimals : Prop) (db : Db) (u : String) (c : Call)
    (hpos : c.userId = u → 0 ≤ c.amount)
    (hdec : twoDecimals → c.userId = u → pgRound 2 c.amount = c.amount)
    (h : ∃ b e s : ℚ,
      (0 ≤ b ∧ (twoDecimals → b = e - s ∧ pgRound 2 b = b ∧ pgRound 2 e = e ∧ pgRound 2 s = s)) ∧
      ∀ w ∈ db.wallets, w.user_id = u →
        w.balance = b ∧ w.total_credits_earned = e ∧ w.total_spent = s) :
    ∃ b e s : ℚ,
      (0 ≤ b ∧ (twoDecimals → b = e - s ∧ pgRound 2 b = b ∧ pgRound 2 e = e ∧ pgRound 2 s = s)) ∧
      ∀ w ∈ (step db c).wallets, w.user_id = u →
        w.balance = b ∧ w.total_credits_earned = e ∧ w.total_spent = s := by
  obtain ⟨b, e, s, hb, hw⟩ := h
  cases c with
  | issue env cd =>
    obtain ⟨b1, e1, s1, hb1, hw1⟩ := uniform_withWallet
      (fun b e s : ℚ =>
        0 ≤ b ∧ (twoDecimals → b = e - s ∧ pgRound 2 b = b ∧ pgRound 2 e = e ∧ pgRound 2 s = s))
      (uniform_zero twoDecimals) db u cd.userId b e s hb hw
    show ∃ b e s : ℚ,
      (0 ≤ b ∧ (twoDecimals → b = e - s ∧ pgRound 2 b = b ∧ pgRound 2 e = e ∧ pgRound 2 s = s)) ∧
      ∀ w ∈ (issueNGODonationCredit env db cd).1.wallets, w.user_id = u →
        w.balance = b ∧ w.total_credits_earned = e ∧ w.total_spent = s
    rcases issue_cases env db cd with h1 | h1 | ⟨tx, _, _, _, _, _, h1⟩
    · rw [h1]; exact ⟨b, e, s, hb, hw⟩
    · rw [h1]; exact ⟨b1, e1, s1, hb1, hw1⟩
    · rw [h1]
      by_cases hv : cd.userId = u
      · have hpos1 : 0 ≤ cd.creditAmount := hpos hv
        refine ⟨pgRound 2 (b1 + cd.creditAmount), pgRound 2 (e1 + cd.creditAmount), s1,
          ⟨pgRound_nonneg 2 (by linarith [hb1.1]), fun hx => ?_⟩, ?_⟩
        · obtain ⟨hbe, hpb, hpe, hps⟩ := hb1.2 hx
          have ha : pgRound 2 cd.creditAmount = cd.creditAmount := hdec hx hv
          rw [pgRound_pgRound, pgRound_pgRound, pgRound_add_self 2 hpb ha,
            pgRound_add_self 2 hpe ha]
          exact ⟨by linarith, rfl, rfl, hps⟩
        · intro w hwm hwu
          simp only [List.mem_map] at hwm
          obtain ⟨w0, hw0, rfl⟩ := hwm
          by_cases h0 : w0.user_id = cd.userId
          · have := hw1 w0 hw0 (h0.trans hv)
            simp only [creditRow, if_pos h0]
            exact ⟨by rw [this.1], by rw [this.2.1], this.2.2⟩
          · simp only [creditRow, if_neg h0] at hwu
            exact absurd (hwu.trans hv.symm) h0
      · refine ⟨b1, e1, s1, hb1, ?_⟩
        intro w hwm hwu
        simp only [List.mem_map] at hwm
        obtain ⟨w0, hw0, rfl⟩ := hwm
        by_cases h0 : w0.user_id = cd.userId
        · simp only [creditRow, if_pos h0] at hwu
          exact absurd (h0.symm.trans hwu) hv
        · simp only [creditRow, if_neg h0] at hwu ⊢
          exact hw1 w0 hw0 hwu
  | pay env pd =>
    show ∃ b e s : ℚ,
      (0 ≤ b ∧ (twoDecimals → b = e - s ∧ pgRound 2 b = b ∧ pgRound 2 e = e ∧ pgRound 2 s = s)) ∧
      ∀ w ∈ (processWalletPayment env db pd).1.wallets, w.user_id = u →
        w.balance = b ∧ w.total_credits_earned = e ∧ w.total_spent = s
    rcases pay_cases env db pd with h1 | ⟨row, rest, tx, hrows, hle, _, _, _, _, _, h1⟩
    · rw [h1]; exact ⟨b, e, s, hb, hw⟩
    · rw [h1]
      by_cases hv : pd.userId = u
      · have hrow : row ∈ walletRows db pd.userId := by rw [hrows]; exact List.mem_cons_self _ _
        simp only [walletRows, List.mem_filter] at hrow
        have hrowb := (hw row hrow.1 ((by simpa using hrow.2 : row.user_id = pd.userId).trans hv)).1
        refine ⟨pgRound 2 (b - pd.amount), e, pgRound 2 (s + pd.amount),
          ⟨pgRound_nonneg 2 (by linarith [hle, hrowb]), fun hx => ?_⟩, ?_⟩
        · obtain ⟨hbe, hpb, hpe, hps⟩ := hb.2 hx
          have ha : pgRound 2 pd.amount = pd.amount := hdec hx hv
          rw [pgRound_pgRound, pgRound_pgRound, pgRound_sub_self 2 hpb ha,
            pgRound_add_self 2 hps ha]
          exact ⟨by linarith, rfl, hpe, rfl⟩
        · intro w hwm hwu
          simp only [List.mem_map] at hwm
          obtain ⟨w0, hw0, rfl⟩ := hwm
          by_cases h0 : w0.user_id = pd.userId
          · have := hw w0 hw0 (h0.trans hv)
            simp only [debitRow, if_pos h0]
            exact ⟨by rw [this.1], this.2.1, by rw [this.2.2]⟩
          · simp only [debitRow, if_neg h0] at hwu
            exact absurd (hwu.trans hv.symm) h0
      · refine ⟨b, e, s, hb, ?_⟩
        intro w hwm hwu
        simp only [List.mem_map] at hwm
        obtain ⟨w0, hw0, rfl⟩ := hwm
        by_cases h0 : w0.user_id = pd.userId
        · simp only [debitRow, if_pos h0] at hwu
          exact absurd (h0.symm.trans hwu) hv
        · simp only [debitRow, if_neg h0] at hwu ⊢
          exact hw w0 hw0 hwu

theorem uniform_run (twoDecimals : Prop) (calls : List Call) (db : Db) (u : String)
    (hpos : ∀ c ∈ calls, c.userId = u → 0 ≤ c.amount)
    (hdec : twoDecimals → ∀ c ∈ calls, c.userId = u → pgRound 2 c.amount = c.amount)
    (h : ∃ b e s : ℚ,
      (0 ≤ b ∧ (twoDecimals → b = e - s ∧ pgRound 2 b = b ∧ pgRound 2 e = e ∧ pgRound 2 s = s)) ∧
      ∀ w ∈ db.wallets, w.user_id = u →
        w.balance = b ∧ w.total_credits_earned = e ∧ w.total_spent = s) :
    ∃ b e s : ℚ,
      (0 ≤ b ∧ (twoDecimals → b = e - s ∧ pgRound 2 b = b ∧ pgRound 2 e = e ∧ pgRound 2 s = s)) ∧
      ∀ w ∈ (run db calls).wallets, w.user_id = u →
        w.balance = b ∧ w.total_credits_earned = e ∧ w.total_spent = s := by
  induction calls generalizing db with
  | nil => exact h
  | cons c cs ih =>
    show ∃ b e s : ℚ,
      (0 ≤ b ∧ (twoDecimals → b = e - s ∧ pgRound 2 b = b ∧ pgRound 2 e = e ∧ pgRound 2 s = s)) ∧
      ∀ w ∈ (run (step db c) cs).wallets, w.user_id = u →
        w.balance = b ∧ w.total_credits_earned = e ∧ w.total_spent = s
    exact ih (step db c) (fun c1 hc1 => hpos c1 (List.mem_cons_of_mem _ hc1))
      (fun hx c1 hc1 => hdec hx c1 (List.mem_cons_of_mem _ hc1))
      (uniform_step twoDecimals db u c (hpos c (List.mem_cons_self _ _))
        (fun hx => hdec hx c (List.mem_cons_self _ _)) h)

/-- C30 (as stated, refuted): from a fresh zero wallet row, a credit of 50
followed by a payment of 10.005 leaves balance 40.00, total_credits_earned
50.00 and total_spent 10.01, so the balance is not the credits earned minus the
amount spent (39.99). -/
theorem balance_differs_from_earned_minus_spent :
    (run { Db.empty with wallets := [⟨"u1", 0, 0, 0⟩] }
        [.issue (okEnv 1 "AAAAAA") Samples.sampleCredit,
         .pay (okEnv 2 "BBBBBB") (Samples.samplePayment 10.005)]).wallets
      = [⟨"u1", 40, 50, 10.01⟩] ∧
    (0 : ℚ) < Samples.sampleCredit.creditAmount ∧
    (0 : ℚ) < (Samples.samplePayment 10.005).amount ∧
    balanceOf
        (run { Db.empty with wallets := [⟨"u1", 0, 0, 0⟩] }
          [.issue (okEnv 1 "AAAAAA") Samples.sampleCredit,
           .pay (okEnv 2 "BBBBBB") (Samples.samplePayment 10.005)]) "u1"
      ≠ creditsEarnedOf
          (run { Db.empty with wallets := [⟨"u1", 0, 0, 0⟩] }
            [.issue (okEnv 1 "AAAAAA") Samples.sampleCredit,
             .pay (okEnv 2 "BBBBBB") (Samples.samplePayment 10.005)]) "u1"
        - totalSpentOf
          (run { Db.empty with wallets := [⟨"u1", 0, 0, 0⟩] }
            [.issue (okEnv 1 "AAAAAA") Samples.sampleCredit,
             .pay (okEnv 2 "BBBBBB") (Samples.samplePayment 10.005)]) "u1" := by
  have h : (run { Db.empty with wallets := [⟨"u1", 0, 0, 0⟩] }
        [.issue (okEnv 1 "AAAAAA") Samples.sampleCredit,
         .pay (okEnv 2 "BBBBBB") (Samples.samplePayment 10.005)]).wallets
      = [⟨"u1", 40, 50, 10.01⟩] := by
    norm_num +decide [run, step, issueNGODonationCredit, getOrCreateWallet, processWalletPayment,
      okEnv, Samples.sampleCredit, Samples.samplePayment, Db.empty, creditOverflows,
      debitOverflows, pgRound_ofNat, pgFits_ofNat, pgRound_neg, pgFits_neg, pgRound_2001_200,
      pgRound_7999_200, pgFits_2001_200, pgFits_7999_200]
  refine ⟨h, by norm_num [Samples.sampleCredit], by norm_num [Samples.samplePayment], ?_⟩
  simp only [balanceOf, creditsEarnedOf, totalSpentOf, walletRows, h]
  norm_num +decide

/-- C30 (amended): starting from a database in which every wallet row of the
user is a fresh zero row (or the user has none), after any sequence of credits
and payments in which the amounts passed for the user are positive, every
wallet row of the user has a balance that is not negative; and when these
amounts have at most two decimals the balance equals total_credits_earned
minus total_spent. -/
theorem balance_nonneg_earned_minus_spent (db : Db) (userId : String) (calls : List Call)
    (hfresh : ∀ w ∈ db.wallets, w.user_id = userId →
      w.balance = 0 ∧ w.total_credits_earned = 0 ∧ w.total_spent = 0)
    (hpos : ∀ c ∈ calls, c.userId = userId → 0 < c.amount) :
    ((∀ w ∈ (run db calls).wallets, w.user_id = userId → 0 ≤ w.balance) ∧
      0 ≤ balanceOf (run db calls) userId) ∧
    ((∀ c ∈ calls, c.userId = userId → pgRound 2 c.amount = c.amount) →
      (∀ w ∈ (run db calls).wallets, w.user_id = userId →
        w.balance = w.total_credits_earned - w.total_spent) ∧
      balanceOf (run db calls) userId
        = creditsEarnedOf (run db calls) userId - totalSpentOf (run db calls) userId) := by
  obtain ⟨b, e, s, hb, hw⟩ := uniform_run
    (∀ c ∈ calls, c.userId = userId → pgRound 2 c.amount = c.amount) calls db userId
    (fun c hc hu => (hpos c hc hu).le) (fun hx => hx)
    ⟨0, 0, 0, uniform_zero _, hfresh⟩
  have hrows : ∀ w ∈ (run db calls).wallets, w.user_id = userId → 0 ≤ w.balance := by
    intro w hwm hwu
    rw [(hw w hwm hwu).1]
    exact hb.1
  have hexact : (∀ c ∈ calls, c.userId = userId → pgRound 2 c.amount = c.amount) →
      ∀ w ∈ (run db calls).wallets, w.user_id = userId →
        w.balance = w.total_credits_earned - w.total_spent := by
    intro hx w hwm hwu
    obtain ⟨h1, h2, h3⟩ := hw w hwm hwu
    rw [h1, h2, h3]
    exact (hb.2 hx).1
  refine ⟨⟨hrows, ?_⟩, fun hx => ⟨hexact hx, ?_⟩⟩
  · unfold balanceOf
    rcases hr : walletRows (run db calls) userId with _ | ⟨row, rest⟩
    · exact le_refl _
    · have hrow : row ∈ walletRows (run db calls) userId := by
        rw [hr]; exact List.mem_cons_self _ _
      simp only [walletRows, List.mem_filter] at hrow
      exact hrows row hrow.1 (by simpa using hrow.2)
  · unfold balanceOf creditsEarnedOf totalSpentOf
    rcases hr : walletRows (run db calls) userId with _ | ⟨row, rest⟩
    · norm_num
    · have hrow : row ∈ walletRows (run db calls) userId := by
        rw [hr]; exact List.mem_cons_self _ _
      simp only [walletRows, List.mem_filter] at hrow
      exact hexact hx row hrow.1 (by simpa using hrow.2)

/-- C30 (amended) at a credit of 50, a payment of 20 and a rejected payment of 75 -/
theorem balance_nonneg_earned_minus_spent_witness :
    0 ≤ balanceOf
        (run Db.empty
          [.issue (okEnv 1 "AAAAAA") Samples.sampleCredit,
           .pay (okEnv 2 "BBBBBB") (Samples.samplePayment 20),
           .pay (okEnv 3 "CCCCCC") (Samples.samplePayment 75)]) "u1" ∧
      balanceOf
        (run Db.empty
          [.issue (okEnv 1 "AAAAAA") Samples.sampleCredit,
           .pay (okEnv 2 "BBBBBB") (Samples.samplePayment 20),
           .pay (okEnv 3 "CCCCCC") (Samples.samplePayment 75)]) "u1"
        = creditsEarnedOf
            (run Db.empty
              [.issue (okEnv 1 "AAAAAA") Samples.sampleCredit,
               .pay (okEnv 2 "BBBBBB") (Samples.samplePayment 20),
               .pay (okEnv 3 "CCCCCC") (Samples.samplePayment 75)]) "u1"
          - totalSpentOf
            (run Db.empty
              [.issue (okEnv 1 "AAAAAA") Samples.sampleCredit,
               .pay (okEnv 2 "BBBBBB") (Samples.samplePayment 20),
               .pay (okEnv 3 "CCCCCC") (Samples.samplePayment 75)]) "u1" :=
  ⟨(balance_nonneg_earned_minus_spent Db.empty "u1" _
      (fun w hw => absurd hw (List.not_mem_nil w))
      (by
        intro c hc _
        simp only [List.mem_cons, List.mem_singleton, List.not_mem_nil, or_false] at hc
        rcases hc with rfl | rfl | rfl <;>
          norm_num [Call.amount, Samples.sampleCredit, Samples.samplePayment])).1.2,
    ((balance_nonneg_earned_minus_spent Db.empty "u1" _
      (fun w hw => absurd hw (List.not_mem_nil w))
      (by
        intro c hc _
        simp only [List.mem_cons, List.mem_singleton, List.not_mem_nil, or_false] at hc
        rcases hc with rfl | rfl | rfl <;>
          norm_num [Call.amount, Samples.sampleCredit, Samples.samplePayment])).2
      (by
        intro c hc _
        simp only [List.mem_cons, List.mem_singleton, List.not_mem_nil, or_false] at hc
        rcases hc with rfl | rfl | rfl <;>
          norm_num [Call.amount, Samples.sampleCredit, Samples.samplePayment,
            pgRound_ofNat])).2⟩
